import Mathlib

/-!
# GPT decode-and-validate engine (libclamav/gpt.c)

A shallow embedding of `gpt_detect_size`, `gpt_validate_header`,
`gpt_scan_partitions`, `gpt_prtn_intxn` and `cli_scangpt`.

Conventions of the embedding:
* the host is LP64 and little-endian: `size_t` and `uint64_t` are naturals
  reduced modulo `2^64`, `uint32_t` modulo `2^32`;
* the mapped file (`fmap_t`) is the list of its bytes, `real_len` its length;
* a C function whose execution dereferences a null pointer has result `none`.
-/

namespace Gpt

/-- One octet of the image. -/
abbrev Byte := Fin 256

/-- Result codes of libclamav used by gpt.c (`CL_SUCCESS` is `CL_CLEAN`);
every other code is `CL_EOTHER n`. -/
inductive cl_error_t where
  | CL_CLEAN
  | CL_VIRUS
  | CL_ENULLARG
  | CL_EFORMAT
  | CL_EOTHER (code : Nat)
  deriving DecidableEq, Repr

open cl_error_t

/-- The name `CL_SUCCESS` of the clean result. -/
abbrev CL_SUCCESS : cl_error_t := CL_CLEAN

/-- Modelled from the spec: the constant `GPT_SIGNATURE_STR` of gpt.h, the
8-byte magic "EFI PART". -/
def GPT_SIGNATURE_STR : List Byte := [0x45, 0x46, 0x49, 0x20, 0x50, 0x41, 0x52, 0x54]

/-- Modelled from the spec: the constant `GPT_SIGNATURE` of gpt.h, the magic
read as a big-endian 64-bit number. -/
def GPT_SIGNATURE : Nat := 0x4546492050415254

/-- Modelled from the spec: `GPT_PRIMARY_HDR_LBA` of gpt.h, the sector of the
primary header. -/
def GPT_PRIMARY_HDR_LBA : Nat := 1

/-- Modelled from the spec: `GPT_HDR_RESERVED` of gpt.h, the value the
reserved field must have. -/
def GPT_HDR_RESERVED : Nat := 0

/-- Modelled from the spec: `sizeof(struct gpt_header)`, the fixed width of
the packed header record (8+4+4+4+4+8+8+8+8+16+8+4+4+4 bytes). -/
def GPT_HDR_SIZE : Nat := 92

/-- Modelled from the spec: `sizeof(struct gpt_partition_entry)`, the fixed
width of the packed entry record (16+16+8+8+8+72 bytes). -/
def GPT_ENTRY_SIZE : Nat := 128

/-- Modulus of `size_t`, `off_t` bit patterns and `uint64_t`. -/
def U64 : Nat := 2 ^ 64

/-- Modulus of `uint32_t` and `unsigned`. -/
def U32 : Nat := 2 ^ 32

/-- Modelled from the spec: the single-shot bounded buffer accessor
`fmap_need_off_once(map, at, len)` of fmap.h: the `len` bytes at offset `at`,
or a null pointer (`none`) when `at + len` exceeds the image bounds. -/
def fmap_need_off_once (map : List Byte) (at_ len : Nat) : Option (List Byte) :=
  if at_ + len ≤ map.length then some ((map.drop at_).take len) else none

/-- Modelled from the spec: the byte reader `fmap_readn(map, dst, at, len)` of
fmap.h. The bytes copied to `dst`: all `len` of them, or fewer when the image
ends first (the C function then returns a count different from `len`). -/
def fmap_readn (map : List Byte) (at_ len : Nat) : List Byte :=
  (map.drop at_).take len

/-- One bit step of the reflected CRC-32 register (polynomial 0xEDB88320). -/
def crc32_bit (c : Nat) : Nat :=
  if c % 2 = 1 then (c / 2) ^^^ 0xEDB88320 else c / 2

/-- One byte step of the CRC-32 register. -/
def crc32_byte (c : Nat) (b : Byte) : Nat :=
  Nat.iterate crc32_bit 8 (c ^^^ b.val)

/-- Modelled from the spec: zlib's `crc32(crc, buf, len)`, the standard
ISO-HDLC CRC-32 with the default seed over the raw bytes; for a null `buf`
zlib returns the initial value 0. -/
def crc32 (crc : Nat) (buf : Option (List Byte)) : Nat :=
  match buf with
  | none => 0
  | some bs => (bs.foldl crc32_byte (crc ^^^ 0xFFFFFFFF)) ^^^ 0xFFFFFFFF

/-- The comparison `0 == strncmp(buff, GPT_SIGNATURE_STR, 8)` on a buffer of
8 readable bytes: the magic contains no NUL, so the comparison succeeds
exactly when the 8 bytes are the magic. A null `buff` is dereferenced by
`strncmp`: the result is `none`. -/
def strncmp_sig (buff : Option (List Byte)) : Option Bool :=
  match buff with
  | none => none
  | some bs => some (decide (bs = GPT_SIGNATURE_STR))

/-- The function `gpt_detect_size` of gpt.c: probes 512, 1024, 2048, 4096 in
this order; 0 when no probe matches. The result of `fmap_need_off_once` is
passed to `strncmp` unchecked. -/
def gpt_detect_size (map : List Byte) : Option Nat := do
  if (← strncmp_sig (fmap_need_off_once map 512 8)) then return 512
  if (← strncmp_sig (fmap_need_off_once map 1024 8)) then return 1024
  if (← strncmp_sig (fmap_need_off_once map 2048 8)) then return 2048
  if (← strncmp_sig (fmap_need_off_once map 4096 8)) then return 4096
  return 0

/-- Little-endian value of a byte string (`le16/32/64_to_host` on the raw
bytes of a field). -/
def le_to_host (bs : List Byte) : Nat :=
  bs.foldr (fun b acc => b.val + 256 * acc) 0

/-- Big-endian value of a byte string (`be32/64_to_host` on the raw bytes of
a field). -/
def be_to_host (bs : List Byte) : Nat :=
  bs.foldl (fun acc b => 256 * acc + b.val) 0

/-- The raw bytes of a record field: `w` bytes at offset `off`. -/
def field (rec : List Byte) (off w : Nat) : List Byte :=
  (rec.drop off).take w

/-- Modelled from the spec: `struct gpt_header` of gpt.h, the packed 92-byte
header record, kept as its raw bytes; the fields are read at their offsets
(signature 0, revision 8, headerSize 12, headerCRC32 16, reserved 20,
currentLBA 24, backupLBA 32, firstUsableLBA 40, lastUsableLBA 48, DiskGUID 56,
tableStartLBA 72, tableNumEntries 80, tableEntrySize 84, tableCRC32 88). -/
abbrev gpt_header := List Byte

/-- Modelled from the spec: `struct gpt_partition_entry` of gpt.h, the packed
128-byte entry record as raw bytes (typeGUID 0, uniqueGUID 16, firstLBA 32,
lastLBA 40, attributes 48, name 56). -/
abbrev gpt_partition_entry := List Byte

/-- Field `signature` after `be64_to_host`. -/
def hdr_signature (hdr : gpt_header) : Nat := be_to_host (field hdr 0 8)
/-- Field `headerSize` after `le32_to_host`. -/
def hdr_headerSize (hdr : gpt_header) : Nat := le_to_host (field hdr 12 4)
/-- Field `headerCRC32` after `le32_to_host`. -/
def hdr_headerCRC32 (hdr : gpt_header) : Nat := le_to_host (field hdr 16 4)
/-- Field `reserved` after `le32_to_host`. -/
def hdr_reserved (hdr : gpt_header) : Nat := le_to_host (field hdr 20 4)
/-- Field `currentLBA` after `le64_to_host`. -/
def hdr_currentLBA (hdr : gpt_header) : Nat := le_to_host (field hdr 24 8)
/-- Field `backupLBA` after `le64_to_host`. -/
def hdr_backupLBA (hdr : gpt_header) : Nat := le_to_host (field hdr 32 8)
/-- Field `firstUsableLBA` after `le64_to_host`. -/
def hdr_firstUsableLBA (hdr : gpt_header) : Nat := le_to_host (field hdr 40 8)
/-- Field `lastUsableLBA` after `le64_to_host`. -/
def hdr_lastUsableLBA (hdr : gpt_header) : Nat := le_to_host (field hdr 48 8)
/-- Field `tableStartLBA` after `le64_to_host`. -/
def hdr_tableStartLBA (hdr : gpt_header) : Nat := le_to_host (field hdr 72 8)
/-- Field `tableNumEntries` after `le32_to_host`. -/
def hdr_tableNumEntries (hdr : gpt_header) : Nat := le_to_host (field hdr 80 4)
/-- Field `tableEntrySize` after `le32_to_host`. -/
def hdr_tableEntrySize (hdr : gpt_header) : Nat := le_to_host (field hdr 84 4)
/-- Field `tableCRC32` after `le32_to_host`. -/
def hdr_tableCRC32 (hdr : gpt_header) : Nat := le_to_host (field hdr 88 4)

/-- Field `firstLBA` of an entry after `le64_to_host`. -/
def gpe_firstLBA (gpe : gpt_partition_entry) : Nat := le_to_host (field gpe 32 8)
/-- Field `lastLBA` of an entry after `le64_to_host`. -/
def gpe_lastLBA (gpe : gpt_partition_entry) : Nat := le_to_host (field gpe 40 8)

/-- The assignment `hdr.headerCRC32 = 0`: the record with the 4 bytes of the
checksum field (offsets 16..19) zeroed. -/
def hdr_zero_crc (hdr : gpt_header) : gpt_header :=
  hdr.take 16 ++ [0, 0, 0, 0] ++ hdr.drop 20

/-- The local `ptable_start` of `gpt_validate_header`: the 64-bit product
`hdr.tableStartLBA * sectorsize`. -/
def ptable_start (hdr : gpt_header) (sectorsize : Nat) : Nat :=
  (hdr_tableStartLBA hdr * sectorsize) % U64

/-- The local `ptable_len` of `gpt_validate_header`: the product
`hdr.tableNumEntries * hdr.tableEntrySize` of two `uint32_t`. -/
def ptable_len (hdr : gpt_header) : Nat :=
  (hdr_tableNumEntries hdr * hdr_tableEntrySize hdr) % U32

/-- The local `tableLastLBA` of `gpt_validate_header`:
`(hdr.tableStartLBA + (ptable_len / sectorsize)) - 1` in `uint64_t`. -/
def tableLastLBA (hdr : gpt_header) (sectorsize : Nat) : Nat :=
  (hdr_tableStartLBA hdr + ptable_len hdr / sectorsize + (U64 - 1)) % U64

/-- The local `lastLBA` of `gpt_validate_header`: `(maplen / sectorsize) - 1`
in `size_t`. -/
def lastLBA (map : List Byte) (sectorsize : Nat) : Nat :=
  (map.length / sectorsize + (U64 - 1)) % U64

/-- The function `gpt_validate_header` of gpt.c, on the mapped image
`(*ctx->fmap)`, a header record and the sector size, with the checks in the
order of the source. -/
def gpt_validate_header (map : List Byte) (hdr : gpt_header) (sectorsize : Nat) : cl_error_t :=
  let maplen := map.length
  let crc32_ref := hdr_headerCRC32 hdr
  let crc32_calc := crc32 0 (some (hdr_zero_crc hdr))
  if crc32_calc ≠ crc32_ref then CL_EFORMAT else
  let ptable_start := ptable_start hdr sectorsize
  let ptable_len := ptable_len hdr
  let tableLastLBA := tableLastLBA hdr sectorsize
  let lastLBA := lastLBA map sectorsize
  if hdr_signature hdr ≠ GPT_SIGNATURE then CL_EFORMAT else
  if hdr_headerSize hdr ≠ GPT_HDR_SIZE then CL_EFORMAT else
  if hdr_reserved hdr ≠ GPT_HDR_RESERVED then CL_EFORMAT else
  if ¬((hdr_currentLBA hdr = GPT_PRIMARY_HDR_LBA ∧ hdr_backupLBA hdr = lastLBA) ∨
       (hdr_currentLBA hdr = lastLBA ∧ hdr_backupLBA hdr = GPT_PRIMARY_HDR_LBA)) then
    CL_EFORMAT else
  if hdr_firstUsableLBA hdr > hdr_lastUsableLBA hdr then CL_EFORMAT else
  if hdr_firstUsableLBA hdr ≤ GPT_PRIMARY_HDR_LBA ∨ hdr_lastUsableLBA hdr ≥ lastLBA then
    CL_EFORMAT else
  if (hdr_tableStartLBA hdr ≤ hdr_firstUsableLBA hdr ∧ tableLastLBA ≥ hdr_firstUsableLBA hdr) ∨
     (hdr_tableStartLBA hdr ≥ hdr_firstUsableLBA hdr ∧
      hdr_tableStartLBA hdr ≤ hdr_lastUsableLBA hdr) then CL_EFORMAT else
  if hdr_tableStartLBA hdr ≤ GPT_PRIMARY_HDR_LBA ∨ tableLastLBA ≥ lastLBA then CL_EFORMAT else
  if hdr_tableEntrySize hdr ≠ GPT_ENTRY_SIZE then CL_EFORMAT else
  if (ptable_start + ptable_len) % U64 > maplen then CL_EFORMAT else
  let ptable := fmap_need_off_once map ptable_start ptable_len
  let crc32_calc := crc32 0 ptable
  if crc32_calc ≠ hdr_tableCRC32 hdr then CL_EFORMAT else
  CL_SUCCESS

/-- The states of `enum GPT_SCANSTATE`. -/
inductive GPT_SCANSTATE where
  | INVALID
  | PRIMARY_ONLY
  | SECONDARY_ONLY
  | BOTH
  deriving DecidableEq, Repr

open GPT_SCANSTATE

/-- What a table pass does to its collaborators, in order: `read i pos` is the
`fmap_readn` of entry `i` at byte offset `pos`, `scan off len` a call of
`cli_map_scan`, `insert start len` a call of `prtn_intxn_list_check`,
`append_virus` a call of `cli_append_virus`. -/
inductive event where
  | read (i pos : Nat)
  | scan (off len : Nat)
  | insert (start len : Nat)
  | append_virus
  deriving DecidableEq, Repr

/-- The part of `cli_ctx` that gpt.c uses. `cli_map_scan off len` is the
result of the content scanner on a byte range; `prtn_intxn_list_check prev
start len` is the result of the interval tracker for a new interval, given
the intervals inserted before in this pass. -/
structure cli_ctx where
  /-- The field `ctx->fmap`, `none` for a null pointer. -/
  fmap : Option (List Byte)
  /-- The flag `ctx->options & CL_SCAN_ALLMATCHES`. -/
  allmatches : Bool
  /-- The flag `ctx->options & CL_SCAN_PARTITION_INTXN`. -/
  partition_intxn : Bool
  /-- The flag `ctx->dconf->other & OTHER_CONF_PRTNINTXN`. -/
  dconf_prtnintxn : Bool
  /-- The limit `ctx->engine->maxpartitions`. -/
  maxpartitions : Nat
  /-- The content scanner. -/
  cli_map_scan : Nat → Nat → cl_error_t
  /-- The interval tracker's verdict. -/
  prtn_intxn_list_check : List (Nat × Nat) → Nat → Nat → cl_error_t

/-- The variables of the `for` loop of `gpt_scan_partitions`, with the events
of the pass so far. -/
structure scan_state where
  i : Nat
  pos : Nat
  ret : cl_error_t
  trace : List event
  deriving DecidableEq, Repr

/-- The variables of the `for` loop of `gpt_prtn_intxn`: the loop variables,
the intervals held by `prtncheck`, and the events of the pass so far. -/
structure intxn_state where
  i : Nat
  pos : Nat
  ret : cl_error_t
  prtncheck : List (Nat × Nat)
  trace : List event
  deriving DecidableEq, Repr

/-- Outcome of one execution of a loop body: go on with new variables, or
`return` from the function. -/
inductive step (σ : Type) where
  | next (st : σ)
  | done (r : cl_error_t) (trace : List event)

/-- The test `(ret != CL_CLEAN) && !((ctx->options & CL_SCAN_ALLMATCHES) &&
(ret == CL_VIRUS))` that stops a pass. -/
def stops (ctx : cli_ctx) (ret : cl_error_t) : Bool :=
  decide (ret ≠ CL_CLEAN) && !(ctx.allmatches && decide (ret = CL_VIRUS))

/-- The body of the `for` loop of `gpt_scan_partitions` (gpt.c lines 283-334)
for the entry at `st.pos`. -/
def gpt_scan_body (ctx : cli_ctx) (map : List Byte) (hdr : gpt_header) (sectorsize : Nat)
    (st : scan_state) : step scan_state :=
  let maplen := map.length
  let gpe := fmap_readn map st.pos GPT_ENTRY_SIZE
  let trace := st.trace ++ [event.read st.i st.pos]
  if gpe.length ≠ GPT_ENTRY_SIZE then step.done CL_EFORMAT trace else
  let pos' := (st.pos + hdr_tableEntrySize hdr) % U64
  if gpe_firstLBA gpe = 0 then
    step.next { i := st.i + 1, pos := pos', ret := st.ret, trace := trace }
  else if gpe_firstLBA gpe > gpe_lastLBA gpe ∨ gpe_firstLBA gpe < hdr_firstUsableLBA hdr ∨
      gpe_lastLBA gpe > hdr_lastUsableLBA hdr then
    step.next { i := st.i + 1, pos := pos', ret := st.ret, trace := trace }
  else if ((gpe_lastLBA gpe + 1) * sectorsize) % U64 > maplen then
    step.next { i := st.i + 1, pos := pos', ret := st.ret, trace := trace }
  else
    let part_off := (gpe_firstLBA gpe * sectorsize) % U64
    let part_size := ((gpe_lastLBA gpe - gpe_firstLBA gpe + 1) * sectorsize) % U64
    let ret := ctx.cli_map_scan part_off part_size
    let trace := trace ++ [event.scan part_off part_size]
    if stops ctx ret then step.done ret trace
    else step.next { i := st.i + 1, pos := pos', ret := ret, trace := trace }

/-- The `for` loop of `gpt_scan_partitions` with `n` iterations left, and the
`return ret` after it. -/
def gpt_scan_loop (ctx : cli_ctx) (map : List Byte) (hdr : gpt_header) (sectorsize : Nat) :
    Nat → scan_state → cl_error_t × List event
  | 0, st => (st.ret, st.trace)
  | n + 1, st =>
    match gpt_scan_body ctx map hdr sectorsize st with
    | step.done r trace => (r, trace)
    | step.next st' => gpt_scan_loop ctx map hdr sectorsize n st'

/-- The bound `max_prtns` of both passes: the smaller of the header's entry
count and the engine's partition limit. -/
def max_prtns (ctx : cli_ctx) (hdr : gpt_header) : Nat :=
  if hdr_tableNumEntries hdr < ctx.maxpartitions then hdr_tableNumEntries hdr
  else ctx.maxpartitions

/-- The function `gpt_scan_partitions` of gpt.c: its result and the events of
the pass. -/
def gpt_scan_partitions (ctx : cli_ctx) (map : List Byte) (hdr : gpt_header)
    (sectorsize : Nat) : cl_error_t × List event :=
  gpt_scan_loop ctx map hdr sectorsize (max_prtns ctx hdr)
    { i := 0, pos := (hdr_tableStartLBA hdr * sectorsize) % U64, ret := CL_CLEAN, trace := [] }

/-- The body of the `for` loop of `gpt_prtn_intxn` (gpt.c lines 559-605). -/
def gpt_prtn_intxn_body (ctx : cli_ctx) (map : List Byte) (hdr : gpt_header) (sectorsize : Nat)
    (st : intxn_state) : step intxn_state :=
  let maplen := map.length
  let gpe := fmap_readn map st.pos GPT_ENTRY_SIZE
  let trace := st.trace ++ [event.read st.i st.pos]
  if gpe.length ≠ GPT_ENTRY_SIZE then step.done CL_EFORMAT trace else
  let pos' := (st.pos + hdr_tableEntrySize hdr) % U64
  if gpe_firstLBA gpe = 0 then
    step.next { i := st.i + 1, pos := pos', ret := st.ret, prtncheck := st.prtncheck,
                trace := trace }
  else if gpe_firstLBA gpe > gpe_lastLBA gpe ∨ gpe_firstLBA gpe < hdr_firstUsableLBA hdr ∨
      gpe_lastLBA gpe > hdr_lastUsableLBA hdr then
    step.next { i := st.i + 1, pos := pos', ret := st.ret, prtncheck := st.prtncheck,
                trace := trace }
  else if ((gpe_lastLBA gpe + 1) * sectorsize) % U64 > maplen then
    step.next { i := st.i + 1, pos := pos', ret := st.ret, prtncheck := st.prtncheck,
                trace := trace }
  else
    let start := gpe_firstLBA gpe
    let size := gpe_lastLBA gpe - gpe_firstLBA gpe + 1
    let tmp := ctx.prtn_intxn_list_check st.prtncheck start size
    let prtncheck := st.prtncheck ++ [(start, size)]
    let trace := trace ++ [event.insert start size]
    if tmp ≠ CL_CLEAN then
      if ctx.allmatches ∧ tmp = CL_VIRUS then
        step.next { i := st.i + 1, pos := pos', ret := tmp, prtncheck := prtncheck,
                    trace := trace ++ [event.append_virus] }
      else if tmp = CL_VIRUS then step.done CL_VIRUS (trace ++ [event.append_virus])
      else step.done tmp trace
    else
      step.next { i := st.i + 1, pos := pos', ret := st.ret, prtncheck := prtncheck,
                  trace := trace }

/-- The `for` loop of `gpt_prtn_intxn` with `n` iterations left, and the
`return ret` after it. -/
def gpt_prtn_intxn_loop (ctx : cli_ctx) (map : List Byte) (hdr : gpt_header)
    (sectorsize : Nat) : Nat → intxn_state → cl_error_t × List event
  | 0, st => (st.ret, st.trace)
  | n + 1, st =>
    match gpt_prtn_intxn_body ctx map hdr sectorsize st with
    | step.done r trace => (r, trace)
    | step.next st' => gpt_prtn_intxn_loop ctx map hdr sectorsize n st'

/-- The function `gpt_prtn_intxn` of gpt.c, with a fresh interval list. -/
def gpt_prtn_intxn (ctx : cli_ctx) (map : List Byte) (hdr : gpt_header)
    (sectorsize : Nat) : cl_error_t × List event :=
  gpt_prtn_intxn_loop ctx map hdr sectorsize (max_prtns ctx hdr)
    { i := 0, pos := (hdr_tableStartLBA hdr * sectorsize) % U64, ret := CL_CLEAN,
      prtncheck := [], trace := [] }

/-- The contents of a local `struct gpt_header` after `fmap_readn` copied
the bytes `rd` into it: byte `j` is the byte read when one was copied there,
and the indeterminate initial byte `stack j` of the variable otherwise. -/
def hdr_after_read (rd : List Byte) (stack : Nat → Byte) : gpt_header :=
  (List.range GPT_HDR_SIZE).map fun j => rd.getD j (stack j)

/-- The read of the primary header in `cli_scangpt` (line 133): the bytes
copied from offset `GPT_PRIMARY_HDR_LBA * sectorsize`. -/
def read_primary (map : List Byte) (sectorsize : Nat) : List Byte :=
  fmap_readn map ((GPT_PRIMARY_HDR_LBA * sectorsize) % U64) GPT_HDR_SIZE

/-- The read of the secondary header in `cli_scangpt` (lines 147, 164): the
bytes copied from offset `maplen - sectorsize`, a `size_t` difference. -/
def read_secondary (map : List Byte) (sectorsize : Nat) : List Byte :=
  fmap_readn map ((map.length + (U64 - sectorsize % U64)) % U64) GPT_HDR_SIZE

/-- Lines 129-181 of `cli_scangpt`: both headers are read and validated and
the scan state is chosen. The result is the `return`ed error, or the state
with the contents of `phdr` and `shdr`. `stack` is the indeterminate initial
content of the local `shdr`. -/
def cli_scangpt_headers (map : List Byte) (sectorsize : Nat) (stack : Nat → Byte) :
    Except cl_error_t (GPT_SCANSTATE × gpt_header × gpt_header) :=
  let phdr := read_primary map sectorsize
  if phdr.length ≠ GPT_HDR_SIZE then Except.error CL_EFORMAT else
  let rd := read_secondary map sectorsize
  let shdr := hdr_after_read rd stack
  if gpt_validate_header map phdr sectorsize ≠ CL_SUCCESS then
    if rd.length ≠ GPT_HDR_SIZE then Except.error CL_EFORMAT
    else if gpt_validate_header map shdr sectorsize ≠ CL_SUCCESS then Except.error CL_EFORMAT
    else Except.ok (SECONDARY_ONLY, phdr, shdr)
  else
    if rd.length ≠ GPT_HDR_SIZE then Except.ok (PRIMARY_ONLY, phdr, shdr)
    else if gpt_validate_header map shdr sectorsize ≠ CL_SUCCESS then
      Except.ok (PRIMARY_ONLY, phdr, shdr)
    else if hdr_tableCRC32 phdr ≠ hdr_tableCRC32 shdr then Except.ok (BOTH, phdr, shdr)
    else Except.ok (PRIMARY_ONLY, phdr, shdr)

/-- Lines 199-235 of `cli_scangpt`: the `switch (state)` that scans the
partitions, entered with the value `ret` and the events `trace` of the
overlap stage. -/
def cli_scangpt_scan (ctx : cli_ctx) (map : List Byte) (sectorsize : Nat)
    (state : GPT_SCANSTATE) (phdr shdr : gpt_header) (ret : cl_error_t) (trace : List event) :
    cl_error_t × List event :=
  match state with
  | PRIMARY_ONLY =>
    let r := gpt_scan_partitions ctx map phdr sectorsize
    (r.1, trace ++ r.2)
  | SECONDARY_ONLY =>
    let r := gpt_scan_partitions ctx map shdr sectorsize
    (r.1, trace ++ r.2)
  | BOTH =>
    let r := gpt_scan_partitions ctx map phdr sectorsize
    if stops ctx r.1 then (r.1, trace ++ r.2) else
    let r' := gpt_scan_partitions ctx map shdr sectorsize
    (r'.1, trace ++ r.2 ++ r'.2)
  | INVALID => (ret, trace)

/-- Lines 183-235 of `cli_scangpt`: the overlap heuristic over `phdr` and
`shdr` when it is enabled, then the partition scan. -/
def cli_scangpt_passes (ctx : cli_ctx) (map : List Byte) (sectorsize : Nat)
    (state : GPT_SCANSTATE) (phdr shdr : gpt_header) : cl_error_t × List event :=
  if ctx.partition_intxn && ctx.dconf_prtnintxn then
    let r := gpt_prtn_intxn ctx map phdr sectorsize
    if stops ctx r.1 then r else
    let r' := gpt_prtn_intxn ctx map shdr sectorsize
    if stops ctx r'.1 then (r'.1, r.2 ++ r'.2) else
    cli_scangpt_scan ctx map sectorsize state phdr shdr r'.1 (r.2 ++ r'.2)
  else
    cli_scangpt_scan ctx map sectorsize state phdr shdr CL_CLEAN []

/-- Lines 116-235 of `cli_scangpt`, once the sector size variable has its
final value. -/
def cli_scangpt_sized (ctx : cli_ctx) (map : List Byte) (sectorsize : Nat)
    (stack : Nat → Byte) : cl_error_t × List event :=
  if sectorsize = 0 then (CL_EFORMAT, []) else
  if map.length % sectorsize ≠ 0 then (CL_EFORMAT, []) else
  match cli_scangpt_headers map sectorsize stack with
  | Except.error e => (e, [])
  | Except.ok (state, phdr, shdr) => cli_scangpt_passes ctx map sectorsize state phdr shdr

/-- The function `cli_scangpt` of gpt.c: the result code and the events of
the table passes, or `none` when `gpt_detect_size` dereferences a null
pointer. `ctx` is `none` for a null context. -/
def cli_scangpt (ctx : Option cli_ctx) (sectorsize : Nat) (stack : Nat → Byte) :
    Option (cl_error_t × List event) :=
  match ctx with
  | none => some (CL_ENULLARG, [])
  | some ctx =>
    match ctx.fmap with
    | none => some (CL_ENULLARG, [])
    | some map =>
      (if sectorsize = 0 then gpt_detect_size map else some sectorsize).map fun sectorsize =>
        cli_scangpt_sized ctx map sectorsize stack

/-- The 8 image bytes at offset `s` are the GPT signature string. -/
def sig_at (map : List Byte) (s : Nat) : Prop :=
  s + 8 ≤ map.length ∧ (map.drop s).take 8 = GPT_SIGNATURE_STR

instance (map : List Byte) (s : Nat) : Decidable (sig_at map s) := by
  unfold sig_at; infer_instance

/-- Evaluation of `k n` that first brings `n` to a numeral. -/
def seq_nat {α : Type} (n : Nat) (k : Nat → α) : α :=
  match n with
  | 0 => k 0
  | m + 1 => k (m + 1)

/-- The CRC-32 register after the bytes `bs`, evaluated byte by byte. -/
def crc32_run : Nat → List Byte → Nat
  | c, [] => c
  | c, b :: bs => seq_nat (crc32_byte c b) fun v => crc32_run v bs

/-! ### Sample inputs

An all-zero image of 8 sectors of 512 bytes (last LBA 7) and header records
for it, all with the magic, revision 1.0, header size 92, current LBA 1,
backup LBA 7, entry size 128 and a correct header checksum. -/

/-- The 4096-byte all-zero image. -/
def sample_map : List Byte := List.replicate 4096 0

/-- A context for `sample_map`: overlap heuristic off, limit 128, a scanner
and a tracker that report clean. -/
def sample_ctx : cli_ctx :=
  { fmap := some sample_map, allmatches := false, partition_intxn := false,
    dconf_prtnintxn := false, maxpartitions := 128,
    cli_map_scan := fun _ _ => CL_CLEAN,
    prtn_intxn_list_check := fun _ _ _ => CL_CLEAN }

/-- Usable range [3,5], table of 1 entry at LBA 2 with its correct checksum. -/
def hdr_ok : gpt_header :=
  [69, 70, 73, 32, 80, 65, 82, 84, 0, 0, 1, 0, 92, 0, 0, 0, 242, 85, 150, 148, 0, 0, 0, 0, 1,
   0, 0, 0, 0, 0, 0, 0, 7, 0, 0, 0, 0, 0, 0, 0, 3, 0, 0, 0, 0, 0, 0, 0, 5, 0, 0, 0, 0, 0, 0, 0,
   0, 0, 0, 0, 0, 0, 0, 0, 0, 0, 0, 0, 0, 0, 0, 0, 2, 0, 0, 0, 0, 0, 0, 0, 1, 0, 0, 0, 128, 0,
   0, 0, 157, 250, 168, 194]

/-- Usable range [3,5], table of 5 entries (640 bytes) at LBA 2 with its
correct checksum: the table ends inside LBA 3. -/
def hdr_floor : gpt_header :=
  [69, 70, 73, 32, 80, 65, 82, 84, 0, 0, 1, 0, 92, 0, 0, 0, 153, 197, 111, 163, 0, 0, 0, 0, 1,
   0, 0, 0, 0, 0, 0, 0, 7, 0, 0, 0, 0, 0, 0, 0, 3, 0, 0, 0, 0, 0, 0, 0, 5, 0, 0, 0, 0, 0, 0, 0,
   0, 0, 0, 0, 0, 0, 0, 0, 0, 0, 0, 0, 0, 0, 0, 0, 2, 0, 0, 0, 0, 0, 0, 0, 5, 0, 0, 0, 128, 0,
   0, 0, 218, 22, 119, 75]

/-- Usable range [2,5], table of 1 entry at LBA 7, the last LBA of the image,
with its correct checksum. -/
def hdr_lastlba : gpt_header :=
  [69, 70, 73, 32, 80, 65, 82, 84, 0, 0, 1, 0, 92, 0, 0, 0, 224, 121, 208, 214, 0, 0, 0, 0, 1,
   0, 0, 0, 0, 0, 0, 0, 7, 0, 0, 0, 0, 0, 0, 0, 2, 0, 0, 0, 0, 0, 0, 0, 5, 0, 0, 0, 0, 0, 0, 0,
   0, 0, 0, 0, 0, 0, 0, 0, 0, 0, 0, 0, 0, 0, 0, 0, 7, 0, 0, 0, 0, 0, 0, 0, 1, 0, 0, 0, 128, 0,
   0, 0, 157, 250, 168, 194]

/-- Usable range [3,5], table at LBA 2 with `tableNumEntries = 2^25` and table
checksum 0. -/
def hdr_wrap_len : gpt_header :=
  [69, 70, 73, 32, 80, 65, 82, 84, 0, 0, 1, 0, 92, 0, 0, 0, 25, 107, 8, 197, 0, 0, 0, 0, 1, 0,
   0, 0, 0, 0, 0, 0, 7, 0, 0, 0, 0, 0, 0, 0, 3, 0, 0, 0, 0, 0, 0, 0, 5, 0, 0, 0, 0, 0, 0, 0, 0,
   0, 0, 0, 0, 0, 0, 0, 0, 0, 0, 0, 0, 0, 0, 0, 2, 0, 0, 0, 0, 0, 0, 0, 0, 0, 0, 2, 128, 0, 0,
   0, 0, 0, 0, 0]

/-- Usable range [2,5], `tableStartLBA = 2^64 - 1`, 8 entries and table
checksum 0. -/
def hdr_wrap_start : gpt_header :=
  [69, 70, 73, 32, 80, 65, 82, 84, 0, 0, 1, 0, 92, 0, 0, 0, 56, 111, 158, 173, 0, 0, 0, 0, 1,
   0, 0, 0, 0, 0, 0, 0, 7, 0, 0, 0, 0, 0, 0, 0, 2, 0, 0, 0, 0, 0, 0, 0, 5, 0, 0, 0, 0, 0, 0, 0,
   0, 0, 0, 0, 0, 0, 0, 0, 0, 0, 0, 0, 0, 0, 0, 0, 255, 255, 255, 255, 255, 255, 255, 255, 8,
   0, 0, 0, 128, 0, 0, 0, 0, 0, 0, 0]

/-- Usable range [2,5], table at LBA 6 with `tableNumEntries = 2^25 + 1` and
as table checksum the CRC32 of 128 zero bytes. -/
def hdr_wrap_crc : gpt_header :=
  [69, 70, 73, 32, 80, 65, 82, 84, 0, 0, 1, 0, 92, 0, 0, 0, 32, 106, 65, 157, 0, 0, 0, 0, 1, 0,
   0, 0, 0, 0, 0, 0, 7, 0, 0, 0, 0, 0, 0, 0, 2, 0, 0, 0, 0, 0, 0, 0, 5, 0, 0, 0, 0, 0, 0, 0, 0,
   0, 0, 0, 0, 0, 0, 0, 0, 0, 0, 0, 0, 0, 0, 0, 6, 0, 0, 0, 0, 0, 0, 0, 1, 0, 0, 2, 128, 0, 0,
   0, 157, 250, 168, 194]

/-! ### Notions used to state the properties of the passes -/

/-- The condition under which the loop body of either pass reaches its last
`else` branch for an entry: none of the three skipping tests of gpt.c (lines
298-310 and 570-579) holds. -/
def entry_accepted (map : List Byte) (hdr : gpt_header) (sectorsize : Nat)
    (gpe : gpt_partition_entry) : Prop :=
  gpe_firstLBA gpe ≠ 0 ∧
  ¬ (gpe_firstLBA gpe > gpe_lastLBA gpe ∨ gpe_firstLBA gpe < hdr_firstUsableLBA hdr ∨
     gpe_lastLBA gpe > hdr_lastUsableLBA hdr) ∧
  ¬ (((gpe_lastLBA gpe + 1) * sectorsize) % U64 > map.length)

instance (map : List Byte) (hdr : gpt_header) (sectorsize : Nat) (gpe : gpt_partition_entry) :
    Decidable (entry_accepted map hdr sectorsize gpe) := by
  unfold entry_accepted; infer_instance

/-- The events recorded when a loop body of the scan pass ends. -/
def scan_step_trace : step scan_state → List event
  | step.next st => st.trace
  | step.done _ trace => trace

/-- The events that one execution of the scan loop body adds. -/
def scan_body_events (ctx : cli_ctx) (map : List Byte) (hdr : gpt_header) (sectorsize : Nat)
    (st : scan_state) : List event :=
  (scan_step_trace (gpt_scan_body ctx map hdr sectorsize st)).drop st.trace.length

/-- The entry of loop state `st` is dispatched to the content scanner: the
loop body calls `cli_map_scan`. -/
def dispatched (ctx : cli_ctx) (map : List Byte) (hdr : gpt_header) (sectorsize : Nat)
    (st : scan_state) : Prop :=
  ∃ off len, event.scan off len ∈ scan_body_events ctx map hdr sectorsize st

/-- The event is a read of a partition entry. -/
def event.is_read : event → Bool
  | event.read _ _ => true
  | _ => false

/-- The event is a call of the content scanner. -/
def event.is_scan : event → Bool
  | event.scan _ _ => true
  | _ => false

/-- The local `part_off` of `gpt_scan_partitions` for an entry. -/
def part_off (sectorsize : Nat) (gpe : gpt_partition_entry) : Nat :=
  (gpe_firstLBA gpe * sectorsize) % U64

/-- The local `part_size` of `gpt_scan_partitions` for an entry. -/
def part_size (sectorsize : Nat) (gpe : gpt_partition_entry) : Nat :=
  ((gpe_lastLBA gpe - gpe_firstLBA gpe + 1) * sectorsize) % U64

/-- The value `cli_map_scan` returns for an entry that is dispatched. -/
def scan_result (ctx : cli_ctx) (sectorsize : Nat) (gpe : gpt_partition_entry) : cl_error_t :=
  ctx.cli_map_scan (part_off sectorsize gpe) (part_size sectorsize gpe)

/-- The loop variables of the scan pass after an entry that made no `return`:
next index, next offset, the given `ret` and the given new events. -/
def scan_next (hdr : gpt_header) (st : scan_state) (ret : cl_error_t) (evs : List event) :
    scan_state :=
  { i := st.i + 1, pos := (st.pos + hdr_tableEntrySize hdr) % U64, ret := ret,
    trace := st.trace ++ evs }

/-- The loop variables of the overlap pass after an entry that made no
`return`. -/
def intxn_next (hdr : gpt_header) (st : intxn_state) (ret : cl_error_t)
    (ivs : List (Nat × Nat)) (evs : List event) : intxn_state :=
  { i := st.i + 1, pos := (st.pos + hdr_tableEntrySize hdr) % U64, ret := ret,
    prtncheck := st.prtncheck ++ ivs, trace := st.trace ++ evs }

/-- The value `prtn_intxn_list_check` returns for an entry that is inserted. -/
def intxn_result (ctx : cli_ctx) (st : intxn_state) (gpe : gpt_partition_entry) : cl_error_t :=
  ctx.prtn_intxn_list_check st.prtncheck (gpe_firstLBA gpe)
    (gpe_lastLBA gpe - gpe_firstLBA gpe + 1)

/-- The interval that the overlap pass inserts for an entry. -/
def gpe_interval (gpe : gpt_partition_entry) : Nat × Nat :=
  (gpe_firstLBA gpe, gpe_lastLBA gpe - gpe_firstLBA gpe + 1)

/-! ### Sample images with partitions -/

/-- The `w` little-endian bytes of `n`. -/
def le_bytes (w n : Nat) : List Byte :=
  (List.range w).map fun k => Fin.ofNat (n / 256 ^ k)

/-- A partition entry record with the given `firstLBA` and `lastLBA`, all
other bytes zero. -/
def mk_entry (first last : Nat) : gpt_partition_entry :=
  List.replicate 32 0 ++ le_bytes 8 first ++ le_bytes 8 last ++ List.replicate 80 0

/-- A header for an image of 8 sectors: usable range [3,5], table of 2 entries
at LBA 2, with the checksum of the table of `map_two` and a correct header
checksum. -/
def hdr_two : gpt_header :=
  [69, 70, 73, 32, 80, 65, 82, 84, 0, 0, 1, 0, 92, 0, 0, 0, 192, 188, 148, 17, 0, 0, 0, 0, 1,
   0, 0, 0, 0, 0, 0, 0, 7, 0, 0, 0, 0, 0, 0, 0, 3, 0, 0, 0, 0, 0, 0, 0, 5, 0, 0, 0, 0, 0, 0, 0,
   0, 0, 0, 0, 0, 0, 0, 0, 0, 0, 0, 0, 0, 0, 0, 0, 2, 0, 0, 0, 0, 0, 0, 0, 2, 0, 0, 0, 128, 0,
   0, 0, 180, 213, 130, 69]

/-- An image of 8 sectors of 512 bytes: `hdr_two` in LBA 1, in LBA 2 the
entries [3,3] and [4,4], zero bytes elsewhere (no secondary header). -/
def map_two : List Byte :=
  List.replicate 512 0 ++ hdr_two ++ List.replicate 420 0 ++ mk_entry 3 3 ++ mk_entry 4 4 ++
    List.replicate 2816 0

/-- A context for `map_two` in all-matches mode, overlap heuristic off, whose
scanner reports a detection for the partition at byte offset 1536 (LBA 3) and
clean for every other range. -/
def ctx_two : cli_ctx :=
  { fmap := some map_two, allmatches := true, partition_intxn := false,
    dconf_prtnintxn := false, maxpartitions := 128,
    cli_map_scan := fun off _ => if off = 1536 then CL_VIRUS else CL_CLEAN,
    prtn_intxn_list_check := fun _ _ _ => CL_CLEAN }

/-- A header record that was not validated: first usable LBA 0, last usable
LBA `2^64 - 1`, table of 1 entry at LBA 0, all other bytes zero. -/
def hdr_unchecked : gpt_header :=
  List.replicate 48 0 ++ List.replicate 8 255 ++ List.replicate 24 0 ++ [1, 0, 0, 0] ++
    List.replicate 8 0

/-- A 4096-byte image that starts with the entry record [1, 2^64 - 1]. -/
def map_wrap : List Byte :=
  mk_entry 1 (2 ^ 64 - 1) ++ List.replicate 3968 0

/-- What the claim on the scanner calls asks of an event of the scan pass: a
call `scan off len` is for an entry record read in full at some offset, with
`firstLBA ≤ lastLBA`, `off` and `len` the exact products, and the byte range
`[off, off + len)`, which ends at `(lastLBA + 1) × sectorsize`, not empty
and inside the image. -/
def scan_call_ok (map : List Byte) (sectorsize : Nat) : event → Prop
  | event.scan off len =>
    ∃ pos, (fmap_readn map pos GPT_ENTRY_SIZE).length = GPT_ENTRY_SIZE ∧
      gpe_firstLBA (fmap_readn map pos GPT_ENTRY_SIZE) ≤
        gpe_lastLBA (fmap_readn map pos GPT_ENTRY_SIZE) ∧
      off = gpe_firstLBA (fmap_readn map pos GPT_ENTRY_SIZE) * sectorsize ∧
      len = (gpe_lastLBA (fmap_readn map pos GPT_ENTRY_SIZE) -
        gpe_firstLBA (fmap_readn map pos GPT_ENTRY_SIZE) + 1) * sectorsize ∧
      off + len = (gpe_lastLBA (fmap_readn map pos GPT_ENTRY_SIZE) + 1) * sectorsize ∧
      0 < len ∧ off + len ≤ map.length
  | _ => True

/-- A header record that was not validated: table of 1 entry of 128 bytes at
LBA `2^55`, all other bytes zero. -/
def hdr_far : gpt_header :=
  List.replicate 72 0 ++ le_bytes 8 (2 ^ 55) ++ le_bytes 4 1 ++ le_bytes 4 128 ++
    List.replicate 4 0

/-- The claim on the entries read, for one run of `gpt_scan_partitions`: the
pass reads `k ≤ min(tableNumEntries, limit)` entries, the `i`-th of them at
byte offset `tableStartLBA × sectorsize + i × tableEntrySize`, and calls the
scanner at most `k` times. -/
def reads_at_stride (ctx : cli_ctx) (map : List Byte) (hdr : gpt_header) (sectorsize : Nat) :
    Prop :=
  ∃ k, k ≤ max_prtns ctx hdr ∧
    (gpt_scan_partitions ctx map hdr sectorsize).2.filter event.is_read =
      (List.range k).map (fun i =>
        event.read i (hdr_tableStartLBA hdr * sectorsize + i * hdr_tableEntrySize hdr)) ∧
    ((gpt_scan_partitions ctx map hdr sectorsize).2.filter event.is_scan).length ≤ k

/-- A header for the last sector of an image of 8 sectors: current LBA 7,
backup LBA 1, usable range [3,5], table of 1 entry at LBA 6, with the
checksum of 128 zero bytes as table checksum and a correct header checksum. -/
def hdr_backup : gpt_header :=
  [69, 70, 73, 32, 80, 65, 82, 84, 0, 0, 1, 0, 92, 0, 0, 0, 199, 197, 253, 140, 0, 0, 0, 0, 7,
   0, 0, 0, 0, 0, 0, 0, 1, 0, 0, 0, 0, 0, 0, 0, 3, 0, 0, 0, 0, 0, 0, 0, 5, 0, 0, 0, 0, 0, 0, 0,
   0, 0, 0, 0, 0, 0, 0, 0, 0, 0, 0, 0, 0, 0, 0, 0, 6, 0, 0, 0, 0, 0, 0, 0, 1, 0, 0, 0, 128, 0,
   0, 0, 157, 250, 168, 194]

/-- An image of 8 sectors of 512 bytes: `hdr_ok` in LBA 1 (its table, one
unused entry, in LBA 2) and zero bytes elsewhere, also in the last sector. -/
def map_nosec : List Byte :=
  List.replicate 512 0 ++ hdr_ok ++ List.replicate 3492 0

/-- The image `map_nosec` with the first 92 bytes of the last sector replaced
by bytes 255: a secondary header record that does not validate. -/
def map_junk : List Byte :=
  List.replicate 512 0 ++ hdr_ok ++ List.replicate 2980 0 ++ List.replicate 92 255 ++
    List.replicate 420 0

/-- An image of 8 sectors of 512 bytes with a primary header record of bytes
255, which does not validate, and the valid secondary header `hdr_backup` in
the last sector (its table, one unused entry, in LBA 6). -/
def map_backup : List Byte :=
  List.replicate 512 0 ++ List.replicate 92 255 ++ List.replicate 2980 0 ++ hdr_backup ++
    List.replicate 420 0

/-- The configuration with the overlap heuristic enabled, normal mode, limit
128, a scanner that always reports clean and a tracker that never reports a
conflict, for the image `map`. -/
def ctx_heur (map : List Byte) : cli_ctx :=
  { fmap := some map, allmatches := false, partition_intxn := true,
    dconf_prtnintxn := true, maxpartitions := 128,
    cli_map_scan := fun _ _ => CL_CLEAN,
    prtn_intxn_list_check := fun _ _ _ => CL_CLEAN }

/-- The byte offset at which both passes read entry `j` of the table of
`hdr`: `pos` after `j` additions of the header's entry size (64-bit). -/
def entry_pos (hdr : gpt_header) (sectorsize j : Nat) : Nat :=
  (hdr_tableStartLBA hdr * sectorsize + j * hdr_tableEntrySize hdr) % U64

/-- The record that both passes read for entry `j` of the table of `hdr`. -/
def entry_rec (map : List Byte) (hdr : gpt_header) (sectorsize j : Nat) : gpt_partition_entry :=
  fmap_readn map (entry_pos hdr sectorsize j) GPT_ENTRY_SIZE

/-- Modelled from the spec: the verdict of the interval tracker
`prtn_intxn_list_check` of prtn_intxn.c, which reports a conflict exactly when
the new interval `[start, start + len)` shares an LBA with an interval
inserted before. -/
def spec_intxn_check (prev : List (Nat × Nat)) (start len : Nat) : cl_error_t :=
  if prev.any (fun p => decide (p.1 < start + len ∧ start < p.1 + p.2)) then CL_VIRUS
  else CL_CLEAN

/-- The events recorded when a loop body of the overlap pass ends. -/
def intxn_step_trace : step intxn_state → List event
  | step.next st => st.trace
  | step.done _ trace => trace

/-- A header for an image of 32 sectors: usable range [3,30], table of 3
entries at LBA 2, with the table checksum of `map_ovl_a` and a correct header
checksum. -/
def hdr_ovl_a : gpt_header :=
  [69, 70, 73, 32, 80, 65, 82, 84, 0, 0, 1, 0, 92, 0, 0, 0, 149, 116, 64, 217, 0, 0, 0, 0, 1,
   0, 0, 0, 0, 0, 0, 0, 31, 0, 0, 0, 0, 0, 0, 0, 3, 0, 0, 0, 0, 0, 0, 0, 30, 0, 0, 0, 0, 0, 0,
   0, 0, 0, 0, 0, 0, 0, 0, 0, 0, 0, 0, 0, 0, 0, 0, 0, 2, 0, 0, 0, 0, 0, 0, 0, 3, 0, 0, 0, 128,
   0, 0, 0, 23, 111, 193, 233]

/-- The header `hdr_ovl_a` with the table checksum of `map_ovl_b`. -/
def hdr_ovl_b : gpt_header :=
  [69, 70, 73, 32, 80, 65, 82, 84, 0, 0, 1, 0, 92, 0, 0, 0, 134, 88, 29, 108, 0, 0, 0, 0, 1, 0,
   0, 0, 0, 0, 0, 0, 31, 0, 0, 0, 0, 0, 0, 0, 3, 0, 0, 0, 0, 0, 0, 0, 30, 0, 0, 0, 0, 0, 0, 0,
   0, 0, 0, 0, 0, 0, 0, 0, 0, 0, 0, 0, 0, 0, 0, 0, 2, 0, 0, 0, 0, 0, 0, 0, 3, 0, 0, 0, 128, 0,
   0, 0, 35, 31, 21, 35]

/-- An image of 32 sectors of 512 bytes: `hdr_ovl_a` in LBA 1, in LBA 2 a
table whose used entries are [10,20] and [15,25], with an unused entry
between them. -/
def map_ovl_a : List Byte :=
  List.replicate 512 0 ++ hdr_ovl_a ++ List.replicate 420 0 ++ mk_entry 10 20 ++ mk_entry 0 0 ++
    mk_entry 15 25 ++ List.replicate 14976 0

/-- An image of 32 sectors of 512 bytes: `hdr_ovl_b` in LBA 1, in LBA 2 a
table whose used entries are [10,20] and [21,30], with an unused entry
between them. -/
def map_ovl_b : List Byte :=
  List.replicate 512 0 ++ hdr_ovl_b ++ List.replicate 420 0 ++ mk_entry 10 20 ++ mk_entry 0 0 ++
    mk_entry 21 30 ++ List.replicate 14976 0

/-- A configuration in normal mode with the overlap heuristic enabled, limit
128, a scanner that always reports clean and the tracker of the spec. -/
def ctx_ovl (map : List Byte) : cli_ctx :=
  { fmap := some map, allmatches := false, partition_intxn := true,
    dconf_prtnintxn := true, maxpartitions := 128,
    cli_map_scan := fun _ _ => CL_CLEAN,
    prtn_intxn_list_check := spec_intxn_check }

/-- The headers that the scan state names: the ones passed to
`gpt_scan_partitions` by the `switch (state)` of `cli_scangpt`. -/
def chosen_headers : GPT_SCANSTATE → gpt_header → gpt_header → List gpt_header
  | PRIMARY_ONLY, phdr, _ => [phdr]
  | SECONDARY_ONLY, _, shdr => [shdr]
  | BOTH, phdr, shdr => [phdr, shdr]
  | INVALID, _, _ => []

/-- A primary header for an image of 256 sectors of 512 bytes: usable range
[34, 222], table of one 128-byte entry at LBA 2, with header and table
checksums that validate on `map_e2e`. -/
def hdr_e2e : gpt_header :=
  [69, 70, 73, 32, 80, 65, 82, 84, 0, 0, 1, 0, 92, 0, 0, 0, 135, 49, 225, 214, 0, 0, 0, 0, 1,
   0, 0, 0, 0, 0, 0, 0, 255, 0, 0, 0, 0, 0, 0, 0, 34, 0, 0, 0, 0, 0, 0, 0, 222, 0, 0, 0, 0, 0,
   0, 0, 0, 0, 0, 0, 0, 0, 0, 0, 0, 0, 0, 0, 0, 0, 0, 0, 2, 0, 0, 0, 0, 0, 0, 0, 1, 0, 0, 0,
   128, 0, 0, 0, 64, 173, 22, 241]

/-- An image of 256 sectors of 512 bytes: the header `hdr_e2e` in LBA 1, the
table of one used entry covering LBAs [100, 199] in LBA 2, zero elsewhere. -/
def map_e2e : List Byte :=
  List.replicate 512 0 ++ hdr_e2e ++ List.replicate 420 0 ++ mk_entry 100 199 ++
    List.replicate 129920 0

/-- The configuration of `ctx_heur` with the overlap heuristic disabled:
normal mode, limit 128, a scanner that always reports clean and a tracker that
never reports a conflict, for the image `map`. -/
def ctx_plain (map : List Byte) : cli_ctx :=
  { fmap := some map, allmatches := false, partition_intxn := false,
    dconf_prtnintxn := true, maxpartitions := 128,
    cli_map_scan := fun _ _ => CL_CLEAN,
    prtn_intxn_list_check := fun _ _ _ => CL_CLEAN }

/-- The loop variables with which `gpt_prtn_intxn` enters its `for` loop. -/
def intxn_start (hdr : gpt_header) (sectorsize : Nat) : intxn_state :=
  { i := 0, pos := (hdr_tableStartLBA hdr * sectorsize) % U64, ret := CL_CLEAN,
    prtncheck := [], trace := [] }

/-- The loop variables with which the iteration `k` iterations after the one
that begins in `st` begins in the `for` loop of `gpt_prtn_intxn`, when the loop
gets that far; `none` when the function returned before. -/
def gpt_prtn_intxn_state (ctx : cli_ctx) (map : List Byte) (hdr : gpt_header)
    (sectorsize : Nat) : Nat → intxn_state → Option intxn_state
  | 0, st => some st
  | k + 1, st =>
    match gpt_prtn_intxn_body ctx map hdr sectorsize st with
    | step.done _ _ => none
    | step.next st' => gpt_prtn_intxn_state ctx map hdr sectorsize k st'

/-- A header for an image of 32 sectors: usable range [3,30], table of 3
entries at LBA 2, with the table checksum of `map_ovl_c` and a correct header
checksum. -/
def hdr_ovl_c : gpt_header :=
  [69, 70, 73, 32, 80, 65, 82, 84, 0, 0, 1, 0, 92, 0, 0, 0, 239, 180, 63, 128, 0, 0, 0, 0, 1,
   0, 0, 0, 0, 0, 0, 0, 31, 0, 0, 0, 0, 0, 0, 0, 3, 0, 0, 0, 0, 0, 0, 0, 30, 0, 0, 0, 0, 0, 0,
   0, 0, 0, 0, 0, 0, 0, 0, 0, 0, 0, 0, 0, 0, 0, 0, 0, 2, 0, 0, 0, 0, 0, 0, 0, 3, 0, 0, 0, 128,
   0, 0, 0, 96, 33, 211, 131]

/-- An image of 32 sectors of 512 bytes: `hdr_ovl_c` in LBA 1, in LBA 2 a
table with the used entries [10,20], [15,25] and [26,30]. -/
def map_ovl_c : List Byte :=
  List.replicate 512 0 ++ hdr_ovl_c ++ List.replicate 420 0 ++ mk_entry 10 20 ++
    mk_entry 15 25 ++ mk_entry 26 30 ++ List.replicate 14976 0

/-- The configuration `ctx_ovl` in all-matches mode. -/
def ctx_ovl_all (map : List Byte) : cli_ctx :=
  { fmap := some map, allmatches := true, partition_intxn := true,
    dconf_prtnintxn := true, maxpartitions := 128,
    cli_map_scan := fun _ _ => CL_CLEAN,
    prtn_intxn_list_check := spec_intxn_check }

/-- The loop variables of the overlap pass over `map_ovl_c` when the
iteration for entry 1 begins. -/
def st_ovl_c : intxn_state :=
  { i := 1, pos := 1152, ret := CL_CLEAN, prtncheck := [(10, 11)],
    trace := [event.read 0 1024, event.insert 10 11] }

/-- The loop variables of the overlap pass over `map_ovl_c` in all-matches
mode when the iteration for entry 2 begins. -/
def st_ovl_c2 : intxn_state :=
  { i := 2, pos := 1280, ret := CL_VIRUS, prtncheck := [(10, 11), (15, 11)],
    trace := [event.read 0 1024, event.insert 10 11, event.read 1 1152, event.insert 15 11,
      event.append_virus] }

/-- Modelled from the spec: the length of the array `name` of `struct
gpt_partition_entry` (gpt.h), 36 UTF-16 code units. -/
def GPT_NAME_UNITS : Nat := 36

/-- The byte offset in the entry record of the code unit `name[k]` (two
bytes wide): the array starts at offset 56. -/
def gpe_name_off (k : Nat) : Nat := 56 + 2 * k

/-- The inner loop `for (j = 0; j < 36; ++j) gpe.name[i] =
le16_to_host(gpe.name[i]);` of `gpt_scan_partitions` (gpt.c lines 293-295) in
the iteration with partition index `i`: the index into `gpe.name` that each of
its executions `j = 0, ..., 35` reads and writes, in order. The index
expression of the source is `i`. -/
def name_loop (i : Nat) : List Nat :=
  (List.range 36).map fun _ => i

/-- The accesses to `gpe.name` in the `for` loop of `gpt_scan_partitions` with
`n` iterations left: for every iteration whose entry is read in full, the
pairs of the partition index and the index into `name` of the executions of
the inner loop. -/
def gpt_scan_names (ctx : cli_ctx) (map : List Byte) (hdr : gpt_header) (sectorsize : Nat) :
    Nat → scan_state → List (Nat × Nat)
  | 0, _ => []
  | n + 1, st =>
    if (fmap_readn map st.pos GPT_ENTRY_SIZE).length ≠ GPT_ENTRY_SIZE then [] else
    (name_loop st.i).map (fun k => (st.i, k)) ++
      match gpt_scan_body ctx map hdr sectorsize st with
      | step.done _ _ => []
      | step.next st' => gpt_scan_names ctx map hdr sectorsize n st'

/-- The accesses to `gpe.name` of a call of `gpt_scan_partitions`. -/
def gpt_scan_partitions_names (ctx : cli_ctx) (map : List Byte) (hdr : gpt_header)
    (sectorsize : Nat) : List (Nat × Nat) :=
  gpt_scan_names ctx map hdr sectorsize (max_prtns ctx hdr)
    { i := 0, pos := (hdr_tableStartLBA hdr * sectorsize) % U64, ret := CL_CLEAN, trace := [] }

/-- A primary header for an image of 16 sectors of 512 bytes: usable range
[12, 14], table of 37 entries of 128 bytes at LBA 2, with header and table
checksums that validate on `map_names`. -/
def hdr_names : gpt_header :=
  [69, 70, 73, 32, 80, 65, 82, 84, 0, 0, 1, 0, 92, 0, 0, 0, 80, 180, 119, 120, 0, 0, 0, 0, 1,
   0, 0, 0, 0, 0, 0, 0, 15, 0, 0, 0, 0, 0, 0, 0, 12, 0, 0, 0, 0, 0, 0, 0, 14, 0, 0, 0, 0, 0, 0,
   0, 0, 0, 0, 0, 0, 0, 0, 0, 0, 0, 0, 0, 0, 0, 0, 0, 2, 0, 0, 0, 0, 0, 0, 0, 37, 0, 0, 0, 128,
   0, 0, 0, 15, 3, 176, 145]

/-- An image of 16 sectors of 512 bytes: the header `hdr_names` in LBA 1, zero
bytes elsewhere (a table of 37 unused entries from LBA 2 on). -/
def map_names : List Byte :=
  List.replicate 512 0 ++ hdr_names ++ List.replicate 7588 0

/-! ## Sector size detection -/

theorem strncmp_sig_need (map : List Byte) (s : Nat) (h : s + 8 ≤ map.length) :
    strncmp_sig (fmap_need_off_once map s 8) = some (decide (sig_at map s)) := by
  simp [strncmp_sig, fmap_need_off_once, sig_at, h]

theorem strncmp_sig_null (map : List Byte) (s : Nat) (h : ¬ s + 8 ≤ map.length) :
    strncmp_sig (fmap_need_off_once map s 8) = none := by
  simp [strncmp_sig, fmap_need_off_once, h]

/-- On an image in which all four probes are readable, `gpt_detect_size`
returns the first candidate holding the signature, and 0 when none does. -/
theorem gpt_detect_size_readable (map : List Byte) (h : 4104 ≤ map.length) :
    gpt_detect_size map = some
      (if sig_at map 512 then 512 else if sig_at map 1024 then 1024
       else if sig_at map 2048 then 2048 else if sig_at map 4096 then 4096 else 0) := by
  unfold gpt_detect_size
  rw [strncmp_sig_need map 512 (by omega), strncmp_sig_need map 1024 (by omega),
    strncmp_sig_need map 2048 (by omega), strncmp_sig_need map 4096 (by omega)]
  by_cases h1 : sig_at map 512 <;> by_cases h2 : sig_at map 1024 <;>
    by_cases h3 : sig_at map 2048 <;> by_cases h4 : sig_at map 4096 <;>
    simp [h1, h2, h3, h4]

/-- When the signature is at candidate offset `s` and at no smaller candidate
offset, `gpt_detect_size` returns `s`. -/
theorem gpt_detect_size_first_match (map : List Byte) (s : Nat)
    (hs : s = 512 ∨ s = 1024 ∨ s = 2048 ∨ s = 4096) (h : sig_at map s)
    (hmin : ∀ t, (t = 512 ∨ t = 1024 ∨ t = 2048 ∨ t = 4096) → t < s → ¬ sig_at map t) :
    gpt_detect_size map = some s := by
  have hl := h.1
  unfold gpt_detect_size
  rcases hs with rfl | rfl | rfl | rfl
  · rw [strncmp_sig_need map 512 (by omega)]
    simp [h]
  · have h1 := hmin 512 (by simp) (by omega)
    rw [strncmp_sig_need map 512 (by omega), strncmp_sig_need map 1024 (by omega)]
    simp [h, h1]
  · have h1 := hmin 512 (by simp) (by omega)
    have h2 := hmin 1024 (by simp) (by omega)
    rw [strncmp_sig_need map 512 (by omega), strncmp_sig_need map 1024 (by omega),
      strncmp_sig_need map 2048 (by omega)]
    simp [h, h1, h2]
  · have h1 := hmin 512 (by simp) (by omega)
    have h2 := hmin 1024 (by simp) (by omega)
    have h3 := hmin 2048 (by simp) (by omega)
    rw [strncmp_sig_need map 512 (by omega), strncmp_sig_need map 1024 (by omega),
      strncmp_sig_need map 2048 (by omega), strncmp_sig_need map 4096 (by omega)]
    simp [h, h1, h2, h3]

/-- C1 (evaluation at the failing input): on the 1024-byte all-zero image no
candidate offset holds the signature, so the claim asks for the result 0; the
second probe `fmap_need_off_once(map, 1024, 8)` is null and is passed to
`strncmp`, so `gpt_detect_size` returns nothing. -/
theorem gpt_detect_size_short_image :
    (∀ s, (s = 512 ∨ s = 1024 ∨ s = 2048 ∨ s = 4096) → ¬ sig_at (List.replicate 1024 0) s) ∧
    gpt_detect_size (List.replicate 1024 0) = none ∧
    gpt_detect_size (List.replicate 1024 0) ≠ some 0 := by
  refine ⟨?_, ?_, ?_⟩
  · rintro s (rfl | rfl | rfl | rfl) <;> decide!
  · decide!
  · decide!

/-! ## Header validation -/

theorem ite_eformat_cases {p : Prop} [Decidable p] {x : cl_error_t}
    (h : x = CL_SUCCESS ∨ x = CL_EFORMAT) :
    (if p then CL_EFORMAT else x) = CL_SUCCESS ∨ (if p then CL_EFORMAT else x) = CL_EFORMAT := by
  split
  · exact Or.inr rfl
  · exact h

theorem ite_eformat_success {p : Prop} [Decidable p] {x : cl_error_t} :
    (if p then CL_EFORMAT else x) = CL_SUCCESS ↔ ¬ p ∧ x = CL_SUCCESS := by
  split <;> simp [*]

/-- The validator has two results only. -/
theorem gpt_validate_header_cases (map : List Byte) (hdr : gpt_header) (sectorsize : Nat) :
    gpt_validate_header map hdr sectorsize = CL_SUCCESS ∨
    gpt_validate_header map hdr sectorsize = CL_EFORMAT := by
  unfold gpt_validate_header
  simp only []
  repeat apply ite_eformat_cases
  exact Or.inl rfl

/-- The validator succeeds exactly when all of its checks pass. -/
theorem gpt_validate_header_success_iff (map : List Byte) (hdr : gpt_header)
    (sectorsize : Nat) :
    gpt_validate_header map hdr sectorsize = CL_SUCCESS ↔
      crc32 0 (some (hdr_zero_crc hdr)) = hdr_headerCRC32 hdr ∧
      hdr_signature hdr = GPT_SIGNATURE ∧
      hdr_headerSize hdr = GPT_HDR_SIZE ∧
      hdr_reserved hdr = GPT_HDR_RESERVED ∧
      ((hdr_currentLBA hdr = GPT_PRIMARY_HDR_LBA ∧ hdr_backupLBA hdr = lastLBA map sectorsize) ∨
       (hdr_currentLBA hdr = lastLBA map sectorsize ∧
        hdr_backupLBA hdr = GPT_PRIMARY_HDR_LBA)) ∧
      hdr_firstUsableLBA hdr ≤ hdr_lastUsableLBA hdr ∧
      GPT_PRIMARY_HDR_LBA < hdr_firstUsableLBA hdr ∧
      hdr_lastUsableLBA hdr < lastLBA map sectorsize ∧
      ¬ (hdr_tableStartLBA hdr ≤ hdr_firstUsableLBA hdr ∧
         tableLastLBA hdr sectorsize ≥ hdr_firstUsableLBA hdr) ∧
      ¬ (hdr_tableStartLBA hdr ≥ hdr_firstUsableLBA hdr ∧
         hdr_tableStartLBA hdr ≤ hdr_lastUsableLBA hdr) ∧
      GPT_PRIMARY_HDR_LBA < hdr_tableStartLBA hdr ∧
      tableLastLBA hdr sectorsize < lastLBA map sectorsize ∧
      hdr_tableEntrySize hdr = GPT_ENTRY_SIZE ∧
      (ptable_start hdr sectorsize + ptable_len hdr) % U64 ≤ map.length ∧
      crc32 0 (fmap_need_off_once map (ptable_start hdr sectorsize) (ptable_len hdr)) =
        hdr_tableCRC32 hdr := by
  have e : gpt_validate_header map hdr sectorsize =
      (if crc32 0 (some (hdr_zero_crc hdr)) ≠ hdr_headerCRC32 hdr then CL_EFORMAT else
      if hdr_signature hdr ≠ GPT_SIGNATURE then CL_EFORMAT else
      if hdr_headerSize hdr ≠ GPT_HDR_SIZE then CL_EFORMAT else
      if hdr_reserved hdr ≠ GPT_HDR_RESERVED then CL_EFORMAT else
      if ¬((hdr_currentLBA hdr = GPT_PRIMARY_HDR_LBA ∧
            hdr_backupLBA hdr = lastLBA map sectorsize) ∨
           (hdr_currentLBA hdr = lastLBA map sectorsize ∧
            hdr_backupLBA hdr = GPT_PRIMARY_HDR_LBA)) then CL_EFORMAT else
      if hdr_firstUsableLBA hdr > hdr_lastUsableLBA hdr then CL_EFORMAT else
      if hdr_firstUsableLBA hdr ≤ GPT_PRIMARY_HDR_LBA ∨
         hdr_lastUsableLBA hdr ≥ lastLBA map sectorsize then CL_EFORMAT else
      if (hdr_tableStartLBA hdr ≤ hdr_firstUsableLBA hdr ∧
          tableLastLBA hdr sectorsize ≥ hdr_firstUsableLBA hdr) ∨
         (hdr_tableStartLBA hdr ≥ hdr_firstUsableLBA hdr ∧
          hdr_tableStartLBA hdr ≤ hdr_lastUsableLBA hdr) then CL_EFORMAT else
      if hdr_tableStartLBA hdr ≤ GPT_PRIMARY_HDR_LBA ∨
         tableLastLBA hdr sectorsize ≥ lastLBA map sectorsize then CL_EFORMAT else
      if hdr_tableEntrySize hdr ≠ GPT_ENTRY_SIZE then CL_EFORMAT else
      if (ptable_start hdr sectorsize + ptable_len hdr) % U64 > map.length then CL_EFORMAT else
      if crc32 0 (fmap_need_off_once map (ptable_start hdr sectorsize) (ptable_len hdr)) ≠
          hdr_tableCRC32 hdr then CL_EFORMAT else CL_SUCCESS) := rfl
  rw [e]
  simp only [ite_eformat_success]
  simp only [ne_eq, not_not]
  simp only [not_or, not_le, not_lt, gt_iff_lt, ge_iff_le, and_true, and_assoc]

/-- A byte string of at most 8 bytes decodes (big-endian) to `GPT_SIGNATURE`
exactly when it is the magic "EFI PART". -/
theorem be_to_host_eq_signature (l : List Byte) (hl : l.length ≤ 8) :
    be_to_host l = GPT_SIGNATURE ↔ l = GPT_SIGNATURE_STR := by
  rcases l with _ | ⟨a0, _ | ⟨a1, _ | ⟨a2, _ | ⟨a3, _ | ⟨a4, _ | ⟨a5, _ | ⟨a6, _ |
    ⟨a7, _ | ⟨a8, l⟩⟩⟩⟩⟩⟩⟩⟩⟩
  all_goals
    simp only [be_to_host, GPT_SIGNATURE, GPT_SIGNATURE_STR, List.foldl_cons, List.foldl_nil,
      List.cons.injEq, Fin.ext_iff, List.length_cons, List.length_nil, reduceCtorEq,
      and_true, and_false, false_and, iff_false, Fin.isValue] at hl ⊢
    try omega

/-- The signature check compares the first 8 bytes of the record with the
magic. -/
theorem hdr_signature_eq_iff (hdr : gpt_header) :
    hdr_signature hdr = GPT_SIGNATURE ↔ field hdr 0 8 = GPT_SIGNATURE_STR := by
  unfold hdr_signature
  apply be_to_host_eq_signature
  simp [field]

/-- C3: a header that `gpt_validate_header` accepts has a header checksum
equal to the CRC32 of the record with the checksum bytes zeroed, the 8-byte
magic as signature, header size 92, reserved field 0 and table entry size 128;
a header violating one of these five is rejected with `CL_EFORMAT`. -/
theorem gpt_validate_header_structural (map : List Byte) (hdr : gpt_header)
    (sectorsize : Nat) :
    (gpt_validate_header map hdr sectorsize = CL_SUCCESS →
      crc32 0 (some (hdr_zero_crc hdr)) = hdr_headerCRC32 hdr ∧
      field hdr 0 8 = GPT_SIGNATURE_STR ∧
      hdr_headerSize hdr = GPT_HDR_SIZE ∧
      hdr_reserved hdr = 0 ∧
      hdr_tableEntrySize hdr = GPT_ENTRY_SIZE) ∧
    (¬ (crc32 0 (some (hdr_zero_crc hdr)) = hdr_headerCRC32 hdr ∧
        field hdr 0 8 = GPT_SIGNATURE_STR ∧
        hdr_headerSize hdr = GPT_HDR_SIZE ∧
        hdr_reserved hdr = 0 ∧
        hdr_tableEntrySize hdr = GPT_ENTRY_SIZE) →
      gpt_validate_header map hdr sectorsize = CL_EFORMAT) := by
  have key : gpt_validate_header map hdr sectorsize = CL_SUCCESS →
      crc32 0 (some (hdr_zero_crc hdr)) = hdr_headerCRC32 hdr ∧
      field hdr 0 8 = GPT_SIGNATURE_STR ∧
      hdr_headerSize hdr = GPT_HDR_SIZE ∧
      hdr_reserved hdr = 0 ∧
      hdr_tableEntrySize hdr = GPT_ENTRY_SIZE := by
    intro h
    obtain ⟨h1, h2, h3, h4, -, -, -, -, -, -, -, -, h13, -, -⟩ :=
      (gpt_validate_header_success_iff map hdr sectorsize).1 h
    exact ⟨h1, (hdr_signature_eq_iff hdr).1 h2, h3, h4, h13⟩
  refine ⟨key, fun hn => ?_⟩
  rcases gpt_validate_header_cases map hdr sectorsize with h | h
  · exact absurd (key h) hn
  · exact h

/-! ## CRC-32 detects a change of one byte -/

theorem crc32_bit_lt (c : Nat) (h : c < 2 ^ 32) : crc32_bit c < 2 ^ 32 := by
  unfold crc32_bit
  split
  · exact Nat.xor_lt_two_pow (by omega) (by norm_num)
  · omega

theorem crc32_bit_testBit (c : Nat) (h : c < 2 ^ 32) :
    (crc32_bit c).testBit 31 = decide (c % 2 = 1) := by
  have h2 : (c / 2).testBit 31 = false := Nat.testBit_lt_two_pow (by omega)
  unfold crc32_bit
  split
  · next hc =>
    rw [Nat.testBit_xor, h2]
    simp [hc]
    decide
  · next hc => simp [h2, hc]

theorem crc32_bit_inj (a b : Nat) (ha : a < 2 ^ 32) (hb : b < 2 ^ 32)
    (h : crc32_bit a = crc32_bit b) : a = b := by
  have hp : decide (a % 2 = 1) = decide (b % 2 = 1) := by
    rw [← crc32_bit_testBit a ha, ← crc32_bit_testBit b hb, h]
  unfold crc32_bit at h
  by_cases hc : a % 2 = 1
  · have hd : b % 2 = 1 := by simpa [hc] using hp
    rw [if_pos hc, if_pos hd] at h
    have := Nat.xor_left_inj.1 h
    omega
  · have hd : ¬ b % 2 = 1 := by simpa [hc] using hp
    rw [if_neg hc, if_neg hd] at h
    omega

theorem crc32_bit_iterate_lt (n c : Nat) (h : c < 2 ^ 32) :
    Nat.iterate crc32_bit n c < 2 ^ 32 := by
  induction n generalizing c with
  | zero => exact h
  | succ n ih => exact ih _ (crc32_bit_lt c h)

theorem crc32_bit_iterate_inj (n a b : Nat) (ha : a < 2 ^ 32) (hb : b < 2 ^ 32)
    (h : Nat.iterate crc32_bit n a = Nat.iterate crc32_bit n b) : a = b := by
  induction n generalizing a b with
  | zero => exact h
  | succ n ih =>
    exact crc32_bit_inj a b ha hb (ih _ _ (crc32_bit_lt a ha) (crc32_bit_lt b hb) h)

theorem xor_byte_lt (c : Nat) (x : Byte) (h : c < 2 ^ 32) : c ^^^ x.val < 2 ^ 32 :=
  Nat.xor_lt_two_pow h (by omega)

theorem crc32_byte_lt (c : Nat) (x : Byte) (h : c < 2 ^ 32) : crc32_byte c x < 2 ^ 32 :=
  crc32_bit_iterate_lt 8 _ (xor_byte_lt c x h)

theorem crc32_byte_inj_state (a b : Nat) (x : Byte) (ha : a < 2 ^ 32) (hb : b < 2 ^ 32)
    (h : crc32_byte a x = crc32_byte b x) : a = b :=
  Nat.xor_left_inj.1
    (crc32_bit_iterate_inj 8 _ _ (xor_byte_lt a x ha) (xor_byte_lt b x hb) h)

theorem crc32_byte_inj_byte (c : Nat) (x y : Byte) (hc : c < 2 ^ 32)
    (h : crc32_byte c x = crc32_byte c y) : x = y :=
  Fin.ext (Nat.xor_right_inj.1
    (crc32_bit_iterate_inj 8 _ _ (xor_byte_lt c x hc) (xor_byte_lt c y hc) h))

theorem crc32_foldl_lt (l : List Byte) (c : Nat) (h : c < 2 ^ 32) :
    l.foldl crc32_byte c < 2 ^ 32 := by
  induction l generalizing c with
  | nil => exact h
  | cons x l ih => exact ih _ (crc32_byte_lt c x h)

theorem crc32_foldl_inj (l : List Byte) (a b : Nat) (ha : a < 2 ^ 32) (hb : b < 2 ^ 32)
    (h : l.foldl crc32_byte a = l.foldl crc32_byte b) : a = b := by
  induction l generalizing a b with
  | nil => exact h
  | cons x l ih =>
    exact crc32_byte_inj_state a b x ha hb
      (ih _ _ (crc32_byte_lt a x ha) (crc32_byte_lt b x hb) h)

/-- Two byte strings that differ in one byte only have different CRC32. -/
theorem crc32_ne_of_one_byte (p s : List Byte) (x y : Byte) (hxy : x ≠ y) :
    crc32 0 (some (p ++ x :: s)) ≠ crc32 0 (some (p ++ y :: s)) := by
  intro h
  simp only [crc32, List.foldl_append, List.foldl_cons] at h
  have h0 : (0 ^^^ 0xFFFFFFFF) < 2 ^ 32 := by decide
  have hp := crc32_foldl_lt p _ h0
  have h1 := crc32_foldl_inj s _ _ (crc32_byte_lt _ x hp) (crc32_byte_lt _ y hp)
    (Nat.xor_left_inj.1 h)
  exact hxy (crc32_byte_inj_byte _ x y hp h1)

/-- Replacing one byte of a byte string by a different byte changes its
CRC32. -/
theorem crc32_set_ne (l : List Byte) (i : Nat) (b : Byte) (hi : i < l.length)
    (hb : b ≠ l[i]) : crc32 0 (some (l.set i b)) ≠ crc32 0 (some l) := by
  have e1 : l.set i b = l.take i ++ b :: l.drop (i + 1) := by
    rw [List.set_eq_take_append_cons_drop, if_pos hi]
  have e2 : l = l.take i ++ l[i] :: l.drop (i + 1) := by
    rw [← List.drop_eq_getElem_cons hi, List.take_append_drop]
  have key := crc32_ne_of_one_byte (l.take i) (l.drop (i + 1)) b l[i] hb
  rw [← e1, ← e2] at key
  exact key

/-! ## A header mutated in one byte -/

theorem le_to_host_inj (l1 l2 : List Byte) (hl : l1.length = l2.length)
    (h : le_to_host l1 = le_to_host l2) : l1 = l2 := by
  induction l1 generalizing l2 with
  | nil =>
    cases l2 with
    | nil => rfl
    | cons y l2 => simp at hl
  | cons x l1 ih =>
    cases l2 with
    | nil => simp at hl
    | cons y l2 =>
      simp only [le_to_host, List.foldr_cons] at h
      have hx := x.isLt
      have hy := y.isLt
      have h1 : x.val = y.val := by omega
      have h2 : le_to_host l1 = le_to_host l2 := by unfold le_to_host; omega
      rw [Fin.ext h1, ih l2 (by simpa using hl) h2]

theorem hdr_zero_crc_set_inside (hdr : gpt_header) (i : Nat) (b : Byte)
    (h1 : 16 ≤ i) (h2 : i < 20) : hdr_zero_crc (hdr.set i b) = hdr_zero_crc hdr := by
  unfold hdr_zero_crc
  rw [List.set_take, List.set_eq_of_length_le (by simp; omega), List.drop_set_of_lt _ _ h2]

theorem hdr_zero_crc_set_outside (hdr : gpt_header) (i : Nat) (b : Byte)
    (h : i < 16 ∨ 20 ≤ i) (hi : i < hdr.length) :
    hdr_zero_crc (hdr.set i b) = (hdr_zero_crc hdr).set i b := by
  unfold hdr_zero_crc
  rcases h with h | h
  · rw [List.set_take, List.drop_set_of_lt _ _ (by omega), List.append_assoc,
      List.append_assoc, List.set_append_left _ _ (by simp; omega)]
  · rw [List.set_take, List.set_eq_of_length_le (by simp; omega), List.drop_set,
      if_neg (by omega), List.set_append_right _ _ (by simp; omega)]
    congr 2
    simp
    omega

theorem field_crc_set_outside (hdr : gpt_header) (i : Nat) (b : Byte)
    (h : i < 16 ∨ 20 ≤ i) : field (hdr.set i b) 16 4 = field hdr 16 4 := by
  unfold field
  rcases h with h | h
  · rw [List.drop_set_of_lt _ _ h]
  · rw [List.drop_set, if_neg (by omega), List.set_take,
      List.set_eq_of_length_le (by simp; omega)]

theorem field_crc_set_inside (hdr : gpt_header) (i : Nat) (b : Byte)
    (h1 : 16 ≤ i) (h2 : i < 20) (hi : i < hdr.length) (hb : b ≠ hdr[i]) :
    le_to_host (field (hdr.set i b) 16 4) ≠ le_to_host (field hdr 16 4) := by
  intro h
  have e : field (hdr.set i b) 16 4 = (field hdr 16 4).set (i - 16) b := by
    unfold field
    rw [List.drop_set, if_neg (by omega), List.set_take]
  rw [e] at h
  have h' := le_to_host_inj _ _ (by simp) h
  have hk : i - 16 < (field hdr 16 4).length := by simp [field]; omega
  have hg : ((field hdr 16 4).set (i - 16) b)[i - 16]? = (field hdr 16 4)[i - 16]? := by
    rw [h']
  have hf : (field hdr 16 4)[i - 16]? = hdr[i]? := by
    unfold field
    rw [List.getElem?_take, if_pos (by omega), List.getElem?_drop]
    congr 1
    omega
  rw [List.getElem?_set_self hk, hf, List.getElem?_eq_getElem hi] at hg
  exact hb (Option.some.inj hg)

/-- C4: when `gpt_validate_header` accepts a header `hdr`, it rejects, for the
same image and sector size, every header that differs from `hdr` in exactly
one byte (`hdr` with byte `i` replaced by a different byte `b`), inside or
outside the checksum field. -/
theorem gpt_validate_header_one_byte (map : List Byte) (sectorsize : Nat) (hdr : gpt_header)
    (i : Nat) (b : Byte) (hi : i < hdr.length) (hb : b ≠ hdr[i])
    (hv : gpt_validate_header map hdr sectorsize = CL_SUCCESS) :
    gpt_validate_header map (hdr.set i b) sectorsize = CL_EFORMAT := by
  rcases gpt_validate_header_cases map (hdr.set i b) sectorsize with h | h
  · exfalso
    have c1 := ((gpt_validate_header_success_iff map hdr sectorsize).1 hv).1
    have c2 := ((gpt_validate_header_success_iff map (hdr.set i b) sectorsize).1 h).1
    by_cases hin : 16 ≤ i ∧ i < 20
    · rw [hdr_zero_crc_set_inside hdr i b hin.1 hin.2, c1] at c2
      exact field_crc_set_inside hdr i b hin.1 hin.2 hi hb c2.symm
    · have hout : i < 16 ∨ 20 ≤ i := by omega
      have hz : i < (hdr_zero_crc hdr).length := by
        simp only [hdr_zero_crc, List.length_append, List.length_take, List.length_drop,
          List.length_cons, List.length_nil]
        omega
      have hg' : (hdr_zero_crc hdr)[i]? = hdr[i]? := by
        simp only [hdr_zero_crc]
        rcases hout with h16 | h20
        · rw [List.append_assoc, List.getElem?_append_left (by simp; omega),
            List.getElem?_take, if_pos h16]
        · rw [List.getElem?_append_right (by simp; omega), List.getElem?_drop]
          congr 1
          simp
          omega
      have hg : (hdr_zero_crc hdr)[i] = hdr[i] := by
        rw [List.getElem?_eq_getElem hz, List.getElem?_eq_getElem hi] at hg'
        exact Option.some.inj hg'
      have hne := crc32_set_ne (hdr_zero_crc hdr) i b hz (by rw [hg]; exact hb)
      rw [hdr_zero_crc_set_outside hdr i b hout hi] at c2
      apply hne
      rw [c2, c1]
      unfold hdr_headerCRC32
      rw [field_crc_set_outside hdr i b hout]
  · exact h

/-- C4 at a concrete input: `hdr_ok` is accepted for the sample image, and
with its first byte replaced by 0 it is rejected. -/
theorem gpt_validate_header_one_byte_witness :
    gpt_validate_header sample_map hdr_ok 512 = CL_SUCCESS ∧
    gpt_validate_header sample_map (hdr_ok.set 0 0) 512 = CL_EFORMAT :=
  ⟨by decide!, gpt_validate_header_one_byte sample_map 512 hdr_ok 0 0 (by decide) (by decide)
    (by decide!)⟩

/-! ## The LBA layout checks -/

/-- In the call context of `cli_scangpt` (non-zero sector size, an image of
at least one sector, a length that fits `size_t`) the local `lastLBA` is
`maplen / sectorsize - 1` without wrap-around. -/
theorem lastLBA_eq (map : List Byte) (sectorsize : Nat) (hss : 0 < sectorsize)
    (hlen : sectorsize ≤ map.length) (hmax : map.length < U64) :
    lastLBA map sectorsize = map.length / sectorsize - 1 := by
  have h1 : 0 < map.length / sectorsize := Nat.div_pos hlen hss
  have h2 : map.length / sectorsize ≤ map.length := Nat.div_le_self _ _
  unfold lastLBA
  unfold U64 at *
  omega

/-- The validator is called by `cli_scangpt` only after the primary header
was read in full at offset `sectorsize`, so the image holds more than one
sector. -/
theorem header_stage_image_size (map : List Byte) (sectorsize : Nat) (hss : sectorsize < U64)
    (hread : (read_primary map sectorsize).length = GPT_HDR_SIZE) :
    sectorsize + GPT_HDR_SIZE ≤ map.length := by
  unfold read_primary fmap_readn GPT_PRIMARY_HDR_LBA at hread
  rw [Nat.one_mul, Nat.mod_eq_of_lt hss, List.length_take, List.length_drop] at hread
  unfold GPT_HDR_SIZE at *
  omega

/-- C5: for an image of at least one sector (the context in which
`cli_scangpt` calls the validator), with `L = maplen / sectorsize - 1`: an
accepted header has `(currentLBA, backupLBA)` equal to `(1, L)` or `(L, 1)`
and `1 < firstUsableLBA ≤ lastUsableLBA < L`; a header with another pair, with
`firstUsableLBA > lastUsableLBA`, `firstUsableLBA ≤ 1` or `lastUsableLBA ≥ L`
is rejected with `CL_EFORMAT`. -/
theorem gpt_validate_header_lba_layout (map : List Byte) (hdr : gpt_header) (sectorsize : Nat)
    (hss : 0 < sectorsize) (hlen : sectorsize ≤ map.length) (hmax : map.length < U64) :
    (gpt_validate_header map hdr sectorsize = CL_SUCCESS →
      ((hdr_currentLBA hdr = 1 ∧ hdr_backupLBA hdr = map.length / sectorsize - 1) ∨
       (hdr_currentLBA hdr = map.length / sectorsize - 1 ∧ hdr_backupLBA hdr = 1)) ∧
      1 < hdr_firstUsableLBA hdr ∧
      hdr_firstUsableLBA hdr ≤ hdr_lastUsableLBA hdr ∧
      hdr_lastUsableLBA hdr < map.length / sectorsize - 1) ∧
    ((¬ ((hdr_currentLBA hdr = 1 ∧ hdr_backupLBA hdr = map.length / sectorsize - 1) ∨
         (hdr_currentLBA hdr = map.length / sectorsize - 1 ∧ hdr_backupLBA hdr = 1)) ∨
      hdr_firstUsableLBA hdr > hdr_lastUsableLBA hdr ∨
      hdr_firstUsableLBA hdr ≤ 1 ∨
      hdr_lastUsableLBA hdr ≥ map.length / sectorsize - 1) →
      gpt_validate_header map hdr sectorsize = CL_EFORMAT) := by
  have hL := lastLBA_eq map sectorsize hss hlen hmax
  have key : gpt_validate_header map hdr sectorsize = CL_SUCCESS →
      ((hdr_currentLBA hdr = 1 ∧ hdr_backupLBA hdr = map.length / sectorsize - 1) ∨
       (hdr_currentLBA hdr = map.length / sectorsize - 1 ∧ hdr_backupLBA hdr = 1)) ∧
      1 < hdr_firstUsableLBA hdr ∧
      hdr_firstUsableLBA hdr ≤ hdr_lastUsableLBA hdr ∧
      hdr_lastUsableLBA hdr < map.length / sectorsize - 1 := by
    intro h
    obtain ⟨-, -, -, -, h5, h6, h7, h8, -⟩ :=
      (gpt_validate_header_success_iff map hdr sectorsize).1 h
    rw [hL] at h5 h8
    exact ⟨h5, h7, h6, h8⟩
  refine ⟨key, fun hn => ?_⟩
  rcases gpt_validate_header_cases map hdr sectorsize with h | h
  · obtain ⟨k1, k2, k3, k4⟩ := key h
    rcases hn with hn | hn | hn | hn
    · exact absurd k1 hn
    · omega
    · omega
    · omega
  · exact h

/-- C5 at a concrete input: `hdr_ok` on the sample image of 8 sectors. -/
theorem gpt_validate_header_lba_layout_witness :
    ((hdr_currentLBA hdr_ok = 1 ∧ hdr_backupLBA hdr_ok = sample_map.length / 512 - 1) ∨
     (hdr_currentLBA hdr_ok = sample_map.length / 512 - 1 ∧ hdr_backupLBA hdr_ok = 1)) ∧
    1 < hdr_firstUsableLBA hdr_ok ∧
    hdr_firstUsableLBA hdr_ok ≤ hdr_lastUsableLBA hdr_ok ∧
    hdr_lastUsableLBA hdr_ok < sample_map.length / 512 - 1 :=
  (gpt_validate_header_lba_layout sample_map hdr_ok 512 (by decide) (by decide!)
    (by decide!)).1 (by decide!)

/-! ## Evaluation of the validator on the sample headers -/

theorem seq_nat_eq {α : Type} (n : Nat) (k : Nat → α) : seq_nat n k = k n := by
  cases n <;> rfl

theorem crc32_run_eq (bs : List Byte) (c : Nat) : crc32_run c bs = bs.foldl crc32_byte c := by
  induction bs generalizing c with
  | nil => rfl
  | cons b bs ih => rw [List.foldl_cons, crc32_run, seq_nat_eq, ih]

theorem crc32_some_eq_run (c : Nat) (bs : List Byte) :
    crc32 c (some bs) = crc32_run (c ^^^ 0xFFFFFFFF) bs ^^^ 0xFFFFFFFF := by
  rw [crc32_run_eq]
  rfl

theorem hdr_floor_valid : gpt_validate_header sample_map hdr_floor 512 = CL_SUCCESS := by
  rw [gpt_validate_header_success_iff]
  refine ⟨by decide!, by decide!, by decide!, by decide!, by decide!, by decide!, by decide!,
    by decide!, by decide!, by decide!, by decide!, by decide!, by decide!, by decide!, ?_⟩
  have e : fmap_need_off_once sample_map (ptable_start hdr_floor 512) (ptable_len hdr_floor) =
      some (List.replicate 640 0) := by decide!
  rw [e, crc32_some_eq_run]
  decide!

/-- C6 (evaluation at the failing inputs): `hdr_floor` is accepted although
its table, 5 entries of 128 bytes from LBA 2, spans the LBAs 2 to
`2 + ceil(640 / 512) - 1 = 3` and LBA 3 lies in the usable range [3,5];
`hdr_lastlba` is accepted although its table lies in LBA 7, the last LBA of
the image. The validator computes the table's last LBA with the quotient
`ptable_len / sectorsize` rounded down. -/
theorem gpt_validate_header_table_span_floor :
    (gpt_validate_header sample_map hdr_floor 512 = CL_SUCCESS ∧
      hdr_tableStartLBA hdr_floor ≤ 3 ∧
      3 ≤ hdr_tableStartLBA hdr_floor +
        (hdr_tableNumEntries hdr_floor * hdr_tableEntrySize hdr_floor + 512 - 1) / 512 - 1 ∧
      hdr_firstUsableLBA hdr_floor ≤ 3 ∧ 3 ≤ hdr_lastUsableLBA hdr_floor) ∧
    (gpt_validate_header sample_map hdr_lastlba 512 = CL_SUCCESS ∧
      hdr_tableStartLBA hdr_lastlba ≤ sample_map.length / 512 - 1 ∧
      sample_map.length / 512 - 1 ≤ hdr_tableStartLBA hdr_lastlba +
        (hdr_tableNumEntries hdr_lastlba * hdr_tableEntrySize hdr_lastlba + 512 - 1) / 512
          - 1) := by
  refine ⟨⟨hdr_floor_valid, ?_, ?_, ?_, ?_⟩, ?_, ?_, ?_⟩ <;> decide!

/-- C7 (evaluation at the failing input): `hdr_wrap_len` is accepted for the
4096-byte sample image although `tableStartLBA × sectorsize + tableNumEntries
× tableEntrySize = 1024 + 2^32` exceeds the image length: the 32-bit product
`2^25 × 128` wraps to 0. -/
theorem gpt_validate_header_table_exceeds_image :
    gpt_validate_header sample_map hdr_wrap_len 512 = CL_SUCCESS ∧
    hdr_tableStartLBA hdr_wrap_len * 512 +
      hdr_tableNumEntries hdr_wrap_len * hdr_tableEntrySize hdr_wrap_len > sample_map.length ∧
    hdr_tableNumEntries hdr_wrap_len < 2 ^ 32 ∧ hdr_tableStartLBA hdr_wrap_len < 2 ^ 64 := by
  refine ⟨?_, ?_, ?_, ?_⟩ <;> decide!

/-- C8 (evaluation at the failing inputs): `hdr_wrap_start` is accepted
although `tableStartLBA × sectorsize = (2^64 - 1) × 512` does not fit in 64
bits, and `hdr_wrap_crc` is accepted although `tableNumEntries ×
tableEntrySize = (2^25 + 1) × 128` does not fit in 32 bits; the validator
goes on with the wrapped values `2^64 - 512` and 128. -/
theorem gpt_validate_header_wraps :
    (gpt_validate_header sample_map hdr_wrap_start 512 = CL_SUCCESS ∧
      hdr_tableStartLBA hdr_wrap_start * 512 ≥ 2 ^ 64 ∧
      ptable_start hdr_wrap_start 512 = 2 ^ 64 - 512) ∧
    (gpt_validate_header sample_map hdr_wrap_crc 512 = CL_SUCCESS ∧
      hdr_tableNumEntries hdr_wrap_crc * hdr_tableEntrySize hdr_wrap_crc ≥ 2 ^ 32 ∧
      ptable_len hdr_wrap_crc = 128) := by
  refine ⟨⟨?_, ?_, ?_⟩, ?_, ?_, ?_⟩ <;> decide!

/-- C9 (evaluation at the failing inputs): `hdr_wrap_crc` is accepted for the
sample image, although the `tableNumEntries × tableEntrySize = 2^32 + 128`
bytes from offset `tableStartLBA × sectorsize = 3072` are not inside the
4096-byte image, and the image bytes that do start at that offset have a
CRC32 different from the stored table checksum: the validator checksums
`ptable_len = 128` bytes only, the product reduced modulo `2^32`.
`hdr_wrap_start` is accepted although no table bytes are fetched at all,
neither at the offset `tableStartLBA × sectorsize` nor at the wrapped offset
`ptable_start`: the null result of `fmap_need_off_once` goes to `crc32`
unchecked, which returns 0, the stored table checksum. -/
theorem gpt_validate_header_table_crc_wrapped :
    (gpt_validate_header sample_map hdr_wrap_crc 512 = CL_SUCCESS ∧
      fmap_need_off_once sample_map (hdr_tableStartLBA hdr_wrap_crc * 512)
        (hdr_tableNumEntries hdr_wrap_crc * hdr_tableEntrySize hdr_wrap_crc) = none ∧
      crc32 0 (some ((sample_map.drop (hdr_tableStartLBA hdr_wrap_crc * 512)).take
        (hdr_tableNumEntries hdr_wrap_crc * hdr_tableEntrySize hdr_wrap_crc))) ≠
        hdr_tableCRC32 hdr_wrap_crc) ∧
    (gpt_validate_header sample_map hdr_wrap_start 512 = CL_SUCCESS ∧
      fmap_need_off_once sample_map (hdr_tableStartLBA hdr_wrap_start * 512)
        (hdr_tableNumEntries hdr_wrap_start * hdr_tableEntrySize hdr_wrap_start) = none ∧
      fmap_need_off_once sample_map (ptable_start hdr_wrap_start 512)
        (ptable_len hdr_wrap_start) = none) := by
  refine ⟨⟨by decide!, by decide!, ?_⟩, by decide!, by decide!, by decide!⟩
  rw [crc32_some_eq_run]
  decide!

/-! ## The scan state chosen by `cli_scangpt` -/

/-- A full read fills the whole local header. -/
theorem hdr_after_read_full (rd : List Byte) (stack : Nat → Byte)
    (h : rd.length = GPT_HDR_SIZE) : hdr_after_read rd stack = rd := by
  apply List.ext_getElem
  · simp [hdr_after_read, h]
  · intro j h1 h2
    simp [hdr_after_read, List.getElem?_eq_getElem h2]

/-- C2: for an image that reaches the header stage of `cli_scangpt` (context
and map not null, sector size not 0, length a multiple of the sector size,
primary header readable), with "primary validates" the acceptance of the
primary record and "secondary valid" the secondary record being read in full
and accepted: (T,F,-) gives `PRIMARY_ONLY`, (T,T,equal table checksums) gives
`PRIMARY_ONLY`, (T,T,different) gives `BOTH`, (F,T,-) gives `SECONDARY_ONLY`,
and for (F,F,-) `cli_scangpt` returns `CL_EFORMAT` with no event of a table
pass (no entry read, no scan, no insertion), whether the sector size was
passed or detected. -/
theorem cli_scangpt_state_table (ctx : cli_ctx) (map : List Byte) (sectorsize : Nat)
    (stack : Nat → Byte) (hctx : ctx.fmap = some map) (hss : sectorsize ≠ 0)
    (hmul : map.length % sectorsize = 0)
    (hread : (read_primary map sectorsize).length = GPT_HDR_SIZE) :
    (gpt_validate_header map (read_primary map sectorsize) sectorsize = CL_SUCCESS →
      ¬ ((read_secondary map sectorsize).length = GPT_HDR_SIZE ∧
         gpt_validate_header map (read_secondary map sectorsize) sectorsize = CL_SUCCESS) →
      cli_scangpt_headers map sectorsize stack =
        Except.ok (PRIMARY_ONLY, read_primary map sectorsize,
          hdr_after_read (read_secondary map sectorsize) stack)) ∧
    (gpt_validate_header map (read_primary map sectorsize) sectorsize = CL_SUCCESS →
      (read_secondary map sectorsize).length = GPT_HDR_SIZE →
      gpt_validate_header map (read_secondary map sectorsize) sectorsize = CL_SUCCESS →
      hdr_tableCRC32 (read_primary map sectorsize) =
        hdr_tableCRC32 (read_secondary map sectorsize) →
      cli_scangpt_headers map sectorsize stack =
        Except.ok (PRIMARY_ONLY, read_primary map sectorsize, read_secondary map sectorsize)) ∧
    (gpt_validate_header map (read_primary map sectorsize) sectorsize = CL_SUCCESS →
      (read_secondary map sectorsize).length = GPT_HDR_SIZE →
      gpt_validate_header map (read_secondary map sectorsize) sectorsize = CL_SUCCESS →
      hdr_tableCRC32 (read_primary map sectorsize) ≠
        hdr_tableCRC32 (read_secondary map sectorsize) →
      cli_scangpt_headers map sectorsize stack =
        Except.ok (BOTH, read_primary map sectorsize, read_secondary map sectorsize)) ∧
    (gpt_validate_header map (read_primary map sectorsize) sectorsize ≠ CL_SUCCESS →
      (read_secondary map sectorsize).length = GPT_HDR_SIZE →
      gpt_validate_header map (read_secondary map sectorsize) sectorsize = CL_SUCCESS →
      cli_scangpt_headers map sectorsize stack =
        Except.ok (SECONDARY_ONLY, read_primary map sectorsize,
          read_secondary map sectorsize)) ∧
    (gpt_validate_header map (read_primary map sectorsize) sectorsize ≠ CL_SUCCESS →
      ¬ ((read_secondary map sectorsize).length = GPT_HDR_SIZE ∧
         gpt_validate_header map (read_secondary map sectorsize) sectorsize = CL_SUCCESS) →
      cli_scangpt_headers map sectorsize stack = Except.error CL_EFORMAT ∧
      cli_scangpt (some ctx) sectorsize stack = some (CL_EFORMAT, []) ∧
      (gpt_detect_size map = some sectorsize →
        cli_scangpt (some ctx) 0 stack = some (CL_EFORMAT, []))) := by
  refine ⟨?_, ?_, ?_, ?_, ?_⟩
  · intro hp hs
    unfold cli_scangpt_headers
    simp only [hread, hp, ne_eq, not_true_eq_false, if_false]
    by_cases hl : (read_secondary map sectorsize).length = GPT_HDR_SIZE
    · have hv : gpt_validate_header map (read_secondary map sectorsize) sectorsize ≠
          CL_SUCCESS := fun h => hs ⟨hl, h⟩
      simp [hl, hdr_after_read_full _ stack hl, hv]
    · simp [hl]
  · intro hp hl hv hc
    unfold cli_scangpt_headers
    simp [hread, hp, hl, hdr_after_read_full _ stack hl, hv, hc]
  · intro hp hl hv hc
    unfold cli_scangpt_headers
    simp [hread, hp, hl, hdr_after_read_full _ stack hl, hv, hc]
  · intro hp hl hv
    unfold cli_scangpt_headers
    simp [hread, hp, hl, hdr_after_read_full _ stack hl, hv]
  · intro hp hs
    have hh : cli_scangpt_headers map sectorsize stack = Except.error CL_EFORMAT := by
      unfold cli_scangpt_headers
      simp only [hread, hp, ne_eq, not_true_eq_false, not_false_eq_true, if_true, if_false]
      by_cases hl : (read_secondary map sectorsize).length = GPT_HDR_SIZE
      · have hv : gpt_validate_header map (read_secondary map sectorsize) sectorsize ≠
            CL_SUCCESS := fun h => hs ⟨hl, h⟩
        simp [hl, hdr_after_read_full _ stack hl, hv]
      · simp [hl]
    have hsz : cli_scangpt_sized ctx map sectorsize stack = (CL_EFORMAT, []) := by
      unfold cli_scangpt_sized
      simp [hss, hmul, hh]
    refine ⟨hh, ?_, ?_⟩
    · simp [cli_scangpt, hctx, hss, hsz]
    · intro hd
      simp [cli_scangpt, hctx, hd, hsz]

/-- C2 at a concrete input: on the all-zero sample image with sector size 512
the primary header is readable, neither header validates, and `cli_scangpt`
returns `CL_EFORMAT` without any event. -/
theorem cli_scangpt_state_table_witness :
    cli_scangpt (some sample_ctx) 512 (fun _ => 0) = some (CL_EFORMAT, []) :=
  ((cli_scangpt_state_table sample_ctx sample_map 512 (fun _ => 0) rfl (by decide)
    (by decide!) (by decide!)).2.2.2.2 (by decide!) (by decide!)).2.1

/-! ## Entries that both passes skip -/

/-- C10: in `gpt_scan_partitions` and in `gpt_prtn_intxn`, for every header
and every loop state whose entry is read in full: if the entry has `firstLBA =
0`, or `firstLBA > lastLBA`, the loop body ends without `return`; the only
event is the read of the entry (no call of the scanner, no insertion in the
tracker, whose list is unchanged), `ret` keeps its value, and the loop goes on
with the next index at the next offset. -/
theorem skipped_entry_continues (ctx : cli_ctx) (map : List Byte) (hdr : gpt_header)
    (sectorsize : Nat) :
    (∀ (st : scan_state) (n : Nat),
      (fmap_readn map st.pos GPT_ENTRY_SIZE).length = GPT_ENTRY_SIZE →
      (gpe_firstLBA (fmap_readn map st.pos GPT_ENTRY_SIZE) = 0 ∨
       gpe_firstLBA (fmap_readn map st.pos GPT_ENTRY_SIZE) >
         gpe_lastLBA (fmap_readn map st.pos GPT_ENTRY_SIZE)) →
      gpt_scan_body ctx map hdr sectorsize st =
        step.next { i := st.i + 1, pos := (st.pos + hdr_tableEntrySize hdr) % U64,
                    ret := st.ret, trace := st.trace ++ [event.read st.i st.pos] } ∧
      gpt_scan_loop ctx map hdr sectorsize (n + 1) st =
        gpt_scan_loop ctx map hdr sectorsize n
          { i := st.i + 1, pos := (st.pos + hdr_tableEntrySize hdr) % U64,
            ret := st.ret, trace := st.trace ++ [event.read st.i st.pos] }) ∧
    (∀ (st : intxn_state) (n : Nat),
      (fmap_readn map st.pos GPT_ENTRY_SIZE).length = GPT_ENTRY_SIZE →
      (gpe_firstLBA (fmap_readn map st.pos GPT_ENTRY_SIZE) = 0 ∨
       gpe_firstLBA (fmap_readn map st.pos GPT_ENTRY_SIZE) >
         gpe_lastLBA (fmap_readn map st.pos GPT_ENTRY_SIZE)) →
      gpt_prtn_intxn_body ctx map hdr sectorsize st =
        step.next { i := st.i + 1, pos := (st.pos + hdr_tableEntrySize hdr) % U64,
                    ret := st.ret, prtncheck := st.prtncheck,
                    trace := st.trace ++ [event.read st.i st.pos] } ∧
      gpt_prtn_intxn_loop ctx map hdr sectorsize (n + 1) st =
        gpt_prtn_intxn_loop ctx map hdr sectorsize n
          { i := st.i + 1, pos := (st.pos + hdr_tableEntrySize hdr) % U64,
            ret := st.ret, prtncheck := st.prtncheck,
            trace := st.trace ++ [event.read st.i st.pos] }) := by
  constructor
  · intro st n hr hs
    have hb : gpt_scan_body ctx map hdr sectorsize st =
        step.next { i := st.i + 1, pos := (st.pos + hdr_tableEntrySize hdr) % U64,
                    ret := st.ret, trace := st.trace ++ [event.read st.i st.pos] } := by
      unfold gpt_scan_body
      simp only [hr, ne_eq, not_true_eq_false, if_false]
      by_cases h0 : gpe_firstLBA (fmap_readn map st.pos GPT_ENTRY_SIZE) = 0
      · rw [if_pos h0]
      · have hgt := hs.resolve_left h0
        rw [if_neg h0, if_pos (Or.inl hgt)]
    refine ⟨hb, ?_⟩
    rw [gpt_scan_loop, hb]
  · intro st n hr hs
    have hb : gpt_prtn_intxn_body ctx map hdr sectorsize st =
        step.next { i := st.i + 1, pos := (st.pos + hdr_tableEntrySize hdr) % U64,
                    ret := st.ret, prtncheck := st.prtncheck,
                    trace := st.trace ++ [event.read st.i st.pos] } := by
      unfold gpt_prtn_intxn_body
      simp only [hr, ne_eq, not_true_eq_false, if_false]
      by_cases h0 : gpe_firstLBA (fmap_readn map st.pos GPT_ENTRY_SIZE) = 0
      · rw [if_pos h0]
      · have hgt := hs.resolve_left h0
        rw [if_neg h0, if_pos (Or.inl hgt)]
    refine ⟨hb, ?_⟩
    rw [gpt_prtn_intxn_loop, hb]

/-- C10 at a concrete input: the entry at offset 1024 of the all-zero sample
image has `firstLBA = 0`, and the scan loop goes on from it to the next offset
with `ret` unchanged and the read as only event. -/
theorem skipped_entry_continues_witness :
    gpt_scan_loop sample_ctx sample_map hdr_ok 512 1
        { i := 0, pos := 1024, ret := CL_CLEAN, trace := [] } =
      gpt_scan_loop sample_ctx sample_map hdr_ok 512 0
        { i := 1, pos := (1024 + hdr_tableEntrySize hdr_ok) % U64, ret := CL_CLEAN,
          trace := [] ++ [event.read 0 1024] } :=
  ((skipped_entry_continues sample_ctx sample_map hdr_ok 512).1
    { i := 0, pos := 1024, ret := CL_CLEAN, trace := [] } 0 (by decide!)
    (Or.inl (by decide!))).2

/-! ## The loop bodies, case by case -/

theorem gpt_scan_body_short (ctx : cli_ctx) (map : List Byte) (hdr : gpt_header)
    (sectorsize : Nat) (st : scan_state)
    (hr : (fmap_readn map st.pos GPT_ENTRY_SIZE).length ≠ GPT_ENTRY_SIZE) :
    gpt_scan_body ctx map hdr sectorsize st =
      step.done CL_EFORMAT (st.trace ++ [event.read st.i st.pos]) := by
  unfold gpt_scan_body
  simp only [hr, ne_eq, not_false_eq_true, if_true]

theorem gpt_scan_body_skip (ctx : cli_ctx) (map : List Byte) (hdr : gpt_header)
    (sectorsize : Nat) (st : scan_state)
    (hr : (fmap_readn map st.pos GPT_ENTRY_SIZE).length = GPT_ENTRY_SIZE)
    (ha : ¬ entry_accepted map hdr sectorsize (fmap_readn map st.pos GPT_ENTRY_SIZE)) :
    gpt_scan_body ctx map hdr sectorsize st =
      step.next { i := st.i + 1, pos := (st.pos + hdr_tableEntrySize hdr) % U64,
                  ret := st.ret, trace := st.trace ++ [event.read st.i st.pos] } := by
  unfold gpt_scan_body
  simp only [hr, ne_eq, not_true_eq_false, if_false]
  by_cases h0 : gpe_firstLBA (fmap_readn map st.pos GPT_ENTRY_SIZE) = 0
  · rw [if_pos h0]
  · rw [if_neg h0]
    by_cases h1 : gpe_firstLBA (fmap_readn map st.pos GPT_ENTRY_SIZE) >
        gpe_lastLBA (fmap_readn map st.pos GPT_ENTRY_SIZE) ∨
        gpe_firstLBA (fmap_readn map st.pos GPT_ENTRY_SIZE) < hdr_firstUsableLBA hdr ∨
        gpe_lastLBA (fmap_readn map st.pos GPT_ENTRY_SIZE) > hdr_lastUsableLBA hdr
    · rw [if_pos h1]
    · rw [if_neg h1]
      by_cases h2 : ((gpe_lastLBA (fmap_readn map st.pos GPT_ENTRY_SIZE) + 1) * sectorsize) %
          U64 > map.length
      · rw [if_pos h2]
      · exact absurd ⟨h0, h1, h2⟩ ha

theorem gpt_scan_body_scan (ctx : cli_ctx) (map : List Byte) (hdr : gpt_header)
    (sectorsize : Nat) (st : scan_state)
    (hr : (fmap_readn map st.pos GPT_ENTRY_SIZE).length = GPT_ENTRY_SIZE)
    (ha : entry_accepted map hdr sectorsize (fmap_readn map st.pos GPT_ENTRY_SIZE)) :
    gpt_scan_body ctx map hdr sectorsize st =
      if stops ctx (ctx.cli_map_scan (part_off sectorsize (fmap_readn map st.pos GPT_ENTRY_SIZE))
          (part_size sectorsize (fmap_readn map st.pos GPT_ENTRY_SIZE)))
      then
        step.done (ctx.cli_map_scan (part_off sectorsize (fmap_readn map st.pos GPT_ENTRY_SIZE))
            (part_size sectorsize (fmap_readn map st.pos GPT_ENTRY_SIZE)))
          (st.trace ++ [event.read st.i st.pos] ++
            [event.scan (part_off sectorsize (fmap_readn map st.pos GPT_ENTRY_SIZE))
              (part_size sectorsize (fmap_readn map st.pos GPT_ENTRY_SIZE))])
      else
        step.next
          { i := st.i + 1
            pos := (st.pos + hdr_tableEntrySize hdr) % U64
            ret := ctx.cli_map_scan (part_off sectorsize (fmap_readn map st.pos GPT_ENTRY_SIZE))
              (part_size sectorsize (fmap_readn map st.pos GPT_ENTRY_SIZE))
            trace := st.trace ++ [event.read st.i st.pos] ++
              [event.scan (part_off sectorsize (fmap_readn map st.pos GPT_ENTRY_SIZE))
                (part_size sectorsize (fmap_readn map st.pos GPT_ENTRY_SIZE))] } := by
  obtain ⟨h0, h1, h2⟩ := ha
  unfold gpt_scan_body part_off part_size
  simp only [hr, ne_eq, not_true_eq_false, if_false]
  rw [if_neg h0, if_neg h1, if_neg h2]

theorem gpt_scan_body_skip_next (ctx : cli_ctx) (map : List Byte) (hdr : gpt_header)
    (sectorsize : Nat) (st : scan_state)
    (hr : (fmap_readn map st.pos GPT_ENTRY_SIZE).length = GPT_ENTRY_SIZE)
    (ha : ¬ entry_accepted map hdr sectorsize (fmap_readn map st.pos GPT_ENTRY_SIZE)) :
    gpt_scan_body ctx map hdr sectorsize st =
      step.next (scan_next hdr st st.ret [event.read st.i st.pos]) :=
  gpt_scan_body_skip ctx map hdr sectorsize st hr ha

theorem gpt_scan_body_scan_stop (ctx : cli_ctx) (map : List Byte) (hdr : gpt_header)
    (sectorsize : Nat) (st : scan_state)
    (hr : (fmap_readn map st.pos GPT_ENTRY_SIZE).length = GPT_ENTRY_SIZE)
    (ha : entry_accepted map hdr sectorsize (fmap_readn map st.pos GPT_ENTRY_SIZE))
    (hs : stops ctx (scan_result ctx sectorsize (fmap_readn map st.pos GPT_ENTRY_SIZE)) = true) :
    gpt_scan_body ctx map hdr sectorsize st =
      step.done (scan_result ctx sectorsize (fmap_readn map st.pos GPT_ENTRY_SIZE))
        (st.trace ++ [event.read st.i st.pos,
          event.scan (part_off sectorsize (fmap_readn map st.pos GPT_ENTRY_SIZE))
            (part_size sectorsize (fmap_readn map st.pos GPT_ENTRY_SIZE))]) := by
  rw [gpt_scan_body_scan ctx map hdr sectorsize st hr ha]
  unfold scan_result at hs
  rw [if_pos hs]
  simp [scan_result]

theorem gpt_scan_body_scan_next (ctx : cli_ctx) (map : List Byte) (hdr : gpt_header)
    (sectorsize : Nat) (st : scan_state)
    (hr : (fmap_readn map st.pos GPT_ENTRY_SIZE).length = GPT_ENTRY_SIZE)
    (ha : entry_accepted map hdr sectorsize (fmap_readn map st.pos GPT_ENTRY_SIZE))
    (hs : stops ctx (scan_result ctx sectorsize (fmap_readn map st.pos GPT_ENTRY_SIZE)) =
      false) :
    gpt_scan_body ctx map hdr sectorsize st =
      step.next (scan_next hdr st
        (scan_result ctx sectorsize (fmap_readn map st.pos GPT_ENTRY_SIZE))
        [event.read st.i st.pos,
          event.scan (part_off sectorsize (fmap_readn map st.pos GPT_ENTRY_SIZE))
            (part_size sectorsize (fmap_readn map st.pos GPT_ENTRY_SIZE))]) := by
  rw [gpt_scan_body_scan ctx map hdr sectorsize st hr ha]
  unfold scan_result at hs
  rw [if_neg (by simp [hs])]
  simp [scan_result, scan_next]

/-- An entry is dispatched exactly when it is read in full and passes the
three tests of the loop body. -/
theorem dispatched_iff (ctx : cli_ctx) (map : List Byte) (hdr : gpt_header)
    (sectorsize : Nat) (st : scan_state) :
    dispatched ctx map hdr sectorsize st ↔
      (fmap_readn map st.pos GPT_ENTRY_SIZE).length = GPT_ENTRY_SIZE ∧
      entry_accepted map hdr sectorsize (fmap_readn map st.pos GPT_ENTRY_SIZE) := by
  unfold dispatched scan_body_events
  by_cases hr : (fmap_readn map st.pos GPT_ENTRY_SIZE).length = GPT_ENTRY_SIZE
  · by_cases ha : entry_accepted map hdr sectorsize (fmap_readn map st.pos GPT_ENTRY_SIZE)
    · cases hs : stops ctx (scan_result ctx sectorsize (fmap_readn map st.pos GPT_ENTRY_SIZE))
      · rw [gpt_scan_body_scan_next ctx map hdr sectorsize st hr ha hs]
        simp [scan_step_trace, scan_next, hr, ha]
      · rw [gpt_scan_body_scan_stop ctx map hdr sectorsize st hr ha hs]
        simp [scan_step_trace, hr, ha]
    · rw [gpt_scan_body_skip_next ctx map hdr sectorsize st hr ha]
      simp [scan_step_trace, scan_next, hr, ha]
  · rw [gpt_scan_body_short ctx map hdr sectorsize st hr]
    simp [scan_step_trace, hr]

theorem gpt_prtn_intxn_body_short (ctx : cli_ctx) (map : List Byte) (hdr : gpt_header)
    (sectorsize : Nat) (st : intxn_state)
    (hr : (fmap_readn map st.pos GPT_ENTRY_SIZE).length ≠ GPT_ENTRY_SIZE) :
    gpt_prtn_intxn_body ctx map hdr sectorsize st =
      step.done CL_EFORMAT (st.trace ++ [event.read st.i st.pos]) := by
  unfold gpt_prtn_intxn_body
  simp only [hr, ne_eq, not_false_eq_true, if_true]

theorem gpt_prtn_intxn_body_skip_next (ctx : cli_ctx) (map : List Byte) (hdr : gpt_header)
    (sectorsize : Nat) (st : intxn_state)
    (hr : (fmap_readn map st.pos GPT_ENTRY_SIZE).length = GPT_ENTRY_SIZE)
    (ha : ¬ entry_accepted map hdr sectorsize (fmap_readn map st.pos GPT_ENTRY_SIZE)) :
    gpt_prtn_intxn_body ctx map hdr sectorsize st =
      step.next (intxn_next hdr st st.ret [] [event.read st.i st.pos]) := by
  unfold gpt_prtn_intxn_body intxn_next
  simp only [hr, ne_eq, not_true_eq_false, if_false, List.append_nil]
  by_cases h0 : gpe_firstLBA (fmap_readn map st.pos GPT_ENTRY_SIZE) = 0
  · rw [if_pos h0]
  · rw [if_neg h0]
    by_cases h1 : gpe_firstLBA (fmap_readn map st.pos GPT_ENTRY_SIZE) >
        gpe_lastLBA (fmap_readn map st.pos GPT_ENTRY_SIZE) ∨
        gpe_firstLBA (fmap_readn map st.pos GPT_ENTRY_SIZE) < hdr_firstUsableLBA hdr ∨
        gpe_lastLBA (fmap_readn map st.pos GPT_ENTRY_SIZE) > hdr_lastUsableLBA hdr
    · rw [if_pos h1]
    · rw [if_neg h1]
      by_cases h2 : ((gpe_lastLBA (fmap_readn map st.pos GPT_ENTRY_SIZE) + 1) * sectorsize) %
          U64 > map.length
      · rw [if_pos h2]
      · exact absurd ⟨h0, h1, h2⟩ ha

theorem gpt_prtn_intxn_body_clean (ctx : cli_ctx) (map : List Byte) (hdr : gpt_header)
    (sectorsize : Nat) (st : intxn_state)
    (hr : (fmap_readn map st.pos GPT_ENTRY_SIZE).length = GPT_ENTRY_SIZE)
    (ha : entry_accepted map hdr sectorsize (fmap_readn map st.pos GPT_ENTRY_SIZE))
    (ht : intxn_result ctx st (fmap_readn map st.pos GPT_ENTRY_SIZE) = CL_CLEAN) :
    gpt_prtn_intxn_body ctx map hdr sectorsize st =
      step.next (intxn_next hdr st st.ret [gpe_interval (fmap_readn map st.pos GPT_ENTRY_SIZE)]
        [event.read st.i st.pos,
          event.insert (gpe_firstLBA (fmap_readn map st.pos GPT_ENTRY_SIZE))
            (gpe_lastLBA (fmap_readn map st.pos GPT_ENTRY_SIZE) -
              gpe_firstLBA (fmap_readn map st.pos GPT_ENTRY_SIZE) + 1)]) := by
  obtain ⟨h0, h1, h2⟩ := ha
  unfold intxn_result at ht
  unfold gpt_prtn_intxn_body intxn_next gpe_interval
  simp only [hr, ne_eq, not_true_eq_false, if_false]
  rw [if_neg h0, if_neg h1, if_neg h2]
  simp [ht]

theorem gpt_prtn_intxn_body_virus_all (ctx : cli_ctx) (map : List Byte) (hdr : gpt_header)
    (sectorsize : Nat) (st : intxn_state)
    (hr : (fmap_readn map st.pos GPT_ENTRY_SIZE).length = GPT_ENTRY_SIZE)
    (ha : entry_accepted map hdr sectorsize (fmap_readn map st.pos GPT_ENTRY_SIZE))
    (ht : intxn_result ctx st (fmap_readn map st.pos GPT_ENTRY_SIZE) = CL_VIRUS)
    (hall : ctx.allmatches = true) :
    gpt_prtn_intxn_body ctx map hdr sectorsize st =
      step.next (intxn_next hdr st CL_VIRUS
        [gpe_interval (fmap_readn map st.pos GPT_ENTRY_SIZE)]
        [event.read st.i st.pos,
          event.insert (gpe_firstLBA (fmap_readn map st.pos GPT_ENTRY_SIZE))
            (gpe_lastLBA (fmap_readn map st.pos GPT_ENTRY_SIZE) -
              gpe_firstLBA (fmap_readn map st.pos GPT_ENTRY_SIZE) + 1),
          event.append_virus]) := by
  obtain ⟨h0, h1, h2⟩ := ha
  unfold intxn_result at ht
  unfold gpt_prtn_intxn_body intxn_next gpe_interval
  simp only [hr, ne_eq, not_true_eq_false, if_false]
  rw [if_neg h0, if_neg h1, if_neg h2]
  simp [ht, hall]

theorem gpt_prtn_intxn_body_virus_stop (ctx : cli_ctx) (map : List Byte) (hdr : gpt_header)
    (sectorsize : Nat) (st : intxn_state)
    (hr : (fmap_readn map st.pos GPT_ENTRY_SIZE).length = GPT_ENTRY_SIZE)
    (ha : entry_accepted map hdr sectorsize (fmap_readn map st.pos GPT_ENTRY_SIZE))
    (ht : intxn_result ctx st (fmap_readn map st.pos GPT_ENTRY_SIZE) = CL_VIRUS)
    (hall : ctx.allmatches = false) :
    gpt_prtn_intxn_body ctx map hdr sectorsize st =
      step.done CL_VIRUS (st.trace ++
        [event.read st.i st.pos,
          event.insert (gpe_firstLBA (fmap_readn map st.pos GPT_ENTRY_SIZE))
            (gpe_lastLBA (fmap_readn map st.pos GPT_ENTRY_SIZE) -
              gpe_firstLBA (fmap_readn map st.pos GPT_ENTRY_SIZE) + 1),
          event.append_virus]) := by
  obtain ⟨h0, h1, h2⟩ := ha
  unfold intxn_result at ht
  unfold gpt_prtn_intxn_body
  simp only [hr, ne_eq, not_true_eq_false, if_false]
  rw [if_neg h0, if_neg h1, if_neg h2]
  simp [ht, hall]

theorem gpt_prtn_intxn_body_error (ctx : cli_ctx) (map : List Byte) (hdr : gpt_header)
    (sectorsize : Nat) (st : intxn_state)
    (hr : (fmap_readn map st.pos GPT_ENTRY_SIZE).length = GPT_ENTRY_SIZE)
    (ha : entry_accepted map hdr sectorsize (fmap_readn map st.pos GPT_ENTRY_SIZE))
    (hc : intxn_result ctx st (fmap_readn map st.pos GPT_ENTRY_SIZE) ≠ CL_CLEAN)
    (hv : intxn_result ctx st (fmap_readn map st.pos GPT_ENTRY_SIZE) ≠ CL_VIRUS) :
    gpt_prtn_intxn_body ctx map hdr sectorsize st =
      step.done (intxn_result ctx st (fmap_readn map st.pos GPT_ENTRY_SIZE)) (st.trace ++
        [event.read st.i st.pos,
          event.insert (gpe_firstLBA (fmap_readn map st.pos GPT_ENTRY_SIZE))
            (gpe_lastLBA (fmap_readn map st.pos GPT_ENTRY_SIZE) -
              gpe_firstLBA (fmap_readn map st.pos GPT_ENTRY_SIZE) + 1)]) := by
  obtain ⟨h0, h1, h2⟩ := ha
  unfold intxn_result at hc hv ⊢
  unfold gpt_prtn_intxn_body
  simp only [hr, ne_eq, not_true_eq_false, if_false]
  rw [if_neg h0, if_neg h1, if_neg h2]
  simp [hc, hv]

/-! ## From `cli_scangpt` to its passes -/

theorem crc32_eq_elim (c : Nat) (buf : Option (List Byte)) :
    crc32 c buf = buf.elim 0 fun bs => crc32_run (c ^^^ 0xFFFFFFFF) bs ^^^ 0xFFFFFFFF := by
  cases buf with
  | none => rfl
  | some bs => exact crc32_some_eq_run c bs

theorem cli_scangpt_headers_primary_only (map : List Byte) (sectorsize : Nat)
    (stack : Nat → Byte) (hread : (read_primary map sectorsize).length = GPT_HDR_SIZE)
    (hp : gpt_validate_header map (read_primary map sectorsize) sectorsize = CL_SUCCESS)
    (hs : (read_secondary map sectorsize).length ≠ GPT_HDR_SIZE ∨
      gpt_validate_header map (hdr_after_read (read_secondary map sectorsize) stack)
        sectorsize ≠ CL_SUCCESS) :
    cli_scangpt_headers map sectorsize stack =
      Except.ok (PRIMARY_ONLY, read_primary map sectorsize,
        hdr_after_read (read_secondary map sectorsize) stack) := by
  unfold cli_scangpt_headers
  simp only [hread, hp, ne_eq, not_true_eq_false, if_false]
  by_cases hl : (read_secondary map sectorsize).length = GPT_HDR_SIZE
  · have hv := hs.resolve_left (fun h => h hl)
    simp [hl, hv]
  · simp [hl]

theorem cli_scangpt_headers_secondary_only (map : List Byte) (sectorsize : Nat)
    (stack : Nat → Byte) (hread : (read_primary map sectorsize).length = GPT_HDR_SIZE)
    (hp : gpt_validate_header map (read_primary map sectorsize) sectorsize ≠ CL_SUCCESS)
    (hl : (read_secondary map sectorsize).length = GPT_HDR_SIZE)
    (hv : gpt_validate_header map (hdr_after_read (read_secondary map sectorsize) stack)
        sectorsize = CL_SUCCESS) :
    cli_scangpt_headers map sectorsize stack =
      Except.ok (SECONDARY_ONLY, read_primary map sectorsize,
        hdr_after_read (read_secondary map sectorsize) stack) := by
  unfold cli_scangpt_headers
  simp [hread, hp, hl, hv]

theorem cli_scangpt_of_headers (ctx : cli_ctx) (map : List Byte) (arg sectorsize : Nat)
    (stack : Nat → Byte) (state : GPT_SCANSTATE) (phdr shdr : gpt_header)
    (hctx : ctx.fmap = some map)
    (harg : (if arg = 0 then gpt_detect_size map else some arg) = some sectorsize)
    (hss : sectorsize ≠ 0) (hmul : map.length % sectorsize = 0)
    (hh : cli_scangpt_headers map sectorsize stack = Except.ok (state, phdr, shdr)) :
    cli_scangpt (some ctx) arg stack =
      some (cli_scangpt_passes ctx map sectorsize state phdr shdr) := by
  have hsz : cli_scangpt_sized ctx map sectorsize stack =
      cli_scangpt_passes ctx map sectorsize state phdr shdr := by
    unfold cli_scangpt_sized
    simp [hss, hmul, hh]
  simp only [cli_scangpt, hctx, harg, Option.map_some', hsz]

/-! ## The result policy of the scan pass -/

/-- C13: in `gpt_scan_partitions`, for a dispatched entry with scanner result
`r`: when `r` is not clean and the scan is not in all-matches mode, or `r` is
neither clean nor a detection, the pass returns `r` at once and its last
events are the read and the scan of this entry; when `r` is a detection in
all-matches mode, or clean, the loop goes on with the next entry (and `ret =
r`). -/
theorem scan_result_policy (ctx : cli_ctx) (map : List Byte) (hdr : gpt_header)
    (sectorsize : Nat) (st : scan_state) (n : Nat)
    (hd : dispatched ctx map hdr sectorsize st) :
    (((scan_result ctx sectorsize (fmap_readn map st.pos GPT_ENTRY_SIZE) ≠ CL_CLEAN ∧
        ctx.allmatches = false) ∨
      (scan_result ctx sectorsize (fmap_readn map st.pos GPT_ENTRY_SIZE) ≠ CL_CLEAN ∧
        scan_result ctx sectorsize (fmap_readn map st.pos GPT_ENTRY_SIZE) ≠ CL_VIRUS)) →
      gpt_scan_loop ctx map hdr sectorsize (n + 1) st =
        (scan_result ctx sectorsize (fmap_readn map st.pos GPT_ENTRY_SIZE),
          st.trace ++ [event.read st.i st.pos,
            event.scan (part_off sectorsize (fmap_readn map st.pos GPT_ENTRY_SIZE))
              (part_size sectorsize (fmap_readn map st.pos GPT_ENTRY_SIZE))])) ∧
    (((scan_result ctx sectorsize (fmap_readn map st.pos GPT_ENTRY_SIZE) = CL_VIRUS ∧
        ctx.allmatches = true) ∨
      scan_result ctx sectorsize (fmap_readn map st.pos GPT_ENTRY_SIZE) = CL_CLEAN) →
      gpt_scan_loop ctx map hdr sectorsize (n + 1) st =
        gpt_scan_loop ctx map hdr sectorsize n
          (scan_next hdr st (scan_result ctx sectorsize (fmap_readn map st.pos GPT_ENTRY_SIZE))
            [event.read st.i st.pos,
              event.scan (part_off sectorsize (fmap_readn map st.pos GPT_ENTRY_SIZE))
                (part_size sectorsize (fmap_readn map st.pos GPT_ENTRY_SIZE))])) := by
  obtain ⟨hr, ha⟩ := (dispatched_iff ctx map hdr sectorsize st).1 hd
  constructor
  · intro h
    have hs : stops ctx (scan_result ctx sectorsize (fmap_readn map st.pos GPT_ENTRY_SIZE)) =
        true := by
      unfold stops
      rcases h with ⟨h1, h2⟩ | ⟨h1, h2⟩
      · simp [h1, h2]
      · simp [h1, h2]
    rw [gpt_scan_loop, gpt_scan_body_scan_stop ctx map hdr sectorsize st hr ha hs]
  · intro h
    have hs : stops ctx (scan_result ctx sectorsize (fmap_readn map st.pos GPT_ENTRY_SIZE)) =
        false := by
      unfold stops
      rcases h with ⟨h1, h2⟩ | h1
      · simp [h1, h2]
      · simp [h1]
    rw [gpt_scan_loop, gpt_scan_body_scan_next ctx map hdr sectorsize st hr ha hs]

/-- C13 at a concrete input: in all-matches mode the entry [3,3] of `map_two`
is dispatched, the scanner reports a detection, and the loop goes on with the
entry at offset 1152. -/
theorem scan_result_policy_witness :
    gpt_scan_loop ctx_two map_two hdr_two 512 2
        { i := 0, pos := 1024, ret := CL_CLEAN, trace := [] } =
      gpt_scan_loop ctx_two map_two hdr_two 512 1
        (scan_next hdr_two { i := 0, pos := 1024, ret := CL_CLEAN, trace := [] }
          (scan_result ctx_two 512 (fmap_readn map_two 1024 GPT_ENTRY_SIZE))
          [event.read 0 1024,
            event.scan (part_off 512 (fmap_readn map_two 1024 GPT_ENTRY_SIZE))
              (part_size 512 (fmap_readn map_two 1024 GPT_ENTRY_SIZE))]) :=
  (scan_result_policy ctx_two map_two hdr_two 512
    { i := 0, pos := 1024, ret := CL_CLEAN, trace := [] } 1
    ((dispatched_iff ctx_two map_two hdr_two 512 _).2 ⟨by decide!, by decide!⟩)).2
    (Or.inl ⟨by decide!, rfl⟩)

/-! ## Evaluation of `cli_scangpt` on `map_two` -/

theorem map_two_primary : read_primary map_two 512 = hdr_two := by decide!

theorem hdr_two_valid : gpt_validate_header map_two hdr_two 512 = CL_SUCCESS := by
  rw [gpt_validate_header_success_iff]
  refine ⟨by decide!, by decide!, by decide!, by decide!, by decide!, by decide!, by decide!,
    by decide!, by decide!, by decide!, by decide!, by decide!, by decide!, by decide!, ?_⟩
  rw [crc32_eq_elim]
  decide!

theorem map_two_headers (stack : Nat → Byte) :
    cli_scangpt_headers map_two 512 stack =
      Except.ok (PRIMARY_ONLY, hdr_two, hdr_after_read (read_secondary map_two 512) stack) := by
  have h := cli_scangpt_headers_primary_only map_two 512 stack (by decide!)
    (by rw [map_two_primary]; exact hdr_two_valid)
    (Or.inr (by
      have e : hdr_after_read (read_secondary map_two 512) stack =
          read_secondary map_two 512 := hdr_after_read_full _ _ (by decide!)
      rw [e]
      decide!))
  rw [map_two_primary] at h
  exact h

/-- C14 (evaluation at the failing input): in all-matches mode, on `map_two`
the scanner reports a detection for the first partition (byte offset 1536) and
clean for the second, and `cli_scangpt` returns `CL_CLEAN`: the result of the
second scan replaced the detection in `ret`. -/
theorem cli_scangpt_detection_overwritten :
    ctx_two.allmatches = true ∧
    ctx_two.cli_map_scan 1536 512 = CL_VIRUS ∧
    cli_scangpt (some ctx_two) 512 (fun _ => 0) =
      some (CL_CLEAN, [event.read 0 1024, event.scan 1536 512, event.read 1 1152,
        event.scan 2048 512]) := by
  refine ⟨rfl, rfl, ?_⟩
  rw [cli_scangpt_of_headers ctx_two map_two 512 512 (fun _ => 0) PRIMARY_ONLY hdr_two
    (hdr_after_read (read_secondary map_two 512) fun _ => 0) rfl rfl (by decide) (by decide!)
    (map_two_headers _)]
  decide!

/-! ## Short reads -/

/-- C15: in `gpt_scan_partitions` and in `gpt_prtn_intxn`, when the read of
the entry of a loop state yields fewer bytes than the entry record width, the
pass returns `CL_EFORMAT` at once, for every context (either mode) and every
value of `ret`, and the read is its last event: no further entry is read,
scanned or inserted. -/
theorem short_read_is_fatal (ctx : cli_ctx) (map : List Byte) (hdr : gpt_header)
    (sectorsize : Nat) :
    (∀ (st : scan_state) (n : Nat),
      (fmap_readn map st.pos GPT_ENTRY_SIZE).length < GPT_ENTRY_SIZE →
      gpt_scan_loop ctx map hdr sectorsize (n + 1) st =
        (CL_EFORMAT, st.trace ++ [event.read st.i st.pos])) ∧
    (∀ (st : intxn_state) (n : Nat),
      (fmap_readn map st.pos GPT_ENTRY_SIZE).length < GPT_ENTRY_SIZE →
      gpt_prtn_intxn_loop ctx map hdr sectorsize (n + 1) st =
        (CL_EFORMAT, st.trace ++ [event.read st.i st.pos])) := by
  constructor
  · intro st n h
    rw [gpt_scan_loop, gpt_scan_body_short ctx map hdr sectorsize st (Nat.ne_of_lt h)]
  · intro st n h
    rw [gpt_prtn_intxn_loop,
      gpt_prtn_intxn_body_short ctx map hdr sectorsize st (Nat.ne_of_lt h)]

/-- C15 at a concrete input: in all-matches mode with `ret = CL_VIRUS`, a read
at offset 4000 of the 4096-byte image `map_two` is short and the scan pass
returns `CL_EFORMAT`. -/
theorem short_read_is_fatal_witness :
    gpt_scan_loop ctx_two map_two hdr_two 512 2
        { i := 1, pos := 4000, ret := CL_VIRUS, trace := [] } =
      (CL_EFORMAT, [] ++ [event.read 1 4000]) :=
  (short_read_is_fatal ctx_two map_two hdr_two 512).1
    { i := 1, pos := 4000, ret := CL_VIRUS, trace := [] } 1 (by decide!)

/-! ## The scan-dispatch step -/

/-- C19: the `switch (state)` of `cli_scangpt`. In `PRIMARY_ONLY` the result
and the events are those of `gpt_scan_partitions` on `phdr`, whatever `shdr`
is; in `SECONDARY_ONLY` those of the pass on `shdr`, whatever `phdr` is; in
`BOTH` the pass on `phdr` runs first, and the pass on `shdr` runs after it
exactly when the first result is clean or, in all-matches mode, a detection;
the value returned is that of the last pass run. -/
theorem cli_scangpt_scan_by_state (ctx : cli_ctx) (map : List Byte) (sectorsize : Nat)
    (phdr shdr : gpt_header) (ret : cl_error_t) (trace : List event) :
    (∀ other : gpt_header,
      cli_scangpt_scan ctx map sectorsize PRIMARY_ONLY phdr other ret trace =
        ((gpt_scan_partitions ctx map phdr sectorsize).1,
          trace ++ (gpt_scan_partitions ctx map phdr sectorsize).2)) ∧
    (∀ other : gpt_header,
      cli_scangpt_scan ctx map sectorsize SECONDARY_ONLY other shdr ret trace =
        ((gpt_scan_partitions ctx map shdr sectorsize).1,
          trace ++ (gpt_scan_partitions ctx map shdr sectorsize).2)) ∧
    (((gpt_scan_partitions ctx map phdr sectorsize).1 = CL_CLEAN ∨
        (ctx.allmatches = true ∧ (gpt_scan_partitions ctx map phdr sectorsize).1 = CL_VIRUS)) →
      cli_scangpt_scan ctx map sectorsize BOTH phdr shdr ret trace =
        ((gpt_scan_partitions ctx map shdr sectorsize).1,
          trace ++ (gpt_scan_partitions ctx map phdr sectorsize).2 ++
            (gpt_scan_partitions ctx map shdr sectorsize).2)) ∧
    (¬ ((gpt_scan_partitions ctx map phdr sectorsize).1 = CL_CLEAN ∨
        (ctx.allmatches = true ∧ (gpt_scan_partitions ctx map phdr sectorsize).1 = CL_VIRUS)) →
      cli_scangpt_scan ctx map sectorsize BOTH phdr shdr ret trace =
        ((gpt_scan_partitions ctx map phdr sectorsize).1,
          trace ++ (gpt_scan_partitions ctx map phdr sectorsize).2)) := by
  refine ⟨fun _ => rfl, fun _ => rfl, ?_, ?_⟩
  · intro h
    have hs : stops ctx (gpt_scan_partitions ctx map phdr sectorsize).1 = false := by
      unfold stops
      rcases h with h | ⟨h1, h2⟩
      · simp [h]
      · simp [h1, h2]
    simp [cli_scangpt_scan, hs]
  · intro h
    have hs : stops ctx (gpt_scan_partitions ctx map phdr sectorsize).1 = true := by
      unfold stops
      rw [not_or] at h
      obtain ⟨h1, h2⟩ := h
      cases hall : ctx.allmatches
      · simp [h1]
      · have h3 : ¬ (gpt_scan_partitions ctx map phdr sectorsize).1 = CL_VIRUS :=
          fun hv => h2 ⟨hall, hv⟩
        simp [h1, h3]
    simp [cli_scangpt_scan, hs]

/-! ## Dispatch under a validated header -/

/-- Under an accepted header, an LBA up to the last usable LBA lies at least
one sector before the end of the image. -/
theorem usable_lba_in_image (map : List Byte) (hdr : gpt_header) (sectorsize : Nat)
    (hss : 0 < sectorsize) (hlen : sectorsize ≤ map.length) (hmax : map.length < U64)
    (hv : gpt_validate_header map hdr sectorsize = CL_SUCCESS) (lba : Nat)
    (hl : lba ≤ hdr_lastUsableLBA hdr) : (lba + 1) * sectorsize + sectorsize ≤ map.length := by
  obtain ⟨-, -, -, -, -, -, -, h8, -⟩ :=
    (gpt_validate_header_success_iff map hdr sectorsize).1 hv
  rw [lastLBA_eq map sectorsize hss hlen hmax] at h8
  have h1 : lba + 2 ≤ map.length / sectorsize := by omega
  have h2 : (lba + 2) * sectorsize ≤ map.length / sectorsize * sectorsize :=
    Nat.mul_le_mul_right _ h1
  have h3 : map.length / sectorsize * sectorsize ≤ map.length := Nat.div_mul_le_self _ _
  have h4 : (lba + 2) * sectorsize = (lba + 1) * sectorsize + sectorsize := by ring
  omega

/-- Under an accepted header the three tests of the loop body amount to the
bounds of the claim, with the byte bound in exact arithmetic. -/
theorem entry_accepted_iff_bounds (map : List Byte) (hdr : gpt_header) (sectorsize : Nat)
    (hss : 0 < sectorsize) (hlen : sectorsize ≤ map.length) (hmax : map.length < U64)
    (hv : gpt_validate_header map hdr sectorsize = CL_SUCCESS) (gpe : gpt_partition_entry) :
    entry_accepted map hdr sectorsize gpe ↔
      gpe_firstLBA gpe ≠ 0 ∧ gpe_firstLBA gpe ≤ gpe_lastLBA gpe ∧
      hdr_firstUsableLBA hdr ≤ gpe_firstLBA gpe ∧ gpe_lastLBA gpe ≤ hdr_lastUsableLBA hdr ∧
      (gpe_lastLBA gpe + 1) * sectorsize ≤ map.length := by
  unfold entry_accepted
  constructor
  · rintro ⟨h0, h1, -⟩
    have hl : gpe_lastLBA gpe ≤ hdr_lastUsableLBA hdr := by omega
    have hb := usable_lba_in_image map hdr sectorsize hss hlen hmax hv _ hl
    exact ⟨h0, by omega, by omega, hl, by omega⟩
  · rintro ⟨h0, h1, h2, h3, h4⟩
    refine ⟨h0, by omega, ?_⟩
    rw [Nat.mod_eq_of_lt (by omega)]
    omega

/-- C11 (amended): for every header that `gpt_validate_header` accepted for
the image (sector size not 0, image of at least one sector) and every entry
read in full by `gpt_scan_partitions`, the entry is dispatched to the content
scanner if and only if `firstLBA ≠ 0`, `firstLBA ≤ lastLBA`, `firstUsableLBA ≤
firstLBA`, `lastLBA ≤ lastUsableLBA` and `(lastLBA + 1) × sectorsize ≤
maplen` in exact arithmetic; an entry failing the bounds is skipped without
error: the loop goes on with `ret` unchanged. -/
theorem dispatched_iff_bounds (ctx : cli_ctx) (map : List Byte) (hdr : gpt_header)
    (sectorsize : Nat) (st : scan_state)
    (hss : 0 < sectorsize) (hlen : sectorsize ≤ map.length) (hmax : map.length < U64)
    (hv : gpt_validate_header map hdr sectorsize = CL_SUCCESS)
    (hr : (fmap_readn map st.pos GPT_ENTRY_SIZE).length = GPT_ENTRY_SIZE) :
    (dispatched ctx map hdr sectorsize st ↔
      gpe_firstLBA (fmap_readn map st.pos GPT_ENTRY_SIZE) ≠ 0 ∧
      gpe_firstLBA (fmap_readn map st.pos GPT_ENTRY_SIZE) ≤
        gpe_lastLBA (fmap_readn map st.pos GPT_ENTRY_SIZE) ∧
      hdr_firstUsableLBA hdr ≤ gpe_firstLBA (fmap_readn map st.pos GPT_ENTRY_SIZE) ∧
      gpe_lastLBA (fmap_readn map st.pos GPT_ENTRY_SIZE) ≤ hdr_lastUsableLBA hdr ∧
      (gpe_lastLBA (fmap_readn map st.pos GPT_ENTRY_SIZE) + 1) * sectorsize ≤ map.length) ∧
    (¬ (gpe_firstLBA (fmap_readn map st.pos GPT_ENTRY_SIZE) ≠ 0 ∧
        gpe_firstLBA (fmap_readn map st.pos GPT_ENTRY_SIZE) ≤
          gpe_lastLBA (fmap_readn map st.pos GPT_ENTRY_SIZE) ∧
        hdr_firstUsableLBA hdr ≤ gpe_firstLBA (fmap_readn map st.pos GPT_ENTRY_SIZE) ∧
        gpe_lastLBA (fmap_readn map st.pos GPT_ENTRY_SIZE) ≤ hdr_lastUsableLBA hdr ∧
        (gpe_lastLBA (fmap_readn map st.pos GPT_ENTRY_SIZE) + 1) * sectorsize ≤ map.length) →
      gpt_scan_body ctx map hdr sectorsize st =
        step.next (scan_next hdr st st.ret [event.read st.i st.pos])) := by
  have hb := entry_accepted_iff_bounds map hdr sectorsize hss hlen hmax hv
    (fmap_readn map st.pos GPT_ENTRY_SIZE)
  constructor
  · rw [dispatched_iff, hb]
    exact ⟨fun h => h.2, fun h => ⟨hr, h⟩⟩
  · intro hn
    exact gpt_scan_body_skip_next ctx map hdr sectorsize st hr (fun ha => hn (hb.1 ha))

/-- C11 at a concrete input: under `hdr_two` the entry [3,3] of `map_two` at
offset 1024 meets the bounds and is dispatched. -/
theorem dispatched_iff_bounds_witness :
    dispatched ctx_two map_two hdr_two 512 { i := 0, pos := 1024, ret := CL_CLEAN, trace := [] } :=
  (dispatched_iff_bounds ctx_two map_two hdr_two 512
    { i := 0, pos := 1024, ret := CL_CLEAN, trace := [] } (by decide) (by decide!) (by decide!)
    hdr_two_valid (by decide!)).1.2
    ⟨by decide!, by decide!, by decide!, by decide!, by decide!⟩

/-- C11 as stated fails for a header that was not validated: under
`hdr_unchecked` (last usable LBA `2^64 - 1`) the entry [1, 2^64 - 1] at offset
0 of `map_wrap` is dispatched, although `(lastLBA + 1) × 512 = 2^73` exceeds
the image length 4096; the 64-bit sum `lastLBA + 1` wraps to 0. -/
theorem dispatched_iff_bounds_counterexample :
    ¬ (dispatched sample_ctx map_wrap hdr_unchecked 512
        { i := 0, pos := 0, ret := CL_CLEAN, trace := [] } ↔
      gpe_firstLBA (fmap_readn map_wrap 0 GPT_ENTRY_SIZE) ≠ 0 ∧
      gpe_firstLBA (fmap_readn map_wrap 0 GPT_ENTRY_SIZE) ≤
        gpe_lastLBA (fmap_readn map_wrap 0 GPT_ENTRY_SIZE) ∧
      hdr_firstUsableLBA hdr_unchecked ≤ gpe_firstLBA (fmap_readn map_wrap 0 GPT_ENTRY_SIZE) ∧
      gpe_lastLBA (fmap_readn map_wrap 0 GPT_ENTRY_SIZE) ≤ hdr_lastUsableLBA hdr_unchecked ∧
      (gpe_lastLBA (fmap_readn map_wrap 0 GPT_ENTRY_SIZE) + 1) * 512 ≤ map_wrap.length) := by
  intro h
  have hd : dispatched sample_ctx map_wrap hdr_unchecked 512
      { i := 0, pos := 0, ret := CL_CLEAN, trace := [] } :=
    (dispatched_iff sample_ctx map_wrap hdr_unchecked 512 _).2 ⟨by decide!, by decide!⟩
  have hb := (h.1 hd).2.2.2.2
  revert hb
  decide!

/-! ## The byte ranges handed to the scanner -/

/-- Under an accepted header, the scan event of an accepted entry has the
exact offset and length and lies inside the image. -/
theorem scan_call_ok_of_accepted (map : List Byte) (hdr : gpt_header) (sectorsize : Nat)
    (hss : 0 < sectorsize) (hlen : sectorsize ≤ map.length) (hmax : map.length < U64)
    (hv : gpt_validate_header map hdr sectorsize = CL_SUCCESS) (pos : Nat)
    (hr : (fmap_readn map pos GPT_ENTRY_SIZE).length = GPT_ENTRY_SIZE)
    (ha : entry_accepted map hdr sectorsize (fmap_readn map pos GPT_ENTRY_SIZE)) :
    scan_call_ok map sectorsize
      (event.scan (part_off sectorsize (fmap_readn map pos GPT_ENTRY_SIZE))
        (part_size sectorsize (fmap_readn map pos GPT_ENTRY_SIZE))) := by
  obtain ⟨-, h1, -, -, h4⟩ :=
    (entry_accepted_iff_bounds map hdr sectorsize hss hlen hmax hv _).1 ha
  have hsum : gpe_firstLBA (fmap_readn map pos GPT_ENTRY_SIZE) * sectorsize +
      (gpe_lastLBA (fmap_readn map pos GPT_ENTRY_SIZE) -
        gpe_firstLBA (fmap_readn map pos GPT_ENTRY_SIZE) + 1) * sectorsize =
      (gpe_lastLBA (fmap_readn map pos GPT_ENTRY_SIZE) + 1) * sectorsize := by
    rw [← Nat.add_mul]
    congr 1
    omega
  have hpos : 0 < (gpe_lastLBA (fmap_readn map pos GPT_ENTRY_SIZE) -
      gpe_firstLBA (fmap_readn map pos GPT_ENTRY_SIZE) + 1) * sectorsize :=
    Nat.mul_pos (by omega) hss
  have e1 : part_off sectorsize (fmap_readn map pos GPT_ENTRY_SIZE) =
      gpe_firstLBA (fmap_readn map pos GPT_ENTRY_SIZE) * sectorsize := by
    unfold part_off
    exact Nat.mod_eq_of_lt (by omega)
  have e2 : part_size sectorsize (fmap_readn map pos GPT_ENTRY_SIZE) =
      (gpe_lastLBA (fmap_readn map pos GPT_ENTRY_SIZE) -
        gpe_firstLBA (fmap_readn map pos GPT_ENTRY_SIZE) + 1) * sectorsize := by
    unfold part_size
    exact Nat.mod_eq_of_lt (by omega)
  rw [e1, e2]
  exact ⟨pos, hr, h1, rfl, rfl, hsum, hpos, by omega⟩

/-- The scan loop keeps the property of the scanner calls. -/
theorem gpt_scan_loop_calls_ok (ctx : cli_ctx) (map : List Byte) (hdr : gpt_header)
    (sectorsize : Nat) (hss : 0 < sectorsize) (hlen : sectorsize ≤ map.length)
    (hmax : map.length < U64) (hv : gpt_validate_header map hdr sectorsize = CL_SUCCESS)
    (n : Nat) (st : scan_state) (hst : ∀ e ∈ st.trace, scan_call_ok map sectorsize e) :
    ∀ e ∈ (gpt_scan_loop ctx map hdr sectorsize n st).2, scan_call_ok map sectorsize e := by
  induction n generalizing st with
  | zero => exact hst
  | succ n ih =>
    rw [gpt_scan_loop]
    by_cases hr : (fmap_readn map st.pos GPT_ENTRY_SIZE).length = GPT_ENTRY_SIZE
    · by_cases ha : entry_accepted map hdr sectorsize (fmap_readn map st.pos GPT_ENTRY_SIZE)
      · have hok := scan_call_ok_of_accepted map hdr sectorsize hss hlen hmax hv st.pos hr ha
        have hnew : ∀ e ∈ st.trace ++ [event.read st.i st.pos,
            event.scan (part_off sectorsize (fmap_readn map st.pos GPT_ENTRY_SIZE))
              (part_size sectorsize (fmap_readn map st.pos GPT_ENTRY_SIZE))],
            scan_call_ok map sectorsize e := by
          intro e he
          rcases List.mem_append.1 he with h | h
          · exact hst e h
          · simp only [List.mem_cons, List.mem_singleton, List.not_mem_nil, or_false] at h
            rcases h with rfl | rfl
            · trivial
            · exact hok
        cases hs : stops ctx (scan_result ctx sectorsize (fmap_readn map st.pos GPT_ENTRY_SIZE))
        · rw [gpt_scan_body_scan_next ctx map hdr sectorsize st hr ha hs]
          exact ih _ hnew
        · rw [gpt_scan_body_scan_stop ctx map hdr sectorsize st hr ha hs]
          exact hnew
      · rw [gpt_scan_body_skip_next ctx map hdr sectorsize st hr ha]
        apply ih
        intro e he
        rcases List.mem_append.1 he with h | h
        · exact hst e h
        · rw [List.mem_singleton.1 h]
          trivial
    · rw [gpt_scan_body_short ctx map hdr sectorsize st hr]
      intro e he
      rcases List.mem_append.1 he with h | h
      · exact hst e h
      · rw [List.mem_singleton.1 h]
        trivial

/-- C12: for every header that `gpt_validate_header` accepted for the image
(sector size not 0, image of at least one sector), every call that
`gpt_scan_partitions` makes to the content scanner is for an entry read in
full, with offset `firstLBA × sectorsize` and length `(lastLBA - firstLBA + 1)
× sectorsize` as exact products (no wrap-around): the byte range ends at
`(lastLBA + 1) × sectorsize`, is not empty and lies inside the image. -/
theorem scan_calls_in_image (ctx : cli_ctx) (map : List Byte) (hdr : gpt_header)
    (sectorsize : Nat) (hss : 0 < sectorsize) (hlen : sectorsize ≤ map.length)
    (hmax : map.length < U64) (hv : gpt_validate_header map hdr sectorsize = CL_SUCCESS)
    (off len : Nat) (he : event.scan off len ∈ (gpt_scan_partitions ctx map hdr sectorsize).2) :
    ∃ pos, (fmap_readn map pos GPT_ENTRY_SIZE).length = GPT_ENTRY_SIZE ∧
      gpe_firstLBA (fmap_readn map pos GPT_ENTRY_SIZE) ≤
        gpe_lastLBA (fmap_readn map pos GPT_ENTRY_SIZE) ∧
      off = gpe_firstLBA (fmap_readn map pos GPT_ENTRY_SIZE) * sectorsize ∧
      len = (gpe_lastLBA (fmap_readn map pos GPT_ENTRY_SIZE) -
        gpe_firstLBA (fmap_readn map pos GPT_ENTRY_SIZE) + 1) * sectorsize ∧
      off + len = (gpe_lastLBA (fmap_readn map pos GPT_ENTRY_SIZE) + 1) * sectorsize ∧
      0 < len ∧ off + len ≤ map.length :=
  gpt_scan_loop_calls_ok ctx map hdr sectorsize hss hlen hmax hv _ _
    (fun _ h => absurd h (List.not_mem_nil _)) _ he

/-- C12 at a concrete input: the call `scan 2048 512` that the pass makes on
`map_two` under `hdr_two` (entry [4,4]). -/
theorem scan_calls_in_image_witness :
    ∃ pos, (fmap_readn map_two pos GPT_ENTRY_SIZE).length = GPT_ENTRY_SIZE ∧
      gpe_firstLBA (fmap_readn map_two pos GPT_ENTRY_SIZE) ≤
        gpe_lastLBA (fmap_readn map_two pos GPT_ENTRY_SIZE) ∧
      2048 = gpe_firstLBA (fmap_readn map_two pos GPT_ENTRY_SIZE) * 512 ∧
      512 = (gpe_lastLBA (fmap_readn map_two pos GPT_ENTRY_SIZE) -
        gpe_firstLBA (fmap_readn map_two pos GPT_ENTRY_SIZE) + 1) * 512 ∧
      2048 + 512 = (gpe_lastLBA (fmap_readn map_two pos GPT_ENTRY_SIZE) + 1) * 512 ∧
      0 < 512 ∧ 2048 + 512 ≤ map_two.length :=
  scan_calls_in_image ctx_two map_two hdr_two 512 (by decide) (by decide!) (by decide!)
    hdr_two_valid 2048 512 (by decide!)

/-! ## The entries read by the scan pass -/

/-- The reads and the number of scanner calls of the scan loop, from any loop
state: at most `n` further entries are read, entry `j` at the offset advanced
`j` times by the header's entry size (64-bit). -/
theorem gpt_scan_loop_reads (ctx : cli_ctx) (map : List Byte) (hdr : gpt_header)
    (sectorsize : Nat) (n : Nat) (st : scan_state) (hpos : st.pos < U64) :
    ∃ k, k ≤ n ∧
      (gpt_scan_loop ctx map hdr sectorsize n st).2.filter event.is_read =
        st.trace.filter event.is_read ++ (List.range k).map (fun j =>
          event.read (st.i + j) ((st.pos + j * hdr_tableEntrySize hdr) % U64)) ∧
      ((gpt_scan_loop ctx map hdr sectorsize n st).2.filter event.is_scan).length ≤
        (st.trace.filter event.is_scan).length + k := by
  induction n generalizing st with
  | zero => exact ⟨0, Nat.le_refl _, by simp [gpt_scan_loop], by simp [gpt_scan_loop]⟩
  | succ n ih =>
    have hU : 0 < U64 := by unfold U64; norm_num
    have hshift : ∀ j, ((st.pos + hdr_tableEntrySize hdr) % U64 + j * hdr_tableEntrySize hdr) %
        U64 = (st.pos + (j + 1) * hdr_tableEntrySize hdr) % U64 := by
      intro j
      rw [Nat.mod_add_mod]
      congr 1
      ring
    have hfirst : event.read (st.i + 0) ((st.pos + 0 * hdr_tableEntrySize hdr) % U64) =
        event.read st.i st.pos := by
      simp [Nat.mod_eq_of_lt hpos]
    have hrange : ∀ k, (List.range (k + 1)).map (fun j =>
          event.read (st.i + j) ((st.pos + j * hdr_tableEntrySize hdr) % U64)) =
        event.read st.i st.pos :: (List.range k).map (fun j =>
          event.read (st.i + 1 + j)
            (((st.pos + hdr_tableEntrySize hdr) % U64 + j * hdr_tableEntrySize hdr) % U64)) := by
      intro k
      rw [List.range_succ_eq_map, List.map_cons, hfirst, List.map_map]
      congr 1
      apply List.map_congr_left
      intro j _
      simp only [Function.comp, Nat.succ_eq_add_one, hshift]
      congr 1
      omega
    rw [gpt_scan_loop]
    by_cases hr : (fmap_readn map st.pos GPT_ENTRY_SIZE).length = GPT_ENTRY_SIZE
    · by_cases ha : entry_accepted map hdr sectorsize (fmap_readn map st.pos GPT_ENTRY_SIZE)
      · cases hs : stops ctx (scan_result ctx sectorsize (fmap_readn map st.pos GPT_ENTRY_SIZE))
        · rw [gpt_scan_body_scan_next ctx map hdr sectorsize st hr ha hs]
          obtain ⟨k, hk, h1, h2⟩ := ih (scan_next hdr st _ _) (Nat.mod_lt _ hU)
          refine ⟨k + 1, by omega, ?_, ?_⟩
          · rw [h1, hrange]
            simp [scan_next, event.is_read]
          · refine Nat.le_trans h2 ?_
            simp [scan_next, event.is_scan, event.is_read]
            omega
        · rw [gpt_scan_body_scan_stop ctx map hdr sectorsize st hr ha hs]
          refine ⟨1, by omega, ?_, ?_⟩
          · rw [hrange]
            simp [event.is_read]
          · simp [event.is_scan]
      · rw [gpt_scan_body_skip_next ctx map hdr sectorsize st hr ha]
        obtain ⟨k, hk, h1, h2⟩ := ih (scan_next hdr st _ _) (Nat.mod_lt _ hU)
        refine ⟨k + 1, by omega, ?_, ?_⟩
        · rw [h1, hrange]
          simp [scan_next, event.is_read]
        · refine Nat.le_trans h2 ?_
          simp [scan_next, event.is_scan]
    · rw [gpt_scan_body_short ctx map hdr sectorsize st hr]
      refine ⟨1, by omega, ?_, ?_⟩
      · rw [hrange]
        simp [event.is_read]
      · simp [event.is_scan]

/-- C20 (amended): for every header for which the offsets do not wrap in 64
bits (`tableStartLBA × sectorsize + min(tableNumEntries, limit) ×
tableEntrySize < 2^64`, as for every table that lies inside the image),
`gpt_scan_partitions` reads `k ≤ min(tableNumEntries, limit)` entries, the
`i`-th of them at byte offset `tableStartLBA × sectorsize + i ×
tableEntrySize` (the stride is the header's entry size), and calls the content
scanner at most `k` times. -/
theorem scan_reads_at_stride (ctx : cli_ctx) (map : List Byte) (hdr : gpt_header)
    (sectorsize : Nat)
    (hnw : hdr_tableStartLBA hdr * sectorsize + max_prtns ctx hdr * hdr_tableEntrySize hdr <
      U64) :
    reads_at_stride ctx map hdr sectorsize := by
  have hU : 0 < U64 := by unfold U64; norm_num
  obtain ⟨k, hk, h1, h2⟩ := gpt_scan_loop_reads ctx map hdr sectorsize (max_prtns ctx hdr)
    { i := 0, pos := (hdr_tableStartLBA hdr * sectorsize) % U64, ret := CL_CLEAN, trace := [] }
    (Nat.mod_lt _ hU)
  refine ⟨k, hk, ?_, ?_⟩
  · unfold gpt_scan_partitions
    rw [h1]
    simp only [List.filter_nil, List.nil_append, Nat.zero_add]
    apply List.map_congr_left
    intro j hj
    have hjk : j < k := List.mem_range.1 hj
    have hle : j * hdr_tableEntrySize hdr ≤ max_prtns ctx hdr * hdr_tableEntrySize hdr :=
      Nat.mul_le_mul_right _ (by omega)
    rw [Nat.mod_add_mod, Nat.mod_eq_of_lt (by omega)]
  · unfold gpt_scan_partitions
    simpa using h2

/-- C20 at a concrete input: the pass over `map_two` under `hdr_two` (table at
byte offset 1024, 2 entries of 128 bytes). -/
theorem scan_reads_at_stride_witness : reads_at_stride ctx_two map_two hdr_two 512 :=
  scan_reads_at_stride ctx_two map_two hdr_two 512 (by decide!)

/-- C20 as stated fails for a header whose table offset does not fit in 64
bits: under `hdr_far` (`tableStartLBA = 2^55`, sector size 512) the claimed
offset of entry 0 is `2^64`, outside every image, but the pass reads the
record at offset 0 of the image and goes on to return `CL_CLEAN`. -/
theorem scan_reads_at_stride_counterexample :
    gpt_scan_partitions sample_ctx sample_map hdr_far 512 = (CL_CLEAN, [event.read 0 0]) ∧
    hdr_tableStartLBA hdr_far * 512 + 0 * hdr_tableEntrySize hdr_far = 2 ^ 64 ∧
    ¬ reads_at_stride sample_ctx sample_map hdr_far 512 := by
  have he : gpt_scan_partitions sample_ctx sample_map hdr_far 512 =
      (CL_CLEAN, [event.read 0 0]) := by decide!
  refine ⟨he, by decide!, ?_⟩
  rintro ⟨k, hk, hreads, -⟩
  rw [he] at hreads
  have hm : max_prtns sample_ctx hdr_far = 1 := by decide!
  rw [hm] at hk
  have h0 : hdr_tableStartLBA hdr_far * 512 = 2 ^ 64 := by decide!
  rcases k with _ | _ | k
  · simp [event.is_read] at hreads
  · simp [event.is_read, List.range_succ, h0] at hreads
  · omega

/-! ## The overlap stage and the header that was not chosen -/

theorem hdr_ok_valid_nosec : gpt_validate_header map_nosec hdr_ok 512 = CL_SUCCESS := by
  rw [gpt_validate_header_success_iff]
  refine ⟨by decide!, by decide!, by decide!, by decide!, by decide!, by decide!, by decide!,
    by decide!, by decide!, by decide!, by decide!, by decide!, by decide!, by decide!, ?_⟩
  rw [crc32_eq_elim]
  decide!

theorem hdr_ok_valid_junk : gpt_validate_header map_junk hdr_ok 512 = CL_SUCCESS := by
  rw [gpt_validate_header_success_iff]
  refine ⟨by decide!, by decide!, by decide!, by decide!, by decide!, by decide!, by decide!,
    by decide!, by decide!, by decide!, by decide!, by decide!, by decide!, by decide!, ?_⟩
  rw [crc32_eq_elim]
  decide!

theorem hdr_backup_valid : gpt_validate_header map_backup hdr_backup 512 = CL_SUCCESS := by
  rw [gpt_validate_header_success_iff]
  refine ⟨by decide!, by decide!, by decide!, by decide!, by decide!, by decide!, by decide!,
    by decide!, by decide!, by decide!, by decide!, by decide!, by decide!, by decide!, ?_⟩
  rw [crc32_eq_elim]
  decide!

theorem map_nosec_headers :
    cli_scangpt_headers map_nosec 512 (fun _ => 0) =
      Except.ok (PRIMARY_ONLY, hdr_ok, List.replicate 92 0) := by
  have e1 : read_primary map_nosec 512 = hdr_ok := by decide!
  have e2 : hdr_after_read (read_secondary map_nosec 512) (fun _ => 0) = List.replicate 92 0 := by
    decide!
  have h := cli_scangpt_headers_primary_only map_nosec 512 (fun _ => 0) (by decide!)
    (by rw [e1]; exact hdr_ok_valid_nosec) (Or.inr (by rw [e2]; decide!))
  rw [e1, e2] at h
  exact h

theorem map_junk_headers :
    cli_scangpt_headers map_junk 512 (fun _ => 0) =
      Except.ok (PRIMARY_ONLY, hdr_ok, List.replicate 92 255) := by
  have e1 : read_primary map_junk 512 = hdr_ok := by decide!
  have e2 : hdr_after_read (read_secondary map_junk 512) (fun _ => 0) =
      List.replicate 92 255 := by decide!
  have h := cli_scangpt_headers_primary_only map_junk 512 (fun _ => 0) (by decide!)
    (by rw [e1]; exact hdr_ok_valid_junk) (Or.inr (by rw [e2]; decide!))
  rw [e1, e2] at h
  exact h

theorem map_backup_headers :
    cli_scangpt_headers map_backup 512 (fun _ => 0) =
      Except.ok (SECONDARY_ONLY, List.replicate 92 255, hdr_backup) := by
  have e1 : read_primary map_backup 512 = List.replicate 92 255 := by decide!
  have e2 : hdr_after_read (read_secondary map_backup 512) (fun _ => 0) = hdr_backup := by
    decide!
  have h := cli_scangpt_headers_secondary_only map_backup 512 (fun _ => 0) (by decide!)
    (by rw [e1]; decide!) (by decide!) (by rw [e2]; exact hdr_backup_valid)
  rw [e1, e2] at h
  exact h

theorem map_nosec_result :
    cli_scangpt (some (ctx_heur map_nosec)) 512 (fun _ => 0) =
      some (CL_CLEAN, [event.read 0 1024, event.read 0 1024]) := by
  rw [cli_scangpt_of_headers (ctx_heur map_nosec) map_nosec 512 512 (fun _ => 0) PRIMARY_ONLY
    hdr_ok (List.replicate 92 0) rfl rfl (by decide) (by decide!) map_nosec_headers]
  decide!

theorem map_junk_result :
    cli_scangpt (some (ctx_heur map_junk)) 512 (fun _ => 0) =
      some (CL_EFORMAT, [event.read 0 1024, event.read 0 (2 ^ 64 - 512)]) := by
  rw [cli_scangpt_of_headers (ctx_heur map_junk) map_junk 512 512 (fun _ => 0) PRIMARY_ONLY
    hdr_ok (List.replicate 92 255) rfl rfl (by decide) (by decide!) map_junk_headers]
  decide!

theorem map_backup_result :
    cli_scangpt (some (ctx_heur map_backup)) 512 (fun _ => 0) =
      some (CL_EFORMAT, [event.read 0 (2 ^ 64 - 512)]) := by
  rw [cli_scangpt_of_headers (ctx_heur map_backup) map_backup 512 512 (fun _ => 0)
    SECONDARY_ONLY (List.replicate 92 255) hdr_backup rfl rfl (by decide) (by decide!)
    map_backup_headers]
  decide!

/-- C18 (evaluation at the failing inputs): `map_nosec` and `map_junk` have
the same valid primary header and primary table, and in both the secondary
header fails validation (state `PRIMARY_ONLY`); under the same configuration
with the overlap heuristic enabled `cli_scangpt` returns `CL_CLEAN` for the
first and `CL_EFORMAT` for the second, after a read at the table offset taken
from the rejected secondary header. On `map_backup` (state `SECONDARY_ONLY`)
the only read is at the table offset taken from the rejected primary header,
and `cli_scangpt` returns `CL_EFORMAT`. -/
theorem cli_scangpt_overlap_uses_rejected_header :
    (read_primary map_nosec 512 = read_primary map_junk 512 ∧
      fmap_readn map_nosec 1024 GPT_ENTRY_SIZE = fmap_readn map_junk 1024 GPT_ENTRY_SIZE ∧
      cli_scangpt_headers map_nosec 512 (fun _ => 0) =
        Except.ok (PRIMARY_ONLY, hdr_ok, List.replicate 92 0) ∧
      cli_scangpt_headers map_junk 512 (fun _ => 0) =
        Except.ok (PRIMARY_ONLY, hdr_ok, List.replicate 92 255) ∧
      cli_scangpt (some (ctx_heur map_nosec)) 512 (fun _ => 0) =
        some (CL_CLEAN, [event.read 0 1024, event.read 0 1024]) ∧
      cli_scangpt (some (ctx_heur map_junk)) 512 (fun _ => 0) =
        some (CL_EFORMAT, [event.read 0 1024, event.read 0 (2 ^ 64 - 512)]) ∧
      (hdr_tableStartLBA (List.replicate 92 255) * 512) % U64 = 2 ^ 64 - 512) ∧
    (cli_scangpt_headers map_backup 512 (fun _ => 0) =
        Except.ok (SECONDARY_ONLY, List.replicate 92 255, hdr_backup) ∧
      cli_scangpt (some (ctx_heur map_backup)) 512 (fun _ => 0) =
        some (CL_EFORMAT, [event.read 0 (2 ^ 64 - 512)])) := by
  refine ⟨⟨by decide!, by decide!, map_nosec_headers, map_junk_headers, map_nosec_result,
    map_junk_result, by decide!⟩, map_backup_headers, map_backup_result⟩

/-! ## The overlap pass on a table with two used entries -/

theorem entry_pos_succ (hdr : gpt_header) (sectorsize j : Nat) :
    (entry_pos hdr sectorsize j + hdr_tableEntrySize hdr) % U64 =
      entry_pos hdr sectorsize (j + 1) := by
  unfold entry_pos
  rw [Nat.mod_add_mod]
  congr 1
  ring

theorem gpt_prtn_intxn_loop_next (ctx : cli_ctx) (map : List Byte) (hdr : gpt_header)
    (sectorsize n : Nat) (st st' : intxn_state)
    (h : gpt_prtn_intxn_body ctx map hdr sectorsize st = step.next st') :
    gpt_prtn_intxn_loop ctx map hdr sectorsize (n + 1) st =
      gpt_prtn_intxn_loop ctx map hdr sectorsize n st' := by
  rw [gpt_prtn_intxn_loop, h]

theorem gpt_prtn_intxn_loop_done (ctx : cli_ctx) (map : List Byte) (hdr : gpt_header)
    (sectorsize n : Nat) (st : intxn_state) (r : cl_error_t) (trace : List event)
    (h : gpt_prtn_intxn_body ctx map hdr sectorsize st = step.done r trace) :
    gpt_prtn_intxn_loop ctx map hdr sectorsize (n + 1) st = (r, trace) := by
  rw [gpt_prtn_intxn_loop, h]

/-- The overlap loop passes over a run of `k` entries that are read in full
and not accepted: `ret` and the tracker's list are unchanged. -/
theorem gpt_prtn_intxn_loop_skip_run (ctx : cli_ctx) (map : List Byte) (hdr : gpt_header)
    (sectorsize : Nat) (k m j : Nat) (st : intxn_state)
    (hat : st.pos = entry_pos hdr sectorsize j)
    (hskip : ∀ l, j ≤ l → l < j + k →
      (entry_rec map hdr sectorsize l).length = GPT_ENTRY_SIZE ∧
      ¬ entry_accepted map hdr sectorsize (entry_rec map hdr sectorsize l)) :
    ∃ st' : intxn_state, st'.pos = entry_pos hdr sectorsize (j + k) ∧ st'.ret = st.ret ∧
      st'.prtncheck = st.prtncheck ∧
      gpt_prtn_intxn_loop ctx map hdr sectorsize (k + m) st =
        gpt_prtn_intxn_loop ctx map hdr sectorsize m st' := by
  induction k generalizing j st with
  | zero => exact ⟨st, by simpa using hat, rfl, rfl, by simp⟩
  | succ k ih =>
    obtain ⟨hr, ha⟩ := hskip j (Nat.le_refl _) (by omega)
    unfold entry_rec at hr ha
    rw [← hat] at hr ha
    have hb := gpt_prtn_intxn_body_skip_next ctx map hdr sectorsize st hr ha
    obtain ⟨st', h1, h2, h3, h4⟩ := ih (j + 1) (intxn_next hdr st st.ret [] [event.read st.i st.pos])
      (by simp only [intxn_next]; rw [hat]; exact entry_pos_succ hdr sectorsize j)
      (fun l hl1 hl2 => hskip l (by omega) (by omega))
    refine ⟨st', by rw [h1]; congr 1; omega, by rw [h2]; rfl, by rw [h3]; simp [intxn_next], ?_⟩
    have e : k + 1 + m = (k + m) + 1 := by omega
    rw [e, gpt_prtn_intxn_loop_next ctx map hdr sectorsize _ st _ hb]
    exact h4

theorem spec_intxn_check_cases (prev : List (Nat × Nat)) (start len : Nat) :
    spec_intxn_check prev start len = CL_CLEAN ∨ spec_intxn_check prev start len = CL_VIRUS := by
  unfold spec_intxn_check
  split
  · exact Or.inr rfl
  · exact Or.inl rfl

/-- An unused entry (`firstLBA = 0`) is not accepted. -/
theorem not_accepted_of_unused (map : List Byte) (hdr : gpt_header) (sectorsize : Nat)
    (gpe : gpt_partition_entry) (h : gpe_firstLBA gpe = 0) :
    ¬ entry_accepted map hdr sectorsize gpe :=
  fun ha => ha.1 h

/-- With the tracker of the spec, the overlap pass over a table whose used
entries are the accepted entries `a < b` returns what the tracker says of the
interval of entry `b` against the interval of entry `a`. -/
theorem gpt_prtn_intxn_two_used (ctx : cli_ctx) (map : List Byte) (hdr : gpt_header)
    (sectorsize : Nat)
    (htr : ∀ prev start len, ctx.prtn_intxn_list_check prev start len =
      spec_intxn_check prev start len)
    (a b : Nat) (hab : a < b) (hb : b < max_prtns ctx hdr)
    (hread : ∀ j, j < max_prtns ctx hdr →
      (entry_rec map hdr sectorsize j).length = GPT_ENTRY_SIZE)
    (hunused : ∀ j, j < max_prtns ctx hdr → j ≠ a → j ≠ b →
      gpe_firstLBA (entry_rec map hdr sectorsize j) = 0)
    (haa : entry_accepted map hdr sectorsize (entry_rec map hdr sectorsize a))
    (hba : entry_accepted map hdr sectorsize (entry_rec map hdr sectorsize b)) :
    (gpt_prtn_intxn ctx map hdr sectorsize).1 =
      spec_intxn_check [gpe_interval (entry_rec map hdr sectorsize a)]
        (gpe_firstLBA (entry_rec map hdr sectorsize b))
        (gpe_lastLBA (entry_rec map hdr sectorsize b) -
          gpe_firstLBA (entry_rec map hdr sectorsize b) + 1) := by
  have hsk : ∀ j k, (∀ l, j ≤ l → l < j + k → l < max_prtns ctx hdr ∧ l ≠ a ∧ l ≠ b) →
      ∀ l, j ≤ l → l < j + k →
      (entry_rec map hdr sectorsize l).length = GPT_ENTRY_SIZE ∧
      ¬ entry_accepted map hdr sectorsize (entry_rec map hdr sectorsize l) := by
    intro j k h l h1 h2
    obtain ⟨h3, h4, h5⟩ := h l h1 h2
    exact ⟨hread l h3, not_accepted_of_unused _ _ _ _ (hunused l h3 h4 h5)⟩
  -- the entries before `a`
  have e0 : max_prtns ctx hdr = a + ((b - a - 1) + (max_prtns ctx hdr - b - 1) + 2) := by omega
  unfold gpt_prtn_intxn
  rw [e0]
  obtain ⟨s1, p1, r1, c1, l1⟩ := gpt_prtn_intxn_loop_skip_run ctx map hdr sectorsize a
    ((b - a - 1) + (max_prtns ctx hdr - b - 1) + 2) 0
    { i := 0, pos := (hdr_tableStartLBA hdr * sectorsize) % U64, ret := CL_CLEAN,
      prtncheck := [], trace := [] }
    (by simp [entry_pos]) (hsk 0 a (fun l _ h2 => ⟨by omega, by omega, by omega⟩))
  rw [l1]
  simp only [Nat.zero_add] at p1
  -- entry `a`: the list is empty, no conflict
  have hra : (fmap_readn map s1.pos GPT_ENTRY_SIZE).length = GPT_ENTRY_SIZE := by
    rw [p1]; exact hread a (by omega)
  have haa' : entry_accepted map hdr sectorsize (fmap_readn map s1.pos GPT_ENTRY_SIZE) := by
    rw [p1]; exact haa
  have hta : intxn_result ctx s1 (fmap_readn map s1.pos GPT_ENTRY_SIZE) = CL_CLEAN := by
    unfold intxn_result
    rw [htr, c1]
    simp [spec_intxn_check]
  have e1 : (b - a - 1) + (max_prtns ctx hdr - b - 1) + 2 =
      ((b - a - 1) + ((max_prtns ctx hdr - b - 1) + 1)) + 1 := by omega
  rw [e1, gpt_prtn_intxn_loop_next ctx map hdr sectorsize _ s1 _
    (gpt_prtn_intxn_body_clean ctx map hdr sectorsize s1 hra haa' hta)]
  -- the entries between `a` and `b`
  obtain ⟨s2, p2, r2, c2, l2⟩ := gpt_prtn_intxn_loop_skip_run ctx map hdr sectorsize (b - a - 1)
    ((max_prtns ctx hdr - b - 1) + 1) (a + 1)
    (intxn_next hdr s1 s1.ret [gpe_interval (fmap_readn map s1.pos GPT_ENTRY_SIZE)]
      [event.read s1.i s1.pos,
        event.insert (gpe_firstLBA (fmap_readn map s1.pos GPT_ENTRY_SIZE))
          (gpe_lastLBA (fmap_readn map s1.pos GPT_ENTRY_SIZE) -
            gpe_firstLBA (fmap_readn map s1.pos GPT_ENTRY_SIZE) + 1)])
    (by simp only [intxn_next]; rw [p1]; exact entry_pos_succ hdr sectorsize a)
    (hsk (a + 1) (b - a - 1) (fun l h1 h2 => ⟨by omega, by omega, by omega⟩))
  rw [l2]
  have p2' : s2.pos = entry_pos hdr sectorsize b := by rw [p2]; congr 1; omega
  have r2' : s2.ret = CL_CLEAN := by rw [r2]; simp [intxn_next, r1]
  have c2' : s2.prtncheck = [gpe_interval (entry_rec map hdr sectorsize a)] := by
    rw [c2]; simp [intxn_next, c1, p1, entry_rec]
  -- entry `b`
  have hrb : (fmap_readn map s2.pos GPT_ENTRY_SIZE).length = GPT_ENTRY_SIZE := by
    rw [p2']; exact hread b hb
  have hba' : entry_accepted map hdr sectorsize (fmap_readn map s2.pos GPT_ENTRY_SIZE) := by
    rw [p2']; exact hba
  have htb : intxn_result ctx s2 (fmap_readn map s2.pos GPT_ENTRY_SIZE) =
      spec_intxn_check [gpe_interval (entry_rec map hdr sectorsize a)]
        (gpe_firstLBA (entry_rec map hdr sectorsize b))
        (gpe_lastLBA (entry_rec map hdr sectorsize b) -
          gpe_firstLBA (entry_rec map hdr sectorsize b) + 1) := by
    unfold intxn_result
    rw [htr, c2', p2']
    rfl
  rw [← htb]
  by_cases hc : intxn_result ctx s2 (fmap_readn map s2.pos GPT_ENTRY_SIZE) = CL_CLEAN
  · rw [gpt_prtn_intxn_loop_next ctx map hdr sectorsize _ s2 _
      (gpt_prtn_intxn_body_clean ctx map hdr sectorsize s2 hrb hba' hc)]
    obtain ⟨s3, -, r3, -, l3⟩ := gpt_prtn_intxn_loop_skip_run ctx map hdr sectorsize
      (max_prtns ctx hdr - b - 1) 0 (b + 1)
      (intxn_next hdr s2 s2.ret [gpe_interval (fmap_readn map s2.pos GPT_ENTRY_SIZE)]
        [event.read s2.i s2.pos,
          event.insert (gpe_firstLBA (fmap_readn map s2.pos GPT_ENTRY_SIZE))
            (gpe_lastLBA (fmap_readn map s2.pos GPT_ENTRY_SIZE) -
              gpe_firstLBA (fmap_readn map s2.pos GPT_ENTRY_SIZE) + 1)])
      (by simp only [intxn_next]; rw [p2']; exact entry_pos_succ hdr sectorsize b)
      (hsk (b + 1) (max_prtns ctx hdr - b - 1) (fun l h1 h2 => ⟨by omega, by omega, by omega⟩))
    rw [Nat.add_zero] at l3
    rw [l3, gpt_prtn_intxn_loop, hc]
    simp [r3, intxn_next, r2']
  · have hv : intxn_result ctx s2 (fmap_readn map s2.pos GPT_ENTRY_SIZE) = CL_VIRUS := by
      rw [htb] at hc ⊢
      exact (spec_intxn_check_cases _ _ _).resolve_left hc
    cases hall : ctx.allmatches
    · rw [gpt_prtn_intxn_loop_done ctx map hdr sectorsize _ s2 _ _
        (gpt_prtn_intxn_body_virus_stop ctx map hdr sectorsize s2 hrb hba' hv hall), hv]
    · rw [gpt_prtn_intxn_loop_next ctx map hdr sectorsize _ s2 _
        (gpt_prtn_intxn_body_virus_all ctx map hdr sectorsize s2 hrb hba' hv hall)]
      obtain ⟨s3, -, r3, -, l3⟩ := gpt_prtn_intxn_loop_skip_run ctx map hdr sectorsize
        (max_prtns ctx hdr - b - 1) 0 (b + 1)
        (intxn_next hdr s2 CL_VIRUS [gpe_interval (fmap_readn map s2.pos GPT_ENTRY_SIZE)]
          [event.read s2.i s2.pos,
            event.insert (gpe_firstLBA (fmap_readn map s2.pos GPT_ENTRY_SIZE))
              (gpe_lastLBA (fmap_readn map s2.pos GPT_ENTRY_SIZE) -
                gpe_firstLBA (fmap_readn map s2.pos GPT_ENTRY_SIZE) + 1),
            event.append_virus])
        (by simp only [intxn_next]; rw [p2']; exact entry_pos_succ hdr sectorsize b)
        (hsk (b + 1) (max_prtns ctx hdr - b - 1) (fun l h1 h2 => ⟨by omega, by omega, by omega⟩))
      rw [Nat.add_zero] at l3
      rw [l3, gpt_prtn_intxn_loop, hv]
      simp [r3, intxn_next]

/-- C16: the overlap pass inserts for every accepted entry the interval with
start `firstLBA` and length `lastLBA - firstLBA + 1`; and with a tracker that
reports a conflict exactly when the new interval shares an LBA with one
inserted before, for every table all of whose entries are read in full and
whose used entries are two accepted entries, the first one [10,20]: when the
second is [15,25] the pass returns `CL_VIRUS`, when it is [21,30] the pass
returns `CL_CLEAN`. -/
theorem overlap_pass_examples (ctx : cli_ctx) (map : List Byte) (hdr : gpt_header)
    (sectorsize : Nat)
    (htr : ∀ prev start len, ctx.prtn_intxn_list_check prev start len =
      spec_intxn_check prev start len) :
    (∀ st : intxn_state, (fmap_readn map st.pos GPT_ENTRY_SIZE).length = GPT_ENTRY_SIZE →
      entry_accepted map hdr sectorsize (fmap_readn map st.pos GPT_ENTRY_SIZE) →
      event.insert (gpe_firstLBA (fmap_readn map st.pos GPT_ENTRY_SIZE))
        (gpe_lastLBA (fmap_readn map st.pos GPT_ENTRY_SIZE) -
          gpe_firstLBA (fmap_readn map st.pos GPT_ENTRY_SIZE) + 1) ∈
        intxn_step_trace (gpt_prtn_intxn_body ctx map hdr sectorsize st)) ∧
    (∀ a b, a < b → b < max_prtns ctx hdr →
      (∀ j, j < max_prtns ctx hdr →
        (entry_rec map hdr sectorsize j).length = GPT_ENTRY_SIZE) →
      (∀ j, j < max_prtns ctx hdr → j ≠ a → j ≠ b →
        gpe_firstLBA (entry_rec map hdr sectorsize j) = 0) →
      entry_accepted map hdr sectorsize (entry_rec map hdr sectorsize a) →
      entry_accepted map hdr sectorsize (entry_rec map hdr sectorsize b) →
      gpe_firstLBA (entry_rec map hdr sectorsize a) = 10 →
      gpe_lastLBA (entry_rec map hdr sectorsize a) = 20 →
      ((gpe_firstLBA (entry_rec map hdr sectorsize b) = 15 ∧
          gpe_lastLBA (entry_rec map hdr sectorsize b) = 25 →
        (gpt_prtn_intxn ctx map hdr sectorsize).1 = CL_VIRUS) ∧
       (gpe_firstLBA (entry_rec map hdr sectorsize b) = 21 ∧
          gpe_lastLBA (entry_rec map hdr sectorsize b) = 30 →
        (gpt_prtn_intxn ctx map hdr sectorsize).1 = CL_CLEAN))) := by
  constructor
  · intro st hr ha
    rcases spec_intxn_check_cases st.prtncheck
        (gpe_firstLBA (fmap_readn map st.pos GPT_ENTRY_SIZE))
        (gpe_lastLBA (fmap_readn map st.pos GPT_ENTRY_SIZE) -
          gpe_firstLBA (fmap_readn map st.pos GPT_ENTRY_SIZE) + 1) with h | h
    · rw [gpt_prtn_intxn_body_clean ctx map hdr sectorsize st hr ha
        (by unfold intxn_result; rw [htr]; exact h)]
      simp [intxn_step_trace, intxn_next]
    · have ht : intxn_result ctx st (fmap_readn map st.pos GPT_ENTRY_SIZE) = CL_VIRUS := by
        unfold intxn_result; rw [htr]; exact h
      cases hall : ctx.allmatches
      · rw [gpt_prtn_intxn_body_virus_stop ctx map hdr sectorsize st hr ha ht hall]
        simp [intxn_step_trace]
      · rw [gpt_prtn_intxn_body_virus_all ctx map hdr sectorsize st hr ha ht hall]
        simp [intxn_step_trace, intxn_next]
  · intro a b hab hb hread hunused haa hba hf hl
    have key := gpt_prtn_intxn_two_used ctx map hdr sectorsize htr a b hab hb hread hunused
      haa hba
    constructor
    · rintro ⟨h1, h2⟩
      rw [key, h1, h2, gpe_interval, hf, hl]
      decide
    · rintro ⟨h1, h2⟩
      rw [key, h1, h2, gpe_interval, hf, hl]
      decide

/-- C16 at concrete inputs: the overlap pass over the tables of `map_ovl_a`
(used entries [10,20] and [15,25]) and of `map_ovl_b` (used entries [10,20]
and [21,30]), with the tracker of the spec. -/
theorem overlap_pass_examples_witness :
    (gpt_prtn_intxn (ctx_ovl map_ovl_a) map_ovl_a hdr_ovl_a 512).1 = CL_VIRUS ∧
    (gpt_prtn_intxn (ctx_ovl map_ovl_b) map_ovl_b hdr_ovl_b 512).1 = CL_CLEAN :=
  ⟨((overlap_pass_examples (ctx_ovl map_ovl_a) map_ovl_a hdr_ovl_a 512 (fun _ _ _ => rfl)).2
      0 2 (by decide) (by decide!) (by decide!) (by decide!) (by decide!) (by decide!)
      (by decide!) (by decide!)).1 ⟨by decide!, by decide!⟩,
   ((overlap_pass_examples (ctx_ovl map_ovl_b) map_ovl_b hdr_ovl_b 512 (fun _ _ _ => rfl)).2
      0 2 (by decide) (by decide!) (by decide!) (by decide!) (by decide!) (by decide!)
      (by decide!) (by decide!)).2 ⟨by decide!, by decide!⟩⟩

theorem hdr_ovl_a_valid : gpt_validate_header map_ovl_a hdr_ovl_a 512 = CL_SUCCESS := by
  rw [gpt_validate_header_success_iff]
  refine ⟨by decide!, by decide!, by decide!, by decide!, by decide!, by decide!, by decide!,
    by decide!, by decide!, by decide!, by decide!, by decide!, by decide!, by decide!, ?_⟩
  rw [crc32_eq_elim]
  decide!

/-! ## A clean scan of tables that lie inside the image -/

theorem fmap_readn_length (map : List Byte) (pos len : Nat) (h : pos + len ≤ map.length) :
    (fmap_readn map pos len).length = len := by
  unfold fmap_readn
  rw [List.length_take, List.length_drop]
  omega

/-- The headers named by the state that `cli_scangpt_headers` returns were
accepted by `gpt_validate_header`. -/
theorem cli_scangpt_headers_chosen_valid (map : List Byte) (sectorsize : Nat)
    (stack : Nat → Byte) (state : GPT_SCANSTATE) (phdr shdr : gpt_header)
    (hh : cli_scangpt_headers map sectorsize stack = Except.ok (state, phdr, shdr)) :
    ∀ h ∈ chosen_headers state phdr shdr, gpt_validate_header map h sectorsize = CL_SUCCESS := by
  unfold cli_scangpt_headers at hh
  simp only [] at hh
  split at hh
  · exact absurd hh (by simp)
  · split at hh
    · split at hh
      · exact absurd hh (by simp)
      · split at hh
        · exact absurd hh (by simp)
        · next hv =>
          simp only [Except.ok.injEq, Prod.mk.injEq] at hh
          obtain ⟨rfl, rfl, rfl⟩ := hh
          intro h hm
          simp only [chosen_headers, List.mem_singleton] at hm
          rw [hm]
          exact not_not.1 hv
    · next hp =>
      have hp' := not_not.1 hp
      split at hh
      · simp only [Except.ok.injEq, Prod.mk.injEq] at hh
        obtain ⟨rfl, rfl, rfl⟩ := hh
        intro h hm
        simp only [chosen_headers, List.mem_singleton] at hm
        rw [hm]
        exact hp'
      · split at hh
        · simp only [Except.ok.injEq, Prod.mk.injEq] at hh
          obtain ⟨rfl, rfl, rfl⟩ := hh
          intro h hm
          simp only [chosen_headers, List.mem_singleton] at hm
          rw [hm]
          exact hp'
        · next hv =>
          have hv' := not_not.1 hv
          split at hh
          · simp only [Except.ok.injEq, Prod.mk.injEq] at hh
            obtain ⟨rfl, rfl, rfl⟩ := hh
            intro h hm
            simp only [chosen_headers, List.mem_cons, List.mem_singleton, List.not_mem_nil,
              or_false] at hm
            rcases hm with rfl | rfl
            · exact hp'
            · exact hv'
          · simp only [Except.ok.injEq, Prod.mk.injEq] at hh
            obtain ⟨rfl, rfl, rfl⟩ := hh
            intro h hm
            simp only [chosen_headers, List.mem_singleton] at hm
            rw [hm]
            exact hp'

/-- With a scanner that always reports clean, the scan loop over entries that
all lie inside the image returns `CL_CLEAN`. -/
theorem gpt_scan_loop_clean (ctx : cli_ctx) (map : List Byte) (hdr : gpt_header)
    (sectorsize : Nat) (hclean : ∀ off len, ctx.cli_map_scan off len = CL_CLEAN)
    (hes : hdr_tableEntrySize hdr = GPT_ENTRY_SIZE) (hmax : map.length < U64)
    (hfit : hdr_tableStartLBA hdr * sectorsize +
      hdr_tableNumEntries hdr * hdr_tableEntrySize hdr ≤ map.length)
    (n j : Nat) (st : scan_state) (hret : st.ret = CL_CLEAN)
    (hpos : st.pos = hdr_tableStartLBA hdr * sectorsize + j * GPT_ENTRY_SIZE)
    (hj : j + n ≤ hdr_tableNumEntries hdr) :
    (gpt_scan_loop ctx map hdr sectorsize n st).1 = CL_CLEAN := by
  induction n generalizing j st with
  | zero => exact hret
  | succ n ih =>
    have hle : (j + 1) * GPT_ENTRY_SIZE ≤ hdr_tableNumEntries hdr * GPT_ENTRY_SIZE :=
      Nat.mul_le_mul_right _ (by omega)
    rw [hes] at hfit
    have hin : st.pos + GPT_ENTRY_SIZE ≤ map.length := by
      rw [hpos]
      have : (j + 1) * GPT_ENTRY_SIZE = j * GPT_ENTRY_SIZE + GPT_ENTRY_SIZE := by ring
      omega
    have hr := fmap_readn_length map st.pos GPT_ENTRY_SIZE hin
    have hnext : (st.pos + hdr_tableEntrySize hdr) % U64 =
        hdr_tableStartLBA hdr * sectorsize + (j + 1) * GPT_ENTRY_SIZE := by
      rw [hes, Nat.mod_eq_of_lt (by omega), hpos]
      ring
    rw [gpt_scan_loop]
    by_cases ha : entry_accepted map hdr sectorsize (fmap_readn map st.pos GPT_ENTRY_SIZE)
    · have hs : stops ctx (scan_result ctx sectorsize (fmap_readn map st.pos GPT_ENTRY_SIZE)) =
          false := by
        simp [scan_result, hclean, stops]
      rw [gpt_scan_body_scan_next ctx map hdr sectorsize st hr ha hs]
      exact ih (j + 1) _ (by simp [scan_next, scan_result, hclean]) hnext (by omega)
    · rw [gpt_scan_body_skip_next ctx map hdr sectorsize st hr ha]
      exact ih (j + 1) _ hret hnext (by omega)

/-- With a scanner that always reports clean, `gpt_scan_partitions` returns
`CL_CLEAN` for an accepted header whose table lies inside the image. -/
theorem gpt_scan_partitions_clean (ctx : cli_ctx) (map : List Byte) (hdr : gpt_header)
    (sectorsize : Nat) (hclean : ∀ off len, ctx.cli_map_scan off len = CL_CLEAN)
    (hv : gpt_validate_header map hdr sectorsize = CL_SUCCESS) (hmax : map.length < U64)
    (hfit : hdr_tableStartLBA hdr * sectorsize +
      hdr_tableNumEntries hdr * hdr_tableEntrySize hdr ≤ map.length) :
    (gpt_scan_partitions ctx map hdr sectorsize).1 = CL_CLEAN := by
  obtain ⟨-, -, -, -, -, -, -, -, -, -, -, -, hes, -, -⟩ :=
    (gpt_validate_header_success_iff map hdr sectorsize).1 hv
  unfold gpt_scan_partitions
  apply gpt_scan_loop_clean ctx map hdr sectorsize hclean hes hmax hfit _ 0
  · rfl
  · simp only [Nat.zero_mul, Nat.add_zero]
    exact Nat.mod_eq_of_lt (by omega)
  · unfold max_prtns
    split <;> omega

/-- With a tracker that never reports a conflict, the overlap loop over
entries that are all read in full returns `CL_CLEAN`. -/
theorem gpt_prtn_intxn_loop_clean (ctx : cli_ctx) (map : List Byte) (hdr : gpt_header)
    (sectorsize : Nat)
    (htr : ∀ prev start len, ctx.prtn_intxn_list_check prev start len = CL_CLEAN)
    (n j : Nat) (st : intxn_state) (hret : st.ret = CL_CLEAN)
    (hpos : st.pos = entry_pos hdr sectorsize j)
    (hread : ∀ l, j ≤ l → l < j + n →
      entry_pos hdr sectorsize l + GPT_ENTRY_SIZE ≤ map.length) :
    (gpt_prtn_intxn_loop ctx map hdr sectorsize n st).1 = CL_CLEAN := by
  induction n generalizing j st with
  | zero => exact hret
  | succ n ih =>
    have hin : st.pos + GPT_ENTRY_SIZE ≤ map.length := by
      rw [hpos]
      exact hread j (le_refl j) (by omega)
    have hr := fmap_readn_length map st.pos GPT_ENTRY_SIZE hin
    have hnext : (st.pos + hdr_tableEntrySize hdr) % U64 = entry_pos hdr sectorsize (j + 1) := by
      rw [hpos]
      exact entry_pos_succ hdr sectorsize j
    by_cases ha : entry_accepted map hdr sectorsize (fmap_readn map st.pos GPT_ENTRY_SIZE)
    · rw [gpt_prtn_intxn_loop_next ctx map hdr sectorsize n st _
        (gpt_prtn_intxn_body_clean ctx map hdr sectorsize st hr ha (htr _ _ _))]
      exact ih (j + 1) _ hret hnext (fun l h1 h2 => hread l (by omega) (by omega))
    · rw [gpt_prtn_intxn_loop_next ctx map hdr sectorsize n st _
        (gpt_prtn_intxn_body_skip_next ctx map hdr sectorsize st hr ha)]
      exact ih (j + 1) _ hret hnext (fun l h1 h2 => hread l (by omega) (by omega))

/-- With a tracker that never reports a conflict, `gpt_prtn_intxn` returns
`CL_CLEAN` for a header record whose table entries are all read in full. -/
theorem gpt_prtn_intxn_clean (ctx : cli_ctx) (map : List Byte) (hdr : gpt_header)
    (sectorsize : Nat)
    (htr : ∀ prev start len, ctx.prtn_intxn_list_check prev start len = CL_CLEAN)
    (hread : ∀ l, l < max_prtns ctx hdr →
      entry_pos hdr sectorsize l + GPT_ENTRY_SIZE ≤ map.length) :
    (gpt_prtn_intxn ctx map hdr sectorsize).1 = CL_CLEAN := by
  unfold gpt_prtn_intxn
  apply gpt_prtn_intxn_loop_clean ctx map hdr sectorsize htr _ 0
  · rfl
  · simp [entry_pos]
  · intro l _ h2
    exact hread l (by omega)

/-- With a scanner that always reports clean, the scan stage of `cli_scangpt`
returns `CL_CLEAN` when the headers named by the state were accepted and
have their table inside the image. -/
theorem cli_scangpt_scan_clean (ctx : cli_ctx) (map : List Byte) (sectorsize : Nat)
    (state : GPT_SCANSTATE) (phdr shdr : gpt_header) (trace : List event)
    (hmax : map.length < U64)
    (hclean : ∀ off len, ctx.cli_map_scan off len = CL_CLEAN)
    (hval : ∀ h ∈ chosen_headers state phdr shdr,
      gpt_validate_header map h sectorsize = CL_SUCCESS)
    (hfit : ∀ h ∈ chosen_headers state phdr shdr, hdr_tableStartLBA h * sectorsize +
      hdr_tableNumEntries h * hdr_tableEntrySize h ≤ map.length) :
    (cli_scangpt_scan ctx map sectorsize state phdr shdr CL_CLEAN trace).1 = CL_CLEAN := by
  cases state with
  | INVALID => rfl
  | PRIMARY_ONLY =>
    exact gpt_scan_partitions_clean ctx map phdr sectorsize hclean
      (hval phdr (by simp [chosen_headers])) hmax (hfit phdr (by simp [chosen_headers]))
  | SECONDARY_ONLY =>
    exact gpt_scan_partitions_clean ctx map shdr sectorsize hclean
      (hval shdr (by simp [chosen_headers])) hmax (hfit shdr (by simp [chosen_headers]))
  | BOTH =>
    have h1 := gpt_scan_partitions_clean ctx map phdr sectorsize hclean
      (hval phdr (by simp [chosen_headers])) hmax (hfit phdr (by simp [chosen_headers]))
    have h2 := gpt_scan_partitions_clean ctx map shdr sectorsize hclean
      (hval shdr (by simp [chosen_headers])) hmax (hfit shdr (by simp [chosen_headers]))
    simp [cli_scangpt_scan, h1, h2, stops]

/-- Whenever the headers named by the scan state have their table inside the
image, the content scanner always reports clean, the tracker never reports a
conflict and, if the overlap heuristic is enabled, the table entries of both
header records `phdr` and `shdr` are read in full, `cli_scangpt` returns
`CL_CLEAN`, for a passed or a detected sector size. -/
theorem cli_scangpt_clean_of_clean_scan (ctx : cli_ctx) (map : List Byte)
    (arg sectorsize : Nat) (stack : Nat → Byte) (state : GPT_SCANSTATE) (phdr shdr : gpt_header)
    (hctx : ctx.fmap = some map)
    (harg : (if arg = 0 then gpt_detect_size map else some arg) = some sectorsize)
    (hss : sectorsize ≠ 0) (hmul : map.length % sectorsize = 0) (hmax : map.length < U64)
    (hh : cli_scangpt_headers map sectorsize stack = Except.ok (state, phdr, shdr))
    (hclean : ∀ off len, ctx.cli_map_scan off len = CL_CLEAN)
    (htr : ∀ prev start len, ctx.prtn_intxn_list_check prev start len = CL_CLEAN)
    (hfit : ∀ h ∈ chosen_headers state phdr shdr, hdr_tableStartLBA h * sectorsize +
      hdr_tableNumEntries h * hdr_tableEntrySize h ≤ map.length)
    (hovl : (ctx.partition_intxn && ctx.dconf_prtnintxn) = true → ∀ h ∈ [phdr, shdr],
      ∀ l, l < max_prtns ctx h → entry_pos h sectorsize l + GPT_ENTRY_SIZE ≤ map.length) :
    (cli_scangpt (some ctx) arg stack).map Prod.fst = some CL_CLEAN := by
  have hval := cli_scangpt_headers_chosen_valid map sectorsize stack state phdr shdr hh
  rw [cli_scangpt_of_headers ctx map arg sectorsize stack state phdr shdr hctx harg hss hmul hh]
  simp only [Option.map_some', Option.some.injEq]
  unfold cli_scangpt_passes
  by_cases hon : (ctx.partition_intxn && ctx.dconf_prtnintxn) = true
  · have h1 := gpt_prtn_intxn_clean ctx map phdr sectorsize htr
      (hovl hon phdr (by simp))
    have h2 := gpt_prtn_intxn_clean ctx map shdr sectorsize htr
      (hovl hon shdr (by simp))
    have hs : stops ctx CL_CLEAN = false := by simp [stops]
    simp only [hon, if_true, h1, h2, hs, Bool.false_eq_true, if_false]
    exact cli_scangpt_scan_clean ctx map sectorsize state phdr shdr _ hmax hclean hval hfit
  · simp only [hon, if_false]
    exact cli_scangpt_scan_clean ctx map sectorsize state phdr shdr _ hmax hclean hval hfit

/-! ## The end-to-end example -/

theorem map_e2e_length : map_e2e.length = 131072 := by
  have h1 : hdr_e2e.length = 92 := by decide
  have h2 : (mk_entry 100 199).length = 128 := by decide!
  simp only [map_e2e, List.length_append, List.length_replicate, h1, h2]

theorem map_e2e_sig : sig_at map_e2e 512 :=
  ⟨by rw [map_e2e_length]; decide, by decide!⟩

theorem map_e2e_detect : gpt_detect_size map_e2e = some 512 :=
  gpt_detect_size_first_match map_e2e 512 (Or.inl rfl) map_e2e_sig
    (fun t ht hlt => by rcases ht with rfl | rfl | rfl | rfl <;> omega)

theorem lastLBA_of_length (map : List Byte) (n : Nat) (h : map.length = n) :
    lastLBA map 512 = (n / 512 + (U64 - 1)) % U64 := by
  rw [lastLBA, h]

theorem read_secondary_of_length (map : List Byte) (n : Nat) (h : map.length = n) :
    read_secondary map 512 = fmap_readn map ((n + (U64 - 512 % U64)) % U64) GPT_HDR_SIZE := by
  rw [read_secondary, h]

theorem map_e2e_last : lastLBA map_e2e 512 = 255 :=
  lastLBA_of_length map_e2e 131072 map_e2e_length

theorem map_e2e_table :
    fmap_need_off_once map_e2e (ptable_start hdr_e2e 512) (ptable_len hdr_e2e) =
      some (mk_entry 100 199) := by
  have h1 : ptable_start hdr_e2e 512 = 1024 := by decide!
  have h2 : ptable_len hdr_e2e = 128 := by decide!
  rw [h1, h2]
  unfold fmap_need_off_once
  rw [map_e2e_length, if_pos (by decide)]
  decide!

theorem hdr_e2e_valid : gpt_validate_header map_e2e hdr_e2e 512 = CL_SUCCESS := by
  rw [gpt_validate_header_success_iff, map_e2e_last, map_e2e_table, map_e2e_length]
  refine ⟨by decide!, by decide!, by decide!, by decide!, by decide!, by decide!, by decide!,
    by decide!, by decide!, by decide!, by decide!, by decide!, by decide!, by decide!, ?_⟩
  rw [crc32_eq_elim]
  decide!

theorem map_e2e_secondary : read_secondary map_e2e 512 = List.replicate 92 0 := by
  rw [read_secondary_of_length map_e2e 131072 map_e2e_length]
  decide!

theorem map_e2e_headers :
    cli_scangpt_headers map_e2e 512 (fun _ => 0) =
      Except.ok (PRIMARY_ONLY, hdr_e2e, List.replicate 92 0) := by
  have e1 : read_primary map_e2e 512 = hdr_e2e := by decide!
  have e2 : hdr_after_read (read_secondary map_e2e 512) (fun _ => 0) =
      List.replicate 92 0 := by
    rw [map_e2e_secondary]
    decide!
  have hz : gpt_validate_header map_e2e (List.replicate 92 0) 512 ≠ CL_SUCCESS := by
    rw [ne_eq, gpt_validate_header_success_iff]
    intro h
    exact absurd h.2.1 (by decide!)
  have h := cli_scangpt_headers_primary_only map_e2e 512 (fun _ => 0) (by rw [e1]; decide)
    (by rw [e1]; exact hdr_e2e_valid) (Or.inr (by rw [e2]; exact hz))
  rw [e1, e2] at h
  exact h

/-- The partition entry of `map_e2e` covers LBAs [100, 199], lies in the
usable range [34, 222] of the header and is accepted by both passes. -/
theorem map_e2e_entry :
    hdr_firstUsableLBA hdr_e2e = 34 ∧ hdr_lastUsableLBA hdr_e2e = 222 ∧
    hdr_tableNumEntries hdr_e2e = 1 ∧
    entry_rec map_e2e hdr_e2e 512 0 = mk_entry 100 199 ∧
    gpe_firstLBA (mk_entry 100 199) = 100 ∧ gpe_lastLBA (mk_entry 100 199) = 199 ∧
    entry_accepted map_e2e hdr_e2e 512 (mk_entry 100 199) := by
  refine ⟨by decide!, by decide!, by decide!, by decide!, by decide!, by decide!, ?_⟩
  unfold entry_accepted
  rw [map_e2e_length]
  decide!

/-- On the end-to-end image `map_e2e`, with a scanner that always reports
clean and a tracker that never reports a conflict, `cli_scangpt` returns
`CL_CLEAN` for sector size 0 (detected as 512) and for sector size 512, in
every configuration of mode, heuristic flags and partition limit. -/
theorem map_e2e_clean (ctx : cli_ctx) (arg : Nat) (hctx : ctx.fmap = some map_e2e)
    (harg : arg = 0 ∨ arg = 512)
    (hclean : ∀ off len, ctx.cli_map_scan off len = CL_CLEAN)
    (htr : ∀ prev start len, ctx.prtn_intxn_list_check prev start len = CL_CLEAN) :
    (cli_scangpt (some ctx) arg (fun _ => 0)).map Prod.fst = some CL_CLEAN := by
  have hn1 : hdr_tableNumEntries hdr_e2e = 1 := by decide!
  have hn0 : hdr_tableNumEntries (List.replicate 92 0) = 0 := by decide!
  have hp0 : entry_pos hdr_e2e 512 0 = 1024 := by decide!
  have hs : hdr_tableStartLBA hdr_e2e = 2 := by decide!
  have he : hdr_tableEntrySize hdr_e2e = 128 := by decide!
  apply cli_scangpt_clean_of_clean_scan ctx map_e2e arg 512 (fun _ => 0) PRIMARY_ONLY hdr_e2e
    (List.replicate 92 0) hctx _ (by decide) (by rw [map_e2e_length])
    (by rw [map_e2e_length]; decide!) map_e2e_headers hclean htr
  · intro h hm
    simp only [chosen_headers, List.mem_singleton] at hm
    rw [hm, hs, hn1, he, map_e2e_length]
    decide
  · intro _ h hm l hl
    simp only [List.mem_cons, List.mem_singleton, List.not_mem_nil, or_false] at hm
    rcases hm with rfl | rfl
    · have hl1 : l = 0 := by
        unfold max_prtns at hl
        rw [hn1] at hl
        split at hl <;> omega
      rw [hl1, hp0, map_e2e_length]
      decide
    · exfalso
      unfold max_prtns at hl
      rw [hn0] at hl
      split at hl <;> omega
  · rcases harg with rfl | rfl
    · simpa using map_e2e_detect
    · simp

/-! ## A clean scan that does not return clean -/

theorem map_junk_plain_result :
    cli_scangpt (some (ctx_plain map_junk)) 512 (fun _ => 0) =
      some (CL_CLEAN, [event.read 0 1024]) := by
  rw [cli_scangpt_of_headers (ctx_plain map_junk) map_junk 512 512 (fun _ => 0) PRIMARY_ONLY
    hdr_ok (List.replicate 92 255) rfl rfl (by decide) (by decide!) map_junk_headers]
  decide!

/-- C17: a chosen header that validates, a content scanner that always
reports clean and no reported overlap do not make `cli_scangpt` return
`CL_CLEAN`. On the image `map_junk` with 512-byte sectors the primary header
`hdr_ok` is accepted and chosen (state `PRIMARY_ONLY`), the scanner of
`ctx_heur` always reports clean and its tracker never reports a conflict, and
`cli_scangpt` returns `CL_EFORMAT`: with the overlap heuristic enabled the
overlap pass also runs over the rejected secondary header record, whose table
offset `2^64 - 512` lies outside the image, and the short read ends the call
before any partition is scanned. With the heuristic disabled the same image
gives `CL_CLEAN`. -/
theorem cli_scangpt_clean_scan_not_clean :
    cli_scangpt_headers map_junk 512 (fun _ => 0) =
      Except.ok (PRIMARY_ONLY, hdr_ok, List.replicate 92 255) ∧
    gpt_validate_header map_junk hdr_ok 512 = CL_SUCCESS ∧
    (∀ off len, (ctx_heur map_junk).cli_map_scan off len = CL_CLEAN) ∧
    (∀ prev start len, (ctx_heur map_junk).prtn_intxn_list_check prev start len = CL_CLEAN) ∧
    cli_scangpt (some (ctx_heur map_junk)) 512 (fun _ => 0) =
      some (CL_EFORMAT, [event.read 0 1024, event.read 0 (2 ^ 64 - 512)]) ∧
    cli_scangpt (some (ctx_plain map_junk)) 512 (fun _ => 0) =
      some (CL_CLEAN, [event.read 0 1024]) :=
  ⟨map_junk_headers, hdr_ok_valid_junk, fun _ _ => rfl, fun _ _ _ => rfl, map_junk_result,
    map_junk_plain_result⟩

/-! ## The result policy of the overlap pass -/

theorem gpt_prtn_intxn_eq_loop (ctx : cli_ctx) (map : List Byte) (hdr : gpt_header)
    (sectorsize : Nat) :
    gpt_prtn_intxn ctx map hdr sectorsize =
      gpt_prtn_intxn_loop ctx map hdr sectorsize (max_prtns ctx hdr)
        (intxn_start hdr sectorsize) := rfl

theorem gpt_prtn_intxn_state_next (ctx : cli_ctx) (map : List Byte) (hdr : gpt_header)
    (sectorsize k : Nat) (st st' : intxn_state)
    (h : gpt_prtn_intxn_body ctx map hdr sectorsize st = step.next st') :
    gpt_prtn_intxn_state ctx map hdr sectorsize (k + 1) st =
      gpt_prtn_intxn_state ctx map hdr sectorsize k st' := by
  rw [gpt_prtn_intxn_state, h]

/-- The overlap loop keeps `ret` and reaches every iteration when every entry
it comes to is read in full and the tracker reports no conflict for the
accepted ones. -/
theorem gpt_prtn_intxn_loop_quiet (ctx : cli_ctx) (map : List Byte) (hdr : gpt_header)
    (sectorsize : Nat) (n : Nat) (st : intxn_state)
    (hq : ∀ k, k < n → ∀ st', gpt_prtn_intxn_state ctx map hdr sectorsize k st = some st' →
      (fmap_readn map st'.pos GPT_ENTRY_SIZE).length = GPT_ENTRY_SIZE ∧
      (entry_accepted map hdr sectorsize (fmap_readn map st'.pos GPT_ENTRY_SIZE) →
        intxn_result ctx st' (fmap_readn map st'.pos GPT_ENTRY_SIZE) = CL_CLEAN)) :
    (gpt_prtn_intxn_loop ctx map hdr sectorsize n st).1 = st.ret ∧
    ∀ k, k < n → ∃ st', gpt_prtn_intxn_state ctx map hdr sectorsize k st = some st' ∧
      st'.i = st.i + k := by
  induction n generalizing st with
  | zero => exact ⟨rfl, fun k hk => absurd hk (Nat.not_lt_zero k)⟩
  | succ n ih =>
    obtain ⟨hr, hc⟩ := hq 0 (Nat.succ_pos n) st rfl
    have hb : ∃ st1, gpt_prtn_intxn_body ctx map hdr sectorsize st = step.next st1 ∧
        st1.ret = st.ret ∧ st1.i = st.i + 1 := by
      by_cases ha : entry_accepted map hdr sectorsize (fmap_readn map st.pos GPT_ENTRY_SIZE)
      · exact ⟨_, gpt_prtn_intxn_body_clean ctx map hdr sectorsize st hr ha (hc ha), rfl, rfl⟩
      · exact ⟨_, gpt_prtn_intxn_body_skip_next ctx map hdr sectorsize st hr ha, rfl, rfl⟩
    obtain ⟨st1, hb1, hret, hi⟩ := hb
    obtain ⟨h1, h2⟩ := ih st1 (fun k hk st' hs =>
      hq (k + 1) (Nat.succ_lt_succ hk) st'
        (by rw [gpt_prtn_intxn_state_next ctx map hdr sectorsize k st st1 hb1]; exact hs))
    refine ⟨?_, ?_⟩
    · rw [gpt_prtn_intxn_loop_next ctx map hdr sectorsize n st st1 hb1, h1, hret]
    · intro k hk
      cases k with
      | zero => exact ⟨st, rfl, rfl⟩
      | succ k =>
        obtain ⟨st', hs, hi'⟩ := h2 k (Nat.lt_of_succ_lt_succ hk)
        refine ⟨st', ?_, ?_⟩
        · rw [gpt_prtn_intxn_state_next ctx map hdr sectorsize k st st1 hb1]
          exact hs
        · rw [hi', hi]
          omega

/-- In all-matches mode the overlap loop that holds a detection in `ret`
reaches every remaining iteration and returns the detection, when every entry
it comes to is read in full and the tracker's result for the accepted ones is
clean or a detection. -/
theorem gpt_prtn_intxn_loop_virus_kept (ctx : cli_ctx) (map : List Byte) (hdr : gpt_header)
    (sectorsize : Nat) (hall : ctx.allmatches = true) (n : Nat) (st : intxn_state)
    (hret : st.ret = CL_VIRUS)
    (hq : ∀ k, k < n → ∀ st', gpt_prtn_intxn_state ctx map hdr sectorsize k st = some st' →
      (fmap_readn map st'.pos GPT_ENTRY_SIZE).length = GPT_ENTRY_SIZE ∧
      (entry_accepted map hdr sectorsize (fmap_readn map st'.pos GPT_ENTRY_SIZE) →
        intxn_result ctx st' (fmap_readn map st'.pos GPT_ENTRY_SIZE) = CL_CLEAN ∨
        intxn_result ctx st' (fmap_readn map st'.pos GPT_ENTRY_SIZE) = CL_VIRUS)) :
    (gpt_prtn_intxn_loop ctx map hdr sectorsize n st).1 = CL_VIRUS ∧
    ∀ k, k < n → ∃ st', gpt_prtn_intxn_state ctx map hdr sectorsize k st = some st' ∧
      st'.i = st.i + k := by
  induction n generalizing st with
  | zero => exact ⟨hret, fun k hk => absurd hk (Nat.not_lt_zero k)⟩
  | succ n ih =>
    obtain ⟨hr, hc⟩ := hq 0 (Nat.succ_pos n) st rfl
    have hb : ∃ st1, gpt_prtn_intxn_body ctx map hdr sectorsize st = step.next st1 ∧
        st1.ret = CL_VIRUS ∧ st1.i = st.i + 1 := by
      by_cases ha : entry_accepted map hdr sectorsize (fmap_readn map st.pos GPT_ENTRY_SIZE)
      · rcases hc ha with ht | ht
        · exact ⟨_, gpt_prtn_intxn_body_clean ctx map hdr sectorsize st hr ha ht, hret, rfl⟩
        · exact ⟨_, gpt_prtn_intxn_body_virus_all ctx map hdr sectorsize st hr ha ht hall,
            rfl, rfl⟩
      · exact ⟨_, gpt_prtn_intxn_body_skip_next ctx map hdr sectorsize st hr ha, hret, rfl⟩
    obtain ⟨st1, hb1, hret1, hi⟩ := hb
    obtain ⟨h1, h2⟩ := ih st1 hret1 (fun k hk st' hs =>
      hq (k + 1) (Nat.succ_lt_succ hk) st'
        (by rw [gpt_prtn_intxn_state_next ctx map hdr sectorsize k st st1 hb1]; exact hs))
    refine ⟨?_, ?_⟩
    · rw [gpt_prtn_intxn_loop_next ctx map hdr sectorsize n st st1 hb1, h1]
    · intro k hk
      cases k with
      | zero => exact ⟨st, rfl, rfl⟩
      | succ k =>
        obtain ⟨st', hs, hi'⟩ := h2 k (Nat.lt_of_succ_lt_succ hk)
        refine ⟨st', ?_, ?_⟩
        · rw [gpt_prtn_intxn_state_next ctx map hdr sectorsize k st st1 hb1]
          exact hs
        · rw [hi', hi]
          omega

/-- C21: the result policy of the overlap pass `gpt_prtn_intxn`. For an entry
that is read in full and accepted, with `n` entries after it: the loop returns
at this entry exactly when the stop test of the scan pass holds for the
tracker's result; a conflict in normal mode returns `CL_VIRUS` at once, the
events of this entry being the last ones; a conflict in all-matches mode
stores `CL_VIRUS` in `ret` and goes on, and when the later entries are read in
full with tracker results clean or detection, every one of the `n` later
iterations is reached and the pass returns `CL_VIRUS`; a tracker result that
is neither clean nor a detection is returned at once in either mode. And a
pass all of whose entries are read in full and in which the tracker never
reports a conflict returns `CL_CLEAN`. -/
theorem overlap_pass_policy (ctx : cli_ctx) (map : List Byte) (hdr : gpt_header)
    (sectorsize : Nat) (st : intxn_state) (n : Nat)
    (hr : (fmap_readn map st.pos GPT_ENTRY_SIZE).length = GPT_ENTRY_SIZE)
    (ha : entry_accepted map hdr sectorsize (fmap_readn map st.pos GPT_ENTRY_SIZE)) :
    (stops ctx (intxn_result ctx st (fmap_readn map st.pos GPT_ENTRY_SIZE)) = true ↔
      gpt_prtn_intxn_state ctx map hdr sectorsize 1 st = none) ∧
    (intxn_result ctx st (fmap_readn map st.pos GPT_ENTRY_SIZE) = CL_VIRUS →
      ctx.allmatches = false →
      gpt_prtn_intxn_loop ctx map hdr sectorsize (n + 1) st =
        (CL_VIRUS, st.trace ++ [event.read st.i st.pos,
          event.insert (gpe_firstLBA (fmap_readn map st.pos GPT_ENTRY_SIZE))
            (gpe_lastLBA (fmap_readn map st.pos GPT_ENTRY_SIZE) -
              gpe_firstLBA (fmap_readn map st.pos GPT_ENTRY_SIZE) + 1),
          event.append_virus])) ∧
    (intxn_result ctx st (fmap_readn map st.pos GPT_ENTRY_SIZE) = CL_VIRUS →
      ctx.allmatches = true →
      gpt_prtn_intxn_loop ctx map hdr sectorsize (n + 1) st =
        gpt_prtn_intxn_loop ctx map hdr sectorsize n
          (intxn_next hdr st CL_VIRUS [gpe_interval (fmap_readn map st.pos GPT_ENTRY_SIZE)]
            [event.read st.i st.pos,
              event.insert (gpe_firstLBA (fmap_readn map st.pos GPT_ENTRY_SIZE))
                (gpe_lastLBA (fmap_readn map st.pos GPT_ENTRY_SIZE) -
                  gpe_firstLBA (fmap_readn map st.pos GPT_ENTRY_SIZE) + 1),
              event.append_virus]) ∧
      ((∀ k, 1 ≤ k → k < n + 1 → ∀ st',
          gpt_prtn_intxn_state ctx map hdr sectorsize k st = some st' →
          (fmap_readn map st'.pos GPT_ENTRY_SIZE).length = GPT_ENTRY_SIZE ∧
          (entry_accepted map hdr sectorsize (fmap_readn map st'.pos GPT_ENTRY_SIZE) →
            intxn_result ctx st' (fmap_readn map st'.pos GPT_ENTRY_SIZE) = CL_CLEAN ∨
            intxn_result ctx st' (fmap_readn map st'.pos GPT_ENTRY_SIZE) = CL_VIRUS)) →
        (gpt_prtn_intxn_loop ctx map hdr sectorsize (n + 1) st).1 = CL_VIRUS ∧
        ∀ k, k < n + 1 → ∃ st',
          gpt_prtn_intxn_state ctx map hdr sectorsize k st = some st' ∧ st'.i = st.i + k)) ∧
    (intxn_result ctx st (fmap_readn map st.pos GPT_ENTRY_SIZE) ≠ CL_CLEAN →
      intxn_result ctx st (fmap_readn map st.pos GPT_ENTRY_SIZE) ≠ CL_VIRUS →
      gpt_prtn_intxn_loop ctx map hdr sectorsize (n + 1) st =
        (intxn_result ctx st (fmap_readn map st.pos GPT_ENTRY_SIZE),
          st.trace ++ [event.read st.i st.pos,
            event.insert (gpe_firstLBA (fmap_readn map st.pos GPT_ENTRY_SIZE))
              (gpe_lastLBA (fmap_readn map st.pos GPT_ENTRY_SIZE) -
                gpe_firstLBA (fmap_readn map st.pos GPT_ENTRY_SIZE) + 1)])) ∧
    ((∀ k, k < max_prtns ctx hdr → ∀ st',
        gpt_prtn_intxn_state ctx map hdr sectorsize k (intxn_start hdr sectorsize) = some st' →
        (fmap_readn map st'.pos GPT_ENTRY_SIZE).length = GPT_ENTRY_SIZE ∧
        (entry_accepted map hdr sectorsize (fmap_readn map st'.pos GPT_ENTRY_SIZE) →
          intxn_result ctx st' (fmap_readn map st'.pos GPT_ENTRY_SIZE) = CL_CLEAN)) →
      (gpt_prtn_intxn ctx map hdr sectorsize).1 = CL_CLEAN) := by
  refine ⟨?_, ?_, ?_, ?_, ?_⟩
  · by_cases hc : intxn_result ctx st (fmap_readn map st.pos GPT_ENTRY_SIZE) = CL_CLEAN
    · rw [gpt_prtn_intxn_state, gpt_prtn_intxn_body_clean ctx map hdr sectorsize st hr ha hc, hc]
      simp [stops, gpt_prtn_intxn_state]
    · by_cases hv : intxn_result ctx st (fmap_readn map st.pos GPT_ENTRY_SIZE) = CL_VIRUS
      · cases hall : ctx.allmatches
        · rw [gpt_prtn_intxn_state,
            gpt_prtn_intxn_body_virus_stop ctx map hdr sectorsize st hr ha hv hall, hv]
          simp [stops, hall]
        · rw [gpt_prtn_intxn_state,
            gpt_prtn_intxn_body_virus_all ctx map hdr sectorsize st hr ha hv hall, hv]
          simp [stops, hall, gpt_prtn_intxn_state]
      · rw [gpt_prtn_intxn_state,
          gpt_prtn_intxn_body_error ctx map hdr sectorsize st hr ha hc hv]
        simp [stops, hc, hv]
  · intro hv hall
    exact gpt_prtn_intxn_loop_done ctx map hdr sectorsize n st _ _
      (gpt_prtn_intxn_body_virus_stop ctx map hdr sectorsize st hr ha hv hall)
  · intro hv hall
    have hb := gpt_prtn_intxn_body_virus_all ctx map hdr sectorsize st hr ha hv hall
    refine ⟨gpt_prtn_intxn_loop_next ctx map hdr sectorsize n st _ hb, fun hq => ?_⟩
    obtain ⟨h1, h2⟩ := gpt_prtn_intxn_loop_virus_kept ctx map hdr sectorsize hall n _ rfl
      (fun k hk st' hs => hq (k + 1) (Nat.succ_pos k) (Nat.succ_lt_succ hk) st'
        (by rw [gpt_prtn_intxn_state_next ctx map hdr sectorsize k st _ hb]; exact hs))
    refine ⟨?_, ?_⟩
    · rw [gpt_prtn_intxn_loop_next ctx map hdr sectorsize n st _ hb, h1]
    · intro k hk
      cases k with
      | zero => exact ⟨st, rfl, rfl⟩
      | succ k =>
        obtain ⟨st', hs, hi'⟩ := h2 k (Nat.lt_of_succ_lt_succ hk)
        refine ⟨st', ?_, ?_⟩
        · rw [gpt_prtn_intxn_state_next ctx map hdr sectorsize k st _ hb]
          exact hs
        · rw [hi']
          simp only [intxn_next]
          omega
  · intro hc hv
    exact gpt_prtn_intxn_loop_done ctx map hdr sectorsize n st _ _
      (gpt_prtn_intxn_body_error ctx map hdr sectorsize st hr ha hc hv)
  · intro hq
    rw [gpt_prtn_intxn_eq_loop]
    exact (gpt_prtn_intxn_loop_quiet ctx map hdr sectorsize _ _ hq).1

/-- C21 at a concrete input: the overlap pass over `map_ovl_c` (entries
[10,20], [15,25], [26,30]) at entry 1, for which the tracker reports a
conflict. In normal mode the pass returns `CL_VIRUS` with the events of entry
1 as the last ones; in all-matches mode it goes on to entry 2, which is
conflict-free, and returns `CL_VIRUS`. -/
theorem overlap_pass_policy_witness :
    (fmap_readn map_ovl_c st_ovl_c.pos GPT_ENTRY_SIZE).length = GPT_ENTRY_SIZE ∧
    entry_accepted map_ovl_c hdr_ovl_c 512 (fmap_readn map_ovl_c st_ovl_c.pos GPT_ENTRY_SIZE) ∧
    gpt_prtn_intxn_loop (ctx_ovl map_ovl_c) map_ovl_c hdr_ovl_c 512 2 st_ovl_c =
      (CL_VIRUS, [event.read 0 1024, event.insert 10 11, event.read 1 1152,
        event.insert 15 11, event.append_virus]) ∧
    (gpt_prtn_intxn_loop (ctx_ovl_all map_ovl_c) map_ovl_c hdr_ovl_c 512 2 st_ovl_c).1 =
      CL_VIRUS ∧
    gpt_prtn_intxn_state (ctx_ovl_all map_ovl_c) map_ovl_c hdr_ovl_c 512 1 st_ovl_c =
      some st_ovl_c2 ∧
    intxn_result (ctx_ovl_all map_ovl_c) st_ovl_c2
      (fmap_readn map_ovl_c st_ovl_c2.pos GPT_ENTRY_SIZE) = CL_CLEAN :=
  have hs : gpt_prtn_intxn_state (ctx_ovl_all map_ovl_c) map_ovl_c hdr_ovl_c 512 1 st_ovl_c =
      some st_ovl_c2 := by decide!
  have hc : intxn_result (ctx_ovl_all map_ovl_c) st_ovl_c2
      (fmap_readn map_ovl_c st_ovl_c2.pos GPT_ENTRY_SIZE) = CL_CLEAN := by decide!
  ⟨by decide!, by decide!,
    ((overlap_pass_policy (ctx_ovl map_ovl_c) map_ovl_c hdr_ovl_c 512 st_ovl_c 1 (by decide!)
      (by decide!)).2.1 (by decide!) rfl).trans (by decide!),
    (((overlap_pass_policy (ctx_ovl_all map_ovl_c) map_ovl_c hdr_ovl_c 512 st_ovl_c 1
      (by decide!) (by decide!)).2.2.1 (by decide!) rfl).2 (fun k h1 h2 st' h => by
        have hk : k = 1 := by omega
        subst hk
        rw [hs] at h
        cases h
        exact ⟨by decide!, fun _ => Or.inl hc⟩)).1,
    hs, hc⟩

/-- The header of `map_ovl_c` is accepted, so the passes over its table are
reached from `cli_scangpt`. -/
theorem hdr_ovl_c_valid : gpt_validate_header map_ovl_c hdr_ovl_c 512 = CL_SUCCESS := by
  rw [gpt_validate_header_success_iff]
  refine ⟨by decide!, by decide!, by decide!, by decide!, by decide!, by decide!, by decide!,
    by decide!, by decide!, by decide!, by decide!, by decide!, by decide!, by decide!, ?_⟩
  rw [crc32_eq_elim]
  decide!

/-- The overlap pass over the table of `map_ovl_c` in both modes: in normal
mode entry 2 is not read, in all-matches mode it is read and inserted, and
the result is `CL_VIRUS` in both. -/
theorem map_ovl_c_passes :
    gpt_prtn_intxn (ctx_ovl map_ovl_c) map_ovl_c hdr_ovl_c 512 =
      (CL_VIRUS, [event.read 0 1024, event.insert 10 11, event.read 1 1152,
        event.insert 15 11, event.append_virus]) ∧
    gpt_prtn_intxn (ctx_ovl_all map_ovl_c) map_ovl_c hdr_ovl_c 512 =
      (CL_VIRUS, [event.read 0 1024, event.insert 10 11, event.read 1 1152,
        event.insert 15 11, event.append_virus, event.read 2 1280, event.insert 26 5]) :=
  ⟨by decide!, by decide!⟩

/-! ## The name loop of the scan pass -/

theorem name_loop_eq (i : Nat) : name_loop i = List.replicate 36 i := by
  unfold name_loop
  exact List.eq_replicate_iff.2 ⟨by simp, fun b hb => by
    obtain ⟨_, _, rfl⟩ := List.mem_map.1 hb
    rfl⟩

theorem hdr_names_valid : gpt_validate_header map_names hdr_names 512 = CL_SUCCESS := by
  rw [gpt_validate_header_success_iff]
  refine ⟨by decide!, by decide!, by decide!, by decide!, by decide!, by decide!, by decide!,
    by decide!, by decide!, by decide!, by decide!, by decide!, by decide!, by decide!, ?_⟩
  rw [crc32_eq_elim]
  decide!

theorem map_names_headers :
    cli_scangpt_headers map_names 512 (fun _ => 0) =
      Except.ok (PRIMARY_ONLY, hdr_names, List.replicate 92 0) := by
  have e1 : read_primary map_names 512 = hdr_names := by decide!
  have e2 : hdr_after_read (read_secondary map_names 512) (fun _ => 0) =
      List.replicate 92 0 := by decide!
  have hz : gpt_validate_header map_names (List.replicate 92 0) 512 ≠ CL_SUCCESS := by
    rw [ne_eq, gpt_validate_header_success_iff]
    intro h
    exact absurd h.2.1 (by decide!)
  have h := cli_scangpt_headers_primary_only map_names 512 (fun _ => 0) (by rw [e1]; decide)
    (by rw [e1]; exact hdr_names_valid) (Or.inr (by rw [e2]; exact hz))
  rw [e1, e2] at h
  exact h

theorem map_names_scan :
    gpt_scan_partitions (ctx_plain map_names) map_names hdr_names 512 =
      (CL_CLEAN, (List.range 37).map fun i => event.read i (1024 + 128 * i)) := by
  decide!

/-- With the overlap heuristic disabled and the state `PRIMARY_ONLY`, the
passes of `cli_scangpt` are one call of `gpt_scan_partitions` on the primary
header. -/
theorem cli_scangpt_passes_primary_plain (ctx : cli_ctx) (map : List Byte) (sectorsize : Nat)
    (phdr shdr : gpt_header) (hoff : (ctx.partition_intxn && ctx.dconf_prtnintxn) = false) :
    cli_scangpt_passes ctx map sectorsize PRIMARY_ONLY phdr shdr =
      gpt_scan_partitions ctx map phdr sectorsize := by
  unfold cli_scangpt_passes
  rw [hoff]
  simp [cli_scangpt_scan]

theorem map_names_result :
    cli_scangpt (some (ctx_plain map_names)) 512 (fun _ => 0) =
      some (CL_CLEAN, (List.range 37).map fun i => event.read i (1024 + 128 * i)) := by
  rw [cli_scangpt_of_headers (ctx_plain map_names) map_names 512 512 (fun _ => 0) PRIMARY_ONLY
    hdr_names (List.replicate 92 0) rfl rfl (by decide) (by decide!) map_names_headers,
    cli_scangpt_passes_primary_plain (ctx_plain map_names) map_names 512 hdr_names
      (List.replicate 92 0) rfl, map_names_scan]

theorem map_names_accesses :
    gpt_scan_partitions_names (ctx_plain map_names) map_names hdr_names 512 =
      (List.range 37).flatMap fun i => List.replicate 36 (i, i) := by
  decide!

/-- In an iteration of the scan loop whose entry is read in full, the name
loop accesses `gpe.name[st.i]` 36 times and no other code unit. -/
theorem gpt_scan_names_head (ctx : cli_ctx) (map : List Byte) (hdr : gpt_header)
    (sectorsize n : Nat) (st : scan_state)
    (hr : (fmap_readn map st.pos GPT_ENTRY_SIZE).length = GPT_ENTRY_SIZE) :
    (gpt_scan_names ctx map hdr sectorsize (n + 1) st).take 36 =
      List.replicate 36 (st.i, st.i) := by
  rw [gpt_scan_names, if_neg (not_not.2 hr), name_loop_eq, List.map_replicate,
    List.take_append_of_le_length (by simp)]
  exact List.take_of_length_le (by simp)

/-- The code unit `name[k]` lies inside the 128-byte entry record exactly when
`k < 36`. -/
theorem gpe_name_off_in_record (k : Nat) :
    gpe_name_off k + 2 ≤ GPT_ENTRY_SIZE ↔ k < GPT_NAME_UNITS := by
  unfold gpe_name_off GPT_ENTRY_SIZE GPT_NAME_UNITS
  omega

/-- C22 (evaluation at the failing input): the name loop of
`gpt_scan_partitions` indexes `gpe.name` with the partition index. On the
image `map_names`, whose accepted primary header has a table of 37 entries,
`cli_scangpt` with sector size 512 and limit 128 runs the scan pass over all
37 entries; in the iteration for partition `i` the 36 executions of the name
loop all access `name[i]`, so for partition 36 they access `name[36]`, whose
bytes lie at offset 128 of the 128-byte entry record, outside the array, and
for partition 0 they access `name[0]` only, never the code units 1 to 35. -/
theorem gpt_scan_partitions_name_index :
    cli_scangpt_headers map_names 512 (fun _ => 0) =
      Except.ok (PRIMARY_ONLY, hdr_names, List.replicate 92 0) ∧
    cli_scangpt (some (ctx_plain map_names)) 512 (fun _ => 0) =
      some (CL_CLEAN, (List.range 37).map fun i => event.read i (1024 + 128 * i)) ∧
    max_prtns (ctx_plain map_names) hdr_names = 37 ∧
    gpt_scan_partitions_names (ctx_plain map_names) map_names hdr_names 512 =
      (List.range 37).flatMap (fun i => List.replicate 36 (i, i)) ∧
    (36, 36) ∈ gpt_scan_partitions_names (ctx_plain map_names) map_names hdr_names 512 ∧
    ¬ 36 < GPT_NAME_UNITS ∧
    gpe_name_off 36 = GPT_ENTRY_SIZE ∧
    (∀ k, (0, k) ∈ gpt_scan_partitions_names (ctx_plain map_names) map_names hdr_names 512 →
      k = 0) := by
  refine ⟨map_names_headers, map_names_result, by decide!, map_names_accesses, ?_, by decide,
    by decide, ?_⟩
  · rw [map_names_accesses]
    exact List.mem_flatMap.2 ⟨36, by simp, by simp⟩
  · intro k hk
    rw [map_names_accesses] at hk
    obtain ⟨i, _, hi⟩ := List.mem_flatMap.1 hk
    have h := (List.mem_replicate.1 hi).2
    simp only [Prod.mk.injEq] at h
    omega

end Gpt
